import Mathlib

/-!
# PdfForQt colour spaces: resolver and colour conversion

A shallow embedding of `PdfForQtLib/sources/pdfcolorspaces.cpp` and
`pdfcolorspaces.h`.

Conventions of the embedding

* `PDFColorComponent` (`float` in the source) is an exact rational: every
  statement about colour values is a statement in exact arithmetic.
* A thrown `PDFParserException` is the `Except.error` result of the resolver.
* A failed `Q_ASSERT` in `getColor` is the result `none`; `getColorRelease` is
  `getColor` in a build without assertions, with the conversion to `int` of the
  conversion instruction.
* A `PDFInteger` is an integer; where the source converts one to `int` the
  embedding takes it modulo 2^32 (`narrowToInt`).
* Names (`QByteArray` compared with C strings) are `String`s, byte data is a
  list of bytes.
* The PDF object model, the document, the data loader, `QColor`, `PDFFlatArray`
  and `PDFFunction` are collaborators whose sources are not part of
  `pdfcolorspaces.*`; they are modelled at their interface.
-/

namespace pdf

/-! ## Object model (collaborator interface) -/

abbrev PDFColorComponent := ℚ

/-- The type `PDFColor` is `PDFFlatArray<PDFColorComponent, 4>`: an ordered tuple of components. -/
abbrev PDFColor := List PDFColorComponent

abbrev PDFInteger := Int

/-- Byte data (`QByteArray`), every byte an unsigned value `0..255`. -/
abbrev QByteArray := List (Fin 256)

structure PDFObjectReference where
  objectNumber : Int
  generation : Int
  deriving DecidableEq

/-- Modelled from the spec: the generic PDF object (`pdfobject.h` is not among the
sources). An object is a null, boolean, integer, real, string, name, array, dictionary,
stream (a dictionary with content) or an indirect reference. -/
inductive PDFObject where
  | null
  | bool (value : Bool)
  | int (value : PDFInteger)
  | real (value : ℚ)
  | string (bytes : QByteArray)
  | name (n : String)
  | array (items : List PDFObject)
  | dictionary (entries : List (String × PDFObject))
  | stream (entries : List (String × PDFObject)) (content : QByteArray)
  | reference (ref : PDFObjectReference)

/-- A dictionary is an ordered list of key/value entries. -/
abbrev PDFDictionary := List (String × PDFObject)

/-- Modelled from the spec: `Dictionary.hasKey(key) -> bool`. -/
def PDFDictionary.hasKey (dictionary : PDFDictionary) (key : String) : Bool :=
  dictionary.any (fun entry => entry.1 == key)

/-- Modelled from the spec: `Dictionary.get(key) -> Object`; the null object when the
key is absent. -/
def PDFDictionary.get (dictionary : PDFDictionary) (key : String) : PDFObject :=
  match dictionary.find? (fun entry => entry.1 == key) with
  | some entry => entry.2
  | none => .null

/-- Modelled from the spec: `PDFArray::getItem`; positions past the end are never read by
the resolver, the model gives the null object there. -/
def PDFArray.getItem (items : List PDFObject) (index : Nat) : PDFObject :=
  items.getD index .null

/-- Modelled from the spec: the tint-transform evaluator
`apply(inputComponents) -> outputComponents | failure`. `apply x n` is called with the
input values and the number `n` of output slots; `none` is a failed evaluation. -/
structure PDFFunction where
  apply : List ℚ → Nat → Option (List ℚ)

/-- The one exception type thrown by the resolver, one constructor per message. -/
inductive PDFParserException where
  /-- Message "Can't load color space, because color space structure is too complex." -/
  | tooComplex
  /-- Message "Invalid color space." -/
  | invalidColorSpace
  /-- Message "Can't determine alternate color space for ICC based profile. Number of
  components is %1." -/
  | iccUnknownComponentCount (N : PDFInteger)
  /-- Message "Too much color components for ICC based profile." -/
  | iccTooMuchComponents
  /-- Message "Invalid colors for indexed color space. ..." with its four arguments. -/
  | indexedInvalidColors (colorCount componentCount byteCount providedSize : Int)
  /-- Message "Can't determine color name for separation color space." -/
  | separationNoColorName
  /-- Message "Can't determine tint transform for separation color space." -/
  | separationNoTintTransform
  /-- An exception thrown by a collaborator (function construction). -/
  | collaborator (message : String)
  deriving DecidableEq

/-- Modelled from the spec: the document as object-graph accessor. `storage` is
`dereference(ref) -> Object`, `decode` is `Stream.decodedBytes()` (it sees the stream
dictionary and the raw content), `createFunction` is the constructor of the tint-transform
collaborator (`PDFFunction::createFunction`), which returns a function, a null pointer
(`none`) or throws. -/
structure PDFDocument where
  storage : PDFObjectReference → PDFObject
  decode : PDFDictionary → QByteArray → QByteArray
  createFunction : PDFObject → Except PDFParserException (Option PDFFunction)

/-- Modelled from the spec: `PDFDocument::getObject`, one dereferencing step for an
indirect reference, the object itself otherwise. -/
def PDFDocument.getObject (document : PDFDocument) (object : PDFObject) : PDFObject :=
  match object with
  | .reference ref => document.storage ref
  | other => other

/-- Modelled from the spec: `PDFDocument::getDecodedStream`. -/
def PDFDocument.getDecodedStream (document : PDFDocument) (entries : PDFDictionary)
    (content : QByteArray) : QByteArray :=
  document.decode entries content

/-! ## Data loader (collaborator interface)

Modelled from the spec: "Numeric field loader: reads a fixed-size array of reals or a
single real/integer from a dictionary key, applying a caller-supplied default when absent
or malformed." -/

/-- Modelled from the spec: `PDFDocumentDataLoaderDecorator::readInteger`, the integer
value of the dereferenced object, the default when it is not an integer. -/
def readInteger (document : PDFDocument) (object : PDFObject) (defaultValue : PDFInteger) :
    PDFInteger :=
  match document.getObject object with
  | .int value => value
  | _ => defaultValue

/-- Modelled from the spec: `PDFDocumentDataLoaderDecorator::readIntegerFromDictionary`. -/
def readIntegerFromDictionary (document : PDFDocument) (dictionary : PDFDictionary)
    (key : String) (defaultValue : PDFInteger) : PDFInteger :=
  if dictionary.hasKey key then readInteger document (dictionary.get key) defaultValue
  else defaultValue

/-- A number object (integer or real) as a rational. -/
def PDFObject.asNumber? : PDFObject → Option ℚ
  | .int value => some (value : ℚ)
  | .real value => some value
  | _ => none

/-- Modelled from the spec: `PDFDocumentDataLoaderDecorator::readNumber`. -/
def readNumber (document : PDFDocument) (object : PDFObject) (defaultValue : ℚ) : ℚ :=
  match (document.getObject object).asNumber? with
  | some value => value
  | none => defaultValue

/-- Modelled from the spec: `PDFDocumentDataLoaderDecorator::readNumberFromDictionary`. -/
def readNumberFromDictionary (document : PDFDocument) (dictionary : PDFDictionary)
    (key : String) (defaultValue : ℚ) : ℚ :=
  if dictionary.hasKey key then readNumber document (dictionary.get key) defaultValue
  else defaultValue

/-- All entries of an array as numbers, `none` when one of them is not a number. -/
def readNumbers? (document : PDFDocument) : List PDFObject → Option (List ℚ)
  | [] => some []
  | item :: rest =>
    match (document.getObject item).asNumber?, readNumbers? document rest with
    | some value, some values => some (value :: values)
    | _, _ => none

/-- Modelled from the spec: `PDFDocumentDataLoaderDecorator::readNumberArrayFromDictionary`
for the `n` slots of a fixed-size array. The slots are overwritten when the key holds an
array of exactly `n` numbers; they keep the caller's values (the default) when the key is
absent or its value is malformed. -/
def readNumberArrayFromDictionary {n : Nat} (document : PDFDocument)
    (dictionary : PDFDictionary) (key : String) (slots : Fin n → ℚ) : Fin n → ℚ :=
  if dictionary.hasKey key then
    match document.getObject (dictionary.get key) with
    | .array items =>
      match readNumbers? document items with
      | some values => if values.length = n then fun i => values.getD i.val (slots i) else slots
      | none => slots
    | _ => slots
  else slots

/-! ## Colours (collaborator interface and numeric utilities) -/

/-- Modelled from the spec: the resulting colour value (`QColor` of Qt). A colour is
invalid, an RGB colour or a CMYK colour; the channels are the values handed to
`setRgbF` / `setCmykF`, the last one is alpha. -/
inductive QColor where
  | invalid
  | rgb (r g b a : ℚ)
  | cmyk (c m y k a : ℚ)
  deriving DecidableEq

/-- The colour `QColor(Qt::black)`: opaque RGB black. -/
def QColor.black : QColor := .rgb 0 0 0 1

/-- The function `qMin` of Qt. -/
def qMin {α : Type} [LT α] [DecidableRel (fun a b : α => a < b)] (a b : α) : α :=
  if a < b then a else b

/-- The function `qMax` of Qt. -/
def qMax {α : Type} [LT α] [DecidableRel (fun a b : α => a < b)] (a b : α) : α :=
  if a < b then b else a

/-- The function `qBound(min, val, max)` of Qt: `qMax(min, qMin(max, val))`. -/
def qBound {α : Type} [LT α] [DecidableRel (fun a b : α => a < b)] (min val max : α) : α :=
  qMax min (qMin max val)

/-- The conversion `static_cast<int>` of a component where C++ defines it: truncation
towards zero. The C++ conversion is defined when the truncated value fits `int`; what the
conversion instruction gives outside that range is `staticCastInt`. -/
def truncToInt (x : ℚ) : Int :=
  if 0 ≤ x then ⌊x⌋ else ⌈x⌉

abbrev PDFColor3 := Fin 3 → PDFColorComponent

/-- Matrix `PDFColorComponentMatrix<3, 3>`: nine values in row order. -/
abbrev PDFColorComponentMatrix_3x3 := Fin 9 → PDFColorComponent

/-- Operator `PDFColorComponentMatrix<3, 3>::operator*`, the two loops unrolled:
`result[row] += m_values[row * Cols + column] * color[column]` from `result = { }`. -/
def PDFColorComponentMatrix_3x3.mul (m_values : PDFColorComponentMatrix_3x3)
    (color : PDFColor3) : PDFColor3 :=
  ![0 + m_values 0 * color 0 + m_values 1 * color 1 + m_values 2 * color 2,
    0 + m_values 3 * color 0 + m_values 4 * color 1 + m_values 5 * color 2,
    0 + m_values 6 * color 0 + m_values 7 * color 1 + m_values 8 * color 2]

/-- Clips the color component to range [0, 1]. -/
def clip01 (component : PDFColorComponent) : PDFColorComponent :=
  qBound 0 component 1

/-- Clips the color to range [0 1] in all components. -/
def clip01Color3 (color : PDFColor3) : PDFColor3 :=
  fun i => clip01 (color i)

/-- Conversion matrix from XYZ space to RGB space. -/
def matrixXYZtoRGB : PDFColorComponentMatrix_3x3 :=
  ![ 32406 / 10000, -15372 / 10000,  -4986 / 10000,
     -9689 / 10000,  18758 / 10000,    415 / 10000,
       557 / 10000,  -2040 / 10000,  10570 / 10000]

def convertXYZtoRGB (xyzColor : PDFColor3) : PDFColor3 :=
  matrixXYZtoRGB.mul xyzColor

def colorMultiplyByFactor (color : PDFColor3) (factor : PDFColorComponent) : PDFColor3 :=
  fun i => color i * factor

def colorMultiplyByFactors (color factors : PDFColor3) : PDFColor3 :=
  fun i => color i * factors i

/-- Powers color by factors; `powf` is `std::powf`, a parameter of the embedding. -/
def colorPowerByFactors (powf : ℚ → ℚ → ℚ) (color factors : PDFColor3) : PDFColor3 :=
  fun i => powf (color i) (factors i)

/-- Converts RGB values of range [0.0, 1.0] to standard QColor. -/
def fromRGB01 (color : PDFColor3) : QColor :=
  let r := clip01 (color 0)
  let g := clip01 (color 1)
  let b := clip01 (color 2)
  .rgb r g b 1

/-! ## Colour space variants -/

/-- The closed set of colour space classes of `pdfcolorspaces.cpp`, one constructor per
class, the arguments are the members. The correction coefficients of `PDFXYZColorSpace`
are a function of the white point (`correctionCoefficients`). The `a*`/`b*` bounds of Lab
are `none` for the infinite defaults (`aMin`, `bMin`: minus infinity; `aMax`, `bMax`: plus
infinity). -/
inductive PDFAbstractColorSpace where
  | deviceGray
  | deviceRGB
  | deviceCMYK
  | calGray (whitePoint blackPoint : PDFColor3) (gamma : PDFColorComponent)
  | calRGB (whitePoint blackPoint gamma : PDFColor3) (matrix : PDFColorComponentMatrix_3x3)
  | lab (whitePoint blackPoint : PDFColor3) (aMin aMax bMin bMax : Option PDFColorComponent)
  | iccBased (alternateColorSpace : PDFAbstractColorSpace) (range : Fin 8 → PDFColorComponent)
  | indexed (baseColorSpace : PDFAbstractColorSpace) (colors : QByteArray) (maxValue : Int)
  | separation (colorName : String) (alternateColorSpace : PDFAbstractColorSpace)
      (tintTransform : PDFFunction)

/-- Constructor `PDFXYZColorSpace::PDFXYZColorSpace`: the reciprocals of the white point
mapped from XYZ to RGB. Where a mapped component is zero the source divides by zero in
single precision and continues with an infinite coefficient; the reciprocal is 0 here. -/
def correctionCoefficients (whitePoint : PDFColor3) : PDFColor3 :=
  let mappedWhitePoint := convertXYZtoRGB whitePoint
  ![1 / mappedWhitePoint 0, 1 / mappedWhitePoint 1, 1 / mappedWhitePoint 2]

def PDFAbstractColorSpace.getColorComponentCount : PDFAbstractColorSpace → Nat
  | .deviceGray => 1
  | .deviceRGB => 3
  | .deviceCMYK => 4
  | .calGray _ _ _ => 1
  | .calRGB _ _ _ _ => 3
  | .lab _ _ _ _ _ _ => 3
  | .iccBased alternateColorSpace _ => alternateColorSpace.getColorComponentCount
  | .indexed _ _ _ => 1
  | .separation _ _ _ => 1

/-- Constants `PDFIndexedColorSpace::MIN_VALUE` and `MAX_VALUE`. -/
def MIN_VALUE : Int := 0

def MAX_VALUE : Int := 255

/-- Entry `m_range[i]` of the ICC ranges; positions past the eight entries are not read
for a component count of at most four. -/
def rangeAt (range : Fin 8 → PDFColorComponent) (i : Nat) : PDFColorComponent :=
  if h : i < 8 then range ⟨i, h⟩ else 0

/-- The clipping loop of `PDFICCBasedColorSpace::getColor` from component `i` on:
`clippedColor[i] = qBound(m_range[2 * i + 0], clippedColor[i], m_range[2 * i + 1])`. -/
def clipByRange (range : Fin 8 → PDFColorComponent) : Nat → PDFColor → PDFColor
  | _, [] => []
  | i, component :: rest =>
    qBound (rangeAt range (2 * i + 0)) component (rangeAt range (2 * i + 1))
      :: clipByRange range (i + 1) rest

/-- The clipping `qBound(m_aMin, value, m_aMax)` of Lab with the infinite defaults. -/
def qBoundRange (min : Option PDFColorComponent) (value : PDFColorComponent)
    (max : Option PDFColorComponent) : PDFColorComponent :=
  let upper := match max with
    | some maxValue => qMin maxValue value
    | none => value
  match min with
  | some minValue => qMax minValue upper
  | none => upper

/-- The lambda `g` of `PDFLabColorSpace::getColor`. -/
def labG (x : PDFColorComponent) : PDFColorComponent :=
  if x ≥ 6 / 29 then x * x * x else (108 / 841) * (x - 4 / 29)

/-- The decoding loop of `PDFIndexedColorSpace::getColor`: `componentCount` bytes from
`byteOffset` on, each divided by 255. -/
def decodeColor (colors : QByteArray) (byteOffset : Nat) (componentCount : Nat) : PDFColor :=
  (List.range componentCount).map
    (fun i => (((colors.getD (byteOffset + i) 0).val : ℚ)) / 255)

/-- The output buffer of the tint transform: `slots` values, those the function wrote,
zero elsewhere. -/
def outputBuffer (written : List ℚ) (slots : Nat) : PDFColor :=
  (List.range slots).map (fun i => written.getD i 0)

/-- The virtual function `getColor` of every class in a build with assertions; `none` is a
failed `Q_ASSERT`. The parameter `powf` is `std::powf`. The build without assertions is
`getColorRelease`. -/
def PDFAbstractColorSpace.getColor (powf : ℚ → ℚ → ℚ) :
    PDFAbstractColorSpace → PDFColor → Option QColor
  | .deviceGray, color =>
    if color.length = 1 then
      let component := clip01 (color.getD 0 0)
      some (.rgb component component component 1)
    else none
  | .deviceRGB, color =>
    if color.length = 3 then
      some (fromRGB01 ![color.getD 0 0, color.getD 1 0, color.getD 2 0])
    else none
  | .deviceCMYK, color =>
    if color.length = 4 then
      let c := clip01 (color.getD 0 0)
      let m := clip01 (color.getD 1 0)
      let y := clip01 (color.getD 2 0)
      let k := clip01 (color.getD 3 0)
      some (.cmyk c m y k 1)
    else none
  | .calGray whitePoint _ gamma, color =>
    if color.length = 1 then
      let A := clip01 (color.getD 0 0)
      let xyzColor := powf A gamma
      let xyzColorMultipliedByWhitePoint := colorMultiplyByFactor whitePoint xyzColor
      let rgb := convertXYZtoRGB xyzColorMultipliedByWhitePoint
      let calibratedRGB := colorMultiplyByFactors rgb (correctionCoefficients whitePoint)
      some (fromRGB01 calibratedRGB)
    else none
  | .calRGB whitePoint _ gamma matrix, color =>
    if color.length = 3 then
      let ABC := clip01Color3 ![color.getD 0 0, color.getD 1 0, color.getD 2 0]
      let ABCwithGamma := colorPowerByFactors powf ABC gamma
      let XYZ := matrix.mul ABCwithGamma
      let rgb := convertXYZtoRGB XYZ
      let calibratedRGB := colorMultiplyByFactors rgb (correctionCoefficients whitePoint)
      some (fromRGB01 calibratedRGB)
    else none
  | .lab whitePoint _ aMin aMax bMin bMax, color =>
    if color.length = 3 then
      let LStar := qBound 0 (color.getD 0 0) 100
      let aStar := qBoundRange aMin (color.getD 1 0) aMax
      let bStar := qBoundRange bMin (color.getD 2 0) bMax
      let param1 := (LStar + 16) / 116
      let param2 := aStar / 500
      let param3 := bStar / 200
      let L := param1 + param2
      let M := param1
      let N := param1 - param3
      let gLMN : PDFColor3 := ![labG L, labG M, labG N]
      let XYZ := colorMultiplyByFactors whitePoint gLMN
      let rgb := convertXYZtoRGB XYZ
      let calibratedRGB := colorMultiplyByFactors rgb (correctionCoefficients whitePoint)
      some (fromRGB01 calibratedRGB)
    else none
  | .iccBased alternateColorSpace range, color =>
    if color.length = alternateColorSpace.getColorComponentCount then
      alternateColorSpace.getColor powf (clipByRange range 0 color)
    else none
  | .indexed baseColorSpace colors maxValue, color =>
    if color.length = 1 then
      let colorIndex := qBound MIN_VALUE (truncToInt (color.getD 0 0)) maxValue
      let componentCount : Int := baseColorSpace.getColorComponentCount
      let byteOffset := colorIndex * componentCount
      if byteOffset + componentCount - 1 < colors.length then
        baseColorSpace.getColor powf
          (decodeColor colors byteOffset.toNat baseColorSpace.getColorComponentCount)
      else none
    else none
  | .separation _ alternateColorSpace tintTransform, color =>
    if color.length = 1 then
      let tint := color.getD 0 0
      let slots := alternateColorSpace.getColorComponentCount
      match tintTransform.apply [tint] slots with
      | some written => alternateColorSpace.getColor powf (outputBuffer written slots)
      | none => some .invalid
    else none

/-- The virtual function `getDefaultColor` of every class. -/
def PDFAbstractColorSpace.getDefaultColor (powf : ℚ → ℚ → ℚ) :
    PDFAbstractColorSpace → Option QColor
  | .deviceGray => some QColor.black
  | .deviceRGB => some QColor.black
  | .deviceCMYK => some QColor.black
  | .calGray whitePoint blackPoint gamma =>
    (PDFAbstractColorSpace.calGray whitePoint blackPoint gamma).getColor powf
      (List.replicate (PDFAbstractColorSpace.calGray whitePoint blackPoint gamma).getColorComponentCount 0)
  | .calRGB whitePoint blackPoint gamma matrix =>
    (PDFAbstractColorSpace.calRGB whitePoint blackPoint gamma matrix).getColor powf
      (List.replicate (PDFAbstractColorSpace.calRGB whitePoint blackPoint gamma matrix).getColorComponentCount 0)
  | .lab whitePoint blackPoint aMin aMax bMin bMax =>
    (PDFAbstractColorSpace.lab whitePoint blackPoint aMin aMax bMin bMax).getColor powf
      (List.replicate (PDFAbstractColorSpace.lab whitePoint blackPoint aMin aMax bMin bMax).getColorComponentCount 0)
  | .iccBased alternateColorSpace range =>
    (PDFAbstractColorSpace.iccBased alternateColorSpace range).getColor powf
      (List.replicate (PDFAbstractColorSpace.iccBased alternateColorSpace range).getColorComponentCount 0)
  | .indexed baseColorSpace colors maxValue =>
    (PDFAbstractColorSpace.indexed baseColorSpace colors maxValue).getColor powf [0]
  | .separation colorName alternateColorSpace tintTransform =>
    (PDFAbstractColorSpace.separation colorName alternateColorSpace tintTransform).getColor powf [0]

/-! ## Colour conversion without assertions -/

/-- The conversion `static_cast<int>` of a component as the x86 conversion instruction
(`cvttss2si`) performs it: the truncated value when it fits `int`, `INT_MIN` otherwise (the
C++ conversion is not defined for these values). -/
def staticCastInt (x : ℚ) : Int :=
  if -2 ^ 31 ≤ truncToInt x ∧ truncToInt x < 2 ^ 31 then truncToInt x else -2 ^ 31

/-- The virtual function `getColor` of every class in a build without assertions
(`Q_ASSERT` expands to nothing): no test of the tuple size, `color[i]` reads component `i`,
`color.back()` the last one, and `static_cast<int>` is `staticCastInt`. The result `none`
is a read past the end of the tuple or of the lookup table, which the code does not define.
The parameter `powf` is `std::powf`. -/
def PDFAbstractColorSpace.getColorRelease (powf : ℚ → ℚ → ℚ) :
    PDFAbstractColorSpace → PDFColor → Option QColor
  | .deviceGray, color =>
    if 1 ≤ color.length then
      let component := clip01 (color.getD 0 0)
      some (.rgb component component component 1)
    else none
  | .deviceRGB, color =>
    if 3 ≤ color.length then
      some (fromRGB01 ![color.getD 0 0, color.getD 1 0, color.getD 2 0])
    else none
  | .deviceCMYK, color =>
    if 4 ≤ color.length then
      let c := clip01 (color.getD 0 0)
      let m := clip01 (color.getD 1 0)
      let y := clip01 (color.getD 2 0)
      let k := clip01 (color.getD 3 0)
      some (.cmyk c m y k 1)
    else none
  | .calGray whitePoint _ gamma, color =>
    if 1 ≤ color.length then
      let A := clip01 (color.getD 0 0)
      let xyzColor := powf A gamma
      let xyzColorMultipliedByWhitePoint := colorMultiplyByFactor whitePoint xyzColor
      let rgb := convertXYZtoRGB xyzColorMultipliedByWhitePoint
      let calibratedRGB := colorMultiplyByFactors rgb (correctionCoefficients whitePoint)
      some (fromRGB01 calibratedRGB)
    else none
  | .calRGB whitePoint _ gamma matrix, color =>
    if 3 ≤ color.length then
      let ABC := clip01Color3 ![color.getD 0 0, color.getD 1 0, color.getD 2 0]
      let ABCwithGamma := colorPowerByFactors powf ABC gamma
      let XYZ := matrix.mul ABCwithGamma
      let rgb := convertXYZtoRGB XYZ
      let calibratedRGB := colorMultiplyByFactors rgb (correctionCoefficients whitePoint)
      some (fromRGB01 calibratedRGB)
    else none
  | .lab whitePoint _ aMin aMax bMin bMax, color =>
    if 3 ≤ color.length then
      let LStar := qBound 0 (color.getD 0 0) 100
      let aStar := qBoundRange aMin (color.getD 1 0) aMax
      let bStar := qBoundRange bMin (color.getD 2 0) bMax
      let param1 := (LStar + 16) / 116
      let param2 := aStar / 500
      let param3 := bStar / 200
      let L := param1 + param2
      let M := param1
      let N := param1 - param3
      let gLMN : PDFColor3 := ![labG L, labG M, labG N]
      let XYZ := colorMultiplyByFactors whitePoint gLMN
      let rgb := convertXYZtoRGB XYZ
      let calibratedRGB := colorMultiplyByFactors rgb (correctionCoefficients whitePoint)
      some (fromRGB01 calibratedRGB)
    else none
  | .iccBased alternateColorSpace range, color =>
    let colorComponentCount := alternateColorSpace.getColorComponentCount
    if colorComponentCount ≤ color.length then
      alternateColorSpace.getColorRelease powf
        (clipByRange range 0 (color.take colorComponentCount) ++ color.drop colorComponentCount)
    else none
  | .indexed baseColorSpace colors maxValue, color =>
    if 1 ≤ color.length then
      let colorIndex := qBound MIN_VALUE (staticCastInt (color.getD 0 0)) maxValue
      let componentCount : Int := baseColorSpace.getColorComponentCount
      let byteOffset := colorIndex * componentCount
      if 0 ≤ byteOffset ∧ byteOffset + componentCount - 1 < colors.length then
        baseColorSpace.getColorRelease powf
          (decodeColor colors byteOffset.toNat baseColorSpace.getColorComponentCount)
      else none
    else none
  | .separation _ alternateColorSpace tintTransform, color =>
    if 1 ≤ color.length then
      let tint := color.getD (color.length - 1) 0
      let slots := alternateColorSpace.getColorComponentCount
      match tintTransform.apply [tint] slots with
      | some written => alternateColorSpace.getColorRelease powf (outputBuffer written slots)
      | none => some .invalid
    else none

/-! ## Resolver -/

def COLOR_SPACE_MAX_LEVEL_OF_RECURSION : Int := 12

@[simp] abbrev COLOR_SPACE_NAME_DEVICE_GRAY : String := "DeviceGray"
@[simp] abbrev COLOR_SPACE_NAME_DEVICE_RGB : String := "DeviceRGB"
@[simp] abbrev COLOR_SPACE_NAME_DEVICE_CMYK : String := "DeviceCMYK"

@[simp] abbrev COLOR_SPACE_NAME_ABBREVIATION_DEVICE_GRAY : String := "G"
@[simp] abbrev COLOR_SPACE_NAME_ABBREVIATION_DEVICE_RGB : String := "RGB"
@[simp] abbrev COLOR_SPACE_NAME_ABBREVIATION_DEVICE_CMYK : String := "CMYK"

@[simp] abbrev COLOR_SPACE_NAME_DEFAULT_GRAY : String := "DefaultGray"
@[simp] abbrev COLOR_SPACE_NAME_DEFAULT_RGB : String := "DefaultRGB"
@[simp] abbrev COLOR_SPACE_NAME_DEFAULT_CMYK : String := "DefaultCMYK"

@[simp] abbrev COLOR_SPACE_NAME_CAL_GRAY : String := "CalGray"
@[simp] abbrev COLOR_SPACE_NAME_CAL_RGB : String := "CalRGB"
@[simp] abbrev COLOR_SPACE_NAME_LAB : String := "Lab"
@[simp] abbrev COLOR_SPACE_NAME_ICCBASED : String := "ICCBased"
@[simp] abbrev COLOR_SPACE_NAME_INDEXED : String := "Indexed"
@[simp] abbrev COLOR_SPACE_NAME_SEPARATION : String := "Separation"

@[simp] abbrev CAL_WHITE_POINT : String := "WhitePoint"
@[simp] abbrev CAL_BLACK_POINT : String := "BlackPoint"
@[simp] abbrev CAL_GAMMA : String := "Gamma"
@[simp] abbrev CAL_MATRIX : String := "Matrix"
@[simp] abbrev CAL_RANGE : String := "Range"

@[simp] abbrev ICCBASED_ALTERNATE : String := "Alternate"
@[simp] abbrev ICCBASED_N : String := "N"
@[simp] abbrev ICCBASED_RANGE : String := "Range"

/-- Test `colorSpaceDictionary && colorSpaceDictionary->hasKey(key)` on the nullable
dictionary pointer. -/
def hasKey? (colorSpaceDictionary : Option PDFDictionary) (key : String) : Bool :=
  match colorSpaceDictionary with
  | some dictionary => dictionary.hasKey key
  | none => false

/-- Access `colorSpaceDictionary->get(key)` behind a successful `hasKey?` test. -/
def get? (colorSpaceDictionary : Option PDFDictionary) (key : String) : PDFObject :=
  match colorSpaceDictionary with
  | some dictionary => dictionary.get key
  | none => .null

/-- Standard D65 white point. -/
def whitePointD65 : PDFColor3 := ![9505 / 10000, 1, 1089 / 1000]

def PDFCalGrayColorSpace.createCalGrayColorSpace (document : PDFDocument)
    (dictionary : PDFDictionary) : PDFAbstractColorSpace :=
  let whitePoint : PDFColor3 := whitePointD65
  let blackPoint : PDFColor3 := ![0, 0, 0]
  let gamma : PDFColorComponent := 1
  let whitePoint := readNumberArrayFromDictionary document dictionary CAL_WHITE_POINT whitePoint
  let blackPoint := readNumberArrayFromDictionary document dictionary CAL_BLACK_POINT blackPoint
  let gamma := readNumberFromDictionary document dictionary CAL_GAMMA gamma
  .calGray whitePoint blackPoint gamma

def PDFCalRGBColorSpace.createCalRGBColorSpace (document : PDFDocument)
    (dictionary : PDFDictionary) : PDFAbstractColorSpace :=
  let whitePoint : PDFColor3 := whitePointD65
  let blackPoint : PDFColor3 := ![0, 0, 0]
  let gamma : PDFColor3 := ![1, 1, 1]
  let matrix : PDFColorComponentMatrix_3x3 := ![1, 0, 0,
                                                0, 1, 0,
                                                0, 0, 1]
  let whitePoint := readNumberArrayFromDictionary document dictionary CAL_WHITE_POINT whitePoint
  let blackPoint := readNumberArrayFromDictionary document dictionary CAL_BLACK_POINT blackPoint
  let gamma := readNumberArrayFromDictionary document dictionary CAL_GAMMA gamma
  let matrix := readNumberArrayFromDictionary document dictionary CAL_MATRIX matrix
  .calRGB whitePoint blackPoint gamma matrix

/-- The four range slots of Lab after the loader ran: `none` keeps the infinite default
of the slot, which is the case exactly when the loader left the slots untouched. -/
def readLabRange (document : PDFDocument) (dictionary : PDFDictionary) :
    Fin 4 → Option PDFColorComponent :=
  if dictionary.hasKey CAL_RANGE then
    match document.getObject (dictionary.get CAL_RANGE) with
    | .array items =>
      match readNumbers? document items with
      | some values => if values.length = 4 then fun i => some (values.getD i.val 0)
                       else fun _ => none
      | none => fun _ => none
    | _ => fun _ => none
  else fun _ => none

def PDFLabColorSpace.createLabColorSpace (document : PDFDocument)
    (dictionary : PDFDictionary) : PDFAbstractColorSpace :=
  let whitePoint : PDFColor3 := whitePointD65
  let blackPoint : PDFColor3 := ![0, 0, 0]
  let whitePoint := readNumberArrayFromDictionary document dictionary CAL_WHITE_POINT whitePoint
  let blackPoint := readNumberArrayFromDictionary document dictionary CAL_BLACK_POINT blackPoint
  let minMax := readLabRange document dictionary
  .lab whitePoint blackPoint (minMax 0) (minMax 1) (minMax 2) (minMax 3)

/-- The tail of `createICCBasedColorSpace`, after the alternate colour space is known:
the range check and the loading of the ranges. -/
def PDFICCBasedColorSpace.finish (document : PDFDocument) (dictionary : PDFDictionary)
    (alternateColorSpace : PDFAbstractColorSpace) :
    Except PDFParserException PDFAbstractColorSpace :=
  let ranges : Fin 8 → PDFColorComponent := ![0, 1, 0, 1, 0, 1, 0, 1]
  let components := alternateColorSpace.getColorComponentCount
  let rangeSize := 2 * components
  if rangeSize > 8 then
    throw .iccTooMuchComponents
  else
    let loaded : Fin rangeSize → PDFColorComponent :=
      readNumberArrayFromDictionary document dictionary ICCBASED_RANGE
        (fun i => rangeAt ranges i.val)
    let ranges : Fin 8 → PDFColorComponent :=
      fun i => if h : i.val < rangeSize then loaded ⟨i.val, h⟩ else ranges i
    pure (.iccBased alternateColorSpace ranges)

/-- The conversion of a `PDFInteger` argument to the `int` parameter of `qBound<int>`: the
value modulo 2^32, taken in the range of `int`; a value in that range is unchanged. -/
def narrowToInt (value : PDFInteger) : Int :=
  (value + 2 ^ 31) % 2 ^ 32 - 2 ^ 31

/-- The tail of `createIndexedColorSpace`, after the base colour space is known. The
integer read from the array is converted to `int` before `qBound<int>` clips it. -/
def PDFIndexedColorSpace.finish (document : PDFDocument) (array : List PDFObject)
    (baseColorSpace : PDFAbstractColorSpace) :
    Except PDFParserException PDFAbstractColorSpace :=
  let maxValue : Int :=
    qBound MIN_VALUE (narrowToInt (readInteger document (PDFArray.getItem array 2) 0)) MAX_VALUE
  let colorDataObject := document.getObject (PDFArray.getItem array 3)
  let colors : QByteArray :=
    match colorDataObject with
    | .string bytes => bytes
    | .stream entries content => document.getDecodedStream entries content
    | _ => []
  let colorCount : Int := maxValue - MIN_VALUE + 1
  let componentCount : Int := baseColorSpace.getColorComponentCount
  let byteCount : Int := colorCount * componentCount
  if byteCount ≠ colors.length then
    throw (.indexedInvalidColors colorCount componentCount byteCount colors.length)
  else
    pure (.indexed baseColorSpace colors maxValue)

/-- The tail of `createSeparationColorSpace`, after the alternate colour space is known. -/
def PDFSeparationColorSpace.finish (document : PDFDocument) (array : List PDFObject)
    (colorName : String) (alternateColorSpace : PDFAbstractColorSpace) :
    Except PDFParserException PDFAbstractColorSpace :=
  match document.createFunction (PDFArray.getItem array 3) with
  | .error exception => throw exception
  | .ok none => throw .separationNoTintTransform
  | .ok (some tintTransform) => pure (.separation colorName alternateColorSpace tintTransform)

/-- The block `if (dictionary) { ... }` of `createColorSpaceImpl`: the calibrated family
named by `name`, `none` when the block is left without a `return`. -/
def calibratedColorSpace? (document : PDFDocument) (dictionary : Option PDFDictionary)
    (name : String) : Option PDFAbstractColorSpace :=
  match dictionary with
  | some dictionary =>
    if name = COLOR_SPACE_NAME_CAL_GRAY then
      some (PDFCalGrayColorSpace.createCalGrayColorSpace document dictionary)
    else if name = COLOR_SPACE_NAME_CAL_RGB then
      some (PDFCalRGBColorSpace.createCalRGBColorSpace document dictionary)
    else if name = COLOR_SPACE_NAME_LAB then
      some (PDFLabColorSpace.createLabColorSpace document dictionary)
    else none
  | none => none

/-! ### The recursive resolver

The five mutually recursive functions of the source. A function returns a colour space or
throws; the null-pointer tests that follow a nested call in the source
(`if (!alternateColorSpace)`, `if (!baseColorSpace)`) can therefore not fire and have no
counterpart here. `createIndexedColorSpace` and `createSeparationColorSpace` are called
with arrays of four elements only (their `Q_ASSERT`). -/

mutual

def createColorSpaceImpl (colorSpaceDictionary : Option PDFDictionary) (document : PDFDocument)
    (colorSpace : PDFObject) (recursion : Int) :
    Except PDFParserException PDFAbstractColorSpace :=
  if _h : recursion - 1 ≤ 0 then
    throw .tooComplex
  else
    match colorSpace with
    | .name n =>
      createDeviceColorSpaceByNameImpl colorSpaceDictionary document n (recursion - 1)
    | .array array =>
      let count := array.length
      if count > 0 then
        match document.getObject (PDFArray.getItem array 0) with
        | .name name =>
          let colorSpaceSettings : PDFObject :=
            if count > 1 then document.getObject (PDFArray.getItem array 1) else .null
          let dictionary : Option PDFDictionary :=
            match colorSpaceSettings with
            | .dictionary entries => some entries
            | _ => none
          let stream : Option PDFDictionary :=
            match colorSpaceSettings with
            | .stream entries _ => some entries
            | _ => none
          match calibratedColorSpace? document dictionary name with
          | some calibrated => pure calibrated
          | none =>
            match stream, decide (name = COLOR_SPACE_NAME_ICCBASED) with
            | some entries, true =>
              createICCBasedColorSpace colorSpaceDictionary document entries (recursion - 1)
            | _, _ =>
              if name = COLOR_SPACE_NAME_INDEXED ∧ count = 4 then
                createIndexedColorSpace colorSpaceDictionary document array (recursion - 1)
              else if name = COLOR_SPACE_NAME_SEPARATION ∧ count = 4 then
                createSeparationColorSpace colorSpaceDictionary document array (recursion - 1)
              else
                createColorSpaceImpl colorSpaceDictionary document (.name name) (recursion - 1)
        | _ => throw .invalidColorSpace
      else throw .invalidColorSpace
    | _ => throw .invalidColorSpace
termination_by 2 * recursion.toNat + 1
decreasing_by all_goals simp_wf; all_goals omega

def createDeviceColorSpaceByNameImpl (colorSpaceDictionary : Option PDFDictionary)
    (document : PDFDocument) (name : String) (recursion : Int) :
    Except PDFParserException PDFAbstractColorSpace :=
  if _h : recursion - 1 ≤ 0 then
    throw .tooComplex
  else
    if name = COLOR_SPACE_NAME_DEVICE_GRAY ∨ name = COLOR_SPACE_NAME_ABBREVIATION_DEVICE_GRAY then
      if hasKey? colorSpaceDictionary COLOR_SPACE_NAME_DEFAULT_GRAY then
        createColorSpaceImpl colorSpaceDictionary document
          (document.getObject (get? colorSpaceDictionary COLOR_SPACE_NAME_DEFAULT_GRAY))
          (recursion - 1)
      else
        pure .deviceGray
    else if name = COLOR_SPACE_NAME_DEVICE_RGB ∨ name = COLOR_SPACE_NAME_ABBREVIATION_DEVICE_RGB then
      if hasKey? colorSpaceDictionary COLOR_SPACE_NAME_DEFAULT_RGB then
        createColorSpaceImpl colorSpaceDictionary document
          (document.getObject (get? colorSpaceDictionary COLOR_SPACE_NAME_DEFAULT_RGB))
          (recursion - 1)
      else
        pure .deviceRGB
    else if name = COLOR_SPACE_NAME_DEVICE_CMYK ∨ name = COLOR_SPACE_NAME_ABBREVIATION_DEVICE_CMYK then
      if hasKey? colorSpaceDictionary COLOR_SPACE_NAME_DEFAULT_CMYK then
        createColorSpaceImpl colorSpaceDictionary document
          (document.getObject (get? colorSpaceDictionary COLOR_SPACE_NAME_DEFAULT_CMYK))
          (recursion - 1)
      else
        pure .deviceCMYK
    else if hasKey? colorSpaceDictionary name then
      createColorSpaceImpl colorSpaceDictionary document
        (document.getObject (get? colorSpaceDictionary name)) (recursion - 1)
    else
      throw .invalidColorSpace
termination_by 2 * recursion.toNat + 1
decreasing_by all_goals simp_wf; all_goals omega

/-- The argument `dictionary` is `stream->getDictionary()`. -/
def createICCBasedColorSpace (colorSpaceDictionary : Option PDFDictionary)
    (document : PDFDocument) (dictionary : PDFDictionary) (recursion : Int) :
    Except PDFParserException PDFAbstractColorSpace :=
  if dictionary.hasKey ICCBASED_ALTERNATE then
    match createColorSpaceImpl colorSpaceDictionary document
        (document.getObject (dictionary.get ICCBASED_ALTERNATE)) recursion with
    | .error exception => throw exception
    | .ok alternateColorSpace =>
      PDFICCBasedColorSpace.finish document dictionary alternateColorSpace
  else
    let N := readIntegerFromDictionary document dictionary ICCBASED_N 0
    if N = 1 then
      match createColorSpaceImpl colorSpaceDictionary document
          (.name COLOR_SPACE_NAME_DEVICE_GRAY) recursion with
      | .error exception => throw exception
      | .ok alternateColorSpace =>
        PDFICCBasedColorSpace.finish document dictionary alternateColorSpace
    else if N = 3 then
      match createColorSpaceImpl colorSpaceDictionary document
          (.name COLOR_SPACE_NAME_DEVICE_RGB) recursion with
      | .error exception => throw exception
      | .ok alternateColorSpace =>
        PDFICCBasedColorSpace.finish document dictionary alternateColorSpace
    else if N = 4 then
      match createColorSpaceImpl colorSpaceDictionary document
          (.name COLOR_SPACE_NAME_DEVICE_CMYK) recursion with
      | .error exception => throw exception
      | .ok alternateColorSpace =>
        PDFICCBasedColorSpace.finish document dictionary alternateColorSpace
    else
      throw (.iccUnknownComponentCount N)
termination_by 2 * recursion.toNat + 2
decreasing_by all_goals simp_wf

def createIndexedColorSpace (colorSpaceDictionary : Option PDFDictionary)
    (document : PDFDocument) (array : List PDFObject) (recursion : Int) :
    Except PDFParserException PDFAbstractColorSpace :=
  match createColorSpaceImpl colorSpaceDictionary document
      (document.getObject (PDFArray.getItem array 1)) recursion with
  | .error exception => throw exception
  | .ok baseColorSpace => PDFIndexedColorSpace.finish document array baseColorSpace
termination_by 2 * recursion.toNat + 2
decreasing_by all_goals simp_wf

def createSeparationColorSpace (colorSpaceDictionary : Option PDFDictionary)
    (document : PDFDocument) (array : List PDFObject) (recursion : Int) :
    Except PDFParserException PDFAbstractColorSpace :=
  match document.getObject (PDFArray.getItem array 1) with
  | .name colorName =>
    match createColorSpaceImpl colorSpaceDictionary document
        (document.getObject (PDFArray.getItem array 2)) recursion with
    | .error exception => throw exception
    | .ok alternateColorSpace =>
      PDFSeparationColorSpace.finish document array colorName alternateColorSpace
  | _ => throw .separationNoColorName
termination_by 2 * recursion.toNat + 2
decreasing_by all_goals simp_wf

end

def createColorSpace (colorSpaceDictionary : Option PDFDictionary) (document : PDFDocument)
    (colorSpace : PDFObject) : Except PDFParserException PDFAbstractColorSpace :=
  createColorSpaceImpl colorSpaceDictionary document colorSpace COLOR_SPACE_MAX_LEVEL_OF_RECURSION

def createDeviceColorSpaceByName (colorSpaceDictionary : Option PDFDictionary)
    (document : PDFDocument) (name : String) :
    Except PDFParserException PDFAbstractColorSpace :=
  createDeviceColorSpaceByNameImpl colorSpaceDictionary document name
    COLOR_SPACE_MAX_LEVEL_OF_RECURSION

/-! ### The resolver with an explicit call stack bound

The same five functions, now recursive on `fuel`, the number of nested resolver calls
that are still allowed: every call of one of the five functions takes one unit, and
`none` says that the bound was reached before the call returned. The budget `recursion`
is handled as in the source and plays no part in the recursion of the definition. -/

mutual

def createColorSpaceImplFuel (fuel : Nat) (colorSpaceDictionary : Option PDFDictionary)
    (document : PDFDocument) (colorSpace : PDFObject) (recursion : Int) :
    Option (Except PDFParserException PDFAbstractColorSpace) :=
  match fuel with
  | 0 => none
  | fuel + 1 =>
    if recursion - 1 ≤ 0 then
      some (throw .tooComplex)
    else
      match colorSpace with
      | .name n =>
        createDeviceColorSpaceByNameImplFuel fuel colorSpaceDictionary document n (recursion - 1)
      | .array array =>
        let count := array.length
        if count > 0 then
          match document.getObject (PDFArray.getItem array 0) with
          | .name name =>
            let colorSpaceSettings : PDFObject :=
              if count > 1 then document.getObject (PDFArray.getItem array 1) else .null
            let dictionary : Option PDFDictionary :=
              match colorSpaceSettings with
              | .dictionary entries => some entries
              | _ => none
            let stream : Option PDFDictionary :=
              match colorSpaceSettings with
              | .stream entries _ => some entries
              | _ => none
            match calibratedColorSpace? document dictionary name with
            | some calibrated => some (pure calibrated)
            | none =>
              match stream, decide (name = COLOR_SPACE_NAME_ICCBASED) with
              | some entries, true =>
                createICCBasedColorSpaceFuel fuel colorSpaceDictionary document entries
                  (recursion - 1)
              | _, _ =>
                if name = COLOR_SPACE_NAME_INDEXED ∧ count = 4 then
                  createIndexedColorSpaceFuel fuel colorSpaceDictionary document array
                    (recursion - 1)
                else if name = COLOR_SPACE_NAME_SEPARATION ∧ count = 4 then
                  createSeparationColorSpaceFuel fuel colorSpaceDictionary document array
                    (recursion - 1)
                else
                  createColorSpaceImplFuel fuel colorSpaceDictionary document (.name name)
                    (recursion - 1)
          | _ => some (throw .invalidColorSpace)
        else some (throw .invalidColorSpace)
      | _ => some (throw .invalidColorSpace)

def createDeviceColorSpaceByNameImplFuel (fuel : Nat)
    (colorSpaceDictionary : Option PDFDictionary) (document : PDFDocument) (name : String)
    (recursion : Int) : Option (Except PDFParserException PDFAbstractColorSpace) :=
  match fuel with
  | 0 => none
  | fuel + 1 =>
    if recursion - 1 ≤ 0 then
      some (throw .tooComplex)
    else
      if name = COLOR_SPACE_NAME_DEVICE_GRAY ∨ name = COLOR_SPACE_NAME_ABBREVIATION_DEVICE_GRAY then
        if hasKey? colorSpaceDictionary COLOR_SPACE_NAME_DEFAULT_GRAY then
          createColorSpaceImplFuel fuel colorSpaceDictionary document
            (document.getObject (get? colorSpaceDictionary COLOR_SPACE_NAME_DEFAULT_GRAY))
            (recursion - 1)
        else
          some (pure .deviceGray)
      else if name = COLOR_SPACE_NAME_DEVICE_RGB ∨ name = COLOR_SPACE_NAME_ABBREVIATION_DEVICE_RGB then
        if hasKey? colorSpaceDictionary COLOR_SPACE_NAME_DEFAULT_RGB then
          createColorSpaceImplFuel fuel colorSpaceDictionary document
            (document.getObject (get? colorSpaceDictionary COLOR_SPACE_NAME_DEFAULT_RGB))
            (recursion - 1)
        else
          some (pure .deviceRGB)
      else if name = COLOR_SPACE_NAME_DEVICE_CMYK ∨ name = COLOR_SPACE_NAME_ABBREVIATION_DEVICE_CMYK then
        if hasKey? colorSpaceDictionary COLOR_SPACE_NAME_DEFAULT_CMYK then
          createColorSpaceImplFuel fuel colorSpaceDictionary document
            (document.getObject (get? colorSpaceDictionary COLOR_SPACE_NAME_DEFAULT_CMYK))
            (recursion - 1)
        else
          some (pure .deviceCMYK)
      else if hasKey? colorSpaceDictionary name then
        createColorSpaceImplFuel fuel colorSpaceDictionary document
          (document.getObject (get? colorSpaceDictionary name)) (recursion - 1)
      else
        some (throw .invalidColorSpace)

def createICCBasedColorSpaceFuel (fuel : Nat) (colorSpaceDictionary : Option PDFDictionary)
    (document : PDFDocument) (dictionary : PDFDictionary) (recursion : Int) :
    Option (Except PDFParserException PDFAbstractColorSpace) :=
  match fuel with
  | 0 => none
  | fuel + 1 =>
    if dictionary.hasKey ICCBASED_ALTERNATE then
      match createColorSpaceImplFuel fuel colorSpaceDictionary document
          (document.getObject (dictionary.get ICCBASED_ALTERNATE)) recursion with
      | none => none
      | some (.error exception) => some (throw exception)
      | some (.ok alternateColorSpace) =>
        some (PDFICCBasedColorSpace.finish document dictionary alternateColorSpace)
    else
      let N := readIntegerFromDictionary document dictionary ICCBASED_N 0
      if N = 1 then
        match createColorSpaceImplFuel fuel colorSpaceDictionary document
            (.name COLOR_SPACE_NAME_DEVICE_GRAY) recursion with
        | none => none
        | some (.error exception) => some (throw exception)
        | some (.ok alternateColorSpace) =>
          some (PDFICCBasedColorSpace.finish document dictionary alternateColorSpace)
      else if N = 3 then
        match createColorSpaceImplFuel fuel colorSpaceDictionary document
            (.name COLOR_SPACE_NAME_DEVICE_RGB) recursion with
        | none => none
        | some (.error exception) => some (throw exception)
        | some (.ok alternateColorSpace) =>
          some (PDFICCBasedColorSpace.finish document dictionary alternateColorSpace)
      else if N = 4 then
        match createColorSpaceImplFuel fuel colorSpaceDictionary document
            (.name COLOR_SPACE_NAME_DEVICE_CMYK) recursion with
        | none => none
        | some (.error exception) => some (throw exception)
        | some (.ok alternateColorSpace) =>
          some (PDFICCBasedColorSpace.finish document dictionary alternateColorSpace)
      else
        some (throw (.iccUnknownComponentCount N))

def createIndexedColorSpaceFuel (fuel : Nat) (colorSpaceDictionary : Option PDFDictionary)
    (document : PDFDocument) (array : List PDFObject) (recursion : Int) :
    Option (Except PDFParserException PDFAbstractColorSpace) :=
  match fuel with
  | 0 => none
  | fuel + 1 =>
    match createColorSpaceImplFuel fuel colorSpaceDictionary document
        (document.getObject (PDFArray.getItem array 1)) recursion with
    | none => none
    | some (.error exception) => some (throw exception)
    | some (.ok baseColorSpace) =>
      some (PDFIndexedColorSpace.finish document array baseColorSpace)

def createSeparationColorSpaceFuel (fuel : Nat) (colorSpaceDictionary : Option PDFDictionary)
    (document : PDFDocument) (array : List PDFObject) (recursion : Int) :
    Option (Except PDFParserException PDFAbstractColorSpace) :=
  match fuel with
  | 0 => none
  | fuel + 1 =>
    match document.getObject (PDFArray.getItem array 1) with
    | .name colorName =>
      match createColorSpaceImplFuel fuel colorSpaceDictionary document
          (document.getObject (PDFArray.getItem array 2)) recursion with
      | none => none
      | some (.error exception) => some (throw exception)
      | some (.ok alternateColorSpace) =>
        some (PDFSeparationColorSpace.finish document array colorName alternateColorSpace)
    | _ => some (throw .separationNoColorName)

end

/-! ## Instruments of the proofs: call graph and stack bound -/

/-- A call of one of the five resolver functions, without its budget: the function and
the argument it resolves. -/
inductive ResolverCall where
  | impl (colorSpace : PDFObject)
  | byName (name : String)
  | iccBased (dictionary : PDFDictionary)
  | indexed (array : List PDFObject)
  | separation (array : List PDFObject)

/-- The resolver function of a call applied to a budget. -/
def ResolverCall.run (colorSpaceDictionary : Option PDFDictionary) (document : PDFDocument) :
    ResolverCall → Int → Except PDFParserException PDFAbstractColorSpace
  | .impl colorSpace, recursion =>
    createColorSpaceImpl colorSpaceDictionary document colorSpace recursion
  | .byName name, recursion =>
    createDeviceColorSpaceByNameImpl colorSpaceDictionary document name recursion
  | .iccBased dictionary, recursion =>
    createICCBasedColorSpace colorSpaceDictionary document dictionary recursion
  | .indexed array, recursion =>
    createIndexedColorSpace colorSpaceDictionary document array recursion
  | .separation array, recursion =>
    createSeparationColorSpace colorSpaceDictionary document array recursion

/-- The budget a call hands to its nested call: `createColorSpaceImpl` and
`createDeviceColorSpaceByNameImpl` decrement it, the other three pass it on. -/
def ResolverCall.nestedBudget : ResolverCall → Int → Int
  | .impl _, recursion => recursion - 1
  | .byName _, recursion => recursion - 1
  | _, recursion => recursion

/-- The nested resolver call in the body of a call: the call that the body makes when its
budget test passes, `none` when the body returns or throws without a nested call. -/
def nestedCall (colorSpaceDictionary : Option PDFDictionary) (document : PDFDocument) :
    ResolverCall → Option ResolverCall
  | .impl (.name n) => some (.byName n)
  | .impl (.array array) =>
    let count := array.length
    if count > 0 then
      match document.getObject (PDFArray.getItem array 0) with
      | .name name =>
        let colorSpaceSettings : PDFObject :=
          if count > 1 then document.getObject (PDFArray.getItem array 1) else .null
        let dictionary : Option PDFDictionary :=
          match colorSpaceSettings with
          | .dictionary entries => some entries
          | _ => none
        let stream : Option PDFDictionary :=
          match colorSpaceSettings with
          | .stream entries _ => some entries
          | _ => none
        match calibratedColorSpace? document dictionary name with
        | some _ => none
        | none =>
          match stream, decide (name = COLOR_SPACE_NAME_ICCBASED) with
          | some entries, true => some (.iccBased entries)
          | _, _ =>
            if name = COLOR_SPACE_NAME_INDEXED ∧ count = 4 then some (.indexed array)
            else if name = COLOR_SPACE_NAME_SEPARATION ∧ count = 4 then some (.separation array)
            else some (.impl (.name name))
      | _ => none
    else none
  | .impl _ => none
  | .byName name =>
    if name = COLOR_SPACE_NAME_DEVICE_GRAY ∨ name = COLOR_SPACE_NAME_ABBREVIATION_DEVICE_GRAY then
      if hasKey? colorSpaceDictionary COLOR_SPACE_NAME_DEFAULT_GRAY then
        some (.impl (document.getObject (get? colorSpaceDictionary COLOR_SPACE_NAME_DEFAULT_GRAY)))
      else none
    else if name = COLOR_SPACE_NAME_DEVICE_RGB ∨ name = COLOR_SPACE_NAME_ABBREVIATION_DEVICE_RGB then
      if hasKey? colorSpaceDictionary COLOR_SPACE_NAME_DEFAULT_RGB then
        some (.impl (document.getObject (get? colorSpaceDictionary COLOR_SPACE_NAME_DEFAULT_RGB)))
      else none
    else if name = COLOR_SPACE_NAME_DEVICE_CMYK ∨ name = COLOR_SPACE_NAME_ABBREVIATION_DEVICE_CMYK then
      if hasKey? colorSpaceDictionary COLOR_SPACE_NAME_DEFAULT_CMYK then
        some (.impl (document.getObject (get? colorSpaceDictionary COLOR_SPACE_NAME_DEFAULT_CMYK)))
      else none
    else if hasKey? colorSpaceDictionary name then
      some (.impl (document.getObject (get? colorSpaceDictionary name)))
    else none
  | .iccBased dictionary =>
    if dictionary.hasKey ICCBASED_ALTERNATE then
      some (.impl (document.getObject (dictionary.get ICCBASED_ALTERNATE)))
    else
      let N := readIntegerFromDictionary document dictionary ICCBASED_N 0
      if N = 1 then some (.impl (.name COLOR_SPACE_NAME_DEVICE_GRAY))
      else if N = 3 then some (.impl (.name COLOR_SPACE_NAME_DEVICE_RGB))
      else if N = 4 then some (.impl (.name COLOR_SPACE_NAME_DEVICE_CMYK))
      else none
  | .indexed array => some (.impl (document.getObject (PDFArray.getItem array 1)))
  | .separation array =>
    match document.getObject (PDFArray.getItem array 1) with
    | .name _ => some (.impl (document.getObject (PDFArray.getItem array 2)))
    | _ => none

/-- The relation "the body of call `a` makes the nested call `b`". -/
def CallsDirectly (colorSpaceDictionary : Option PDFDictionary) (document : PDFDocument)
    (a b : ResolverCall) : Prop :=
  nestedCall colorSpaceDictionary document a = some b

/-- The termination measure of a call with its budget. -/
def ResolverCall.measure : ResolverCall → Int → Nat
  | .impl _, recursion => 2 * recursion.toNat + 1
  | .byName _, recursion => 2 * recursion.toNat + 1
  | _, recursion => 2 * recursion.toNat + 2

/-- The calls that decrement the budget before anything else. -/
def ResolverCall.decrementsBudget : ResolverCall → Bool
  | .impl _ => true
  | .byName _ => true
  | _ => false

/-- The bounded resolver agrees with the resolver once the bound covers the budget. -/
def FuelAgrees (fuel : Nat) : Prop :=
  (∀ csd document colorSpace (recursion : Int), 2 * recursion.toNat + 1 ≤ fuel →
    createColorSpaceImplFuel fuel csd document colorSpace recursion
      = some (createColorSpaceImpl csd document colorSpace recursion)) ∧
  (∀ csd document name (recursion : Int), 2 * recursion.toNat + 1 ≤ fuel →
    createDeviceColorSpaceByNameImplFuel fuel csd document name recursion
      = some (createDeviceColorSpaceByNameImpl csd document name recursion)) ∧
  (∀ csd document dictionary (recursion : Int), 2 * recursion.toNat + 2 ≤ fuel →
    createICCBasedColorSpaceFuel fuel csd document dictionary recursion
      = some (createICCBasedColorSpace csd document dictionary recursion)) ∧
  (∀ csd document array (recursion : Int), 2 * recursion.toNat + 2 ≤ fuel →
    createIndexedColorSpaceFuel fuel csd document array recursion
      = some (createIndexedColorSpace csd document array recursion)) ∧
  (∀ csd document array (recursion : Int), 2 * recursion.toNat + 2 ≤ fuel →
    createSeparationColorSpaceFuel fuel csd document array recursion
      = some (createSeparationColorSpace csd document array recursion))

/-- A document without indirect objects, with the identity as stream decoder and without
constructible functions. -/
def emptyDocument : PDFDocument :=
  ⟨fun _ => .null, fun _ content => content, fun _ => .ok none⟩

/-! ## Vocabulary of the statements -/

/-- The device names and the key of their override: `DeviceGray` and `G` with
`DefaultGray`, `DeviceRGB` and `RGB` with `DefaultRGB`, `DeviceCMYK` and `CMYK` with
`DefaultCMYK`. -/
def IsDeviceNameWithDefault (name key : String) : Prop :=
  ((name = "DeviceGray" ∨ name = "G") ∧ key = "DefaultGray") ∨
  ((name = "DeviceRGB" ∨ name = "RGB") ∧ key = "DefaultRGB") ∨
  ((name = "DeviceCMYK" ∨ name = "CMYK") ∧ key = "DefaultCMYK")

/-- The entry `key` of the resource dictionary dereferences to an array whose first two
elements dereference to the name `CalGray` and to the dictionary `parameters`. -/
def OverridesWithCalGray (dictionary : PDFDictionary) (document : PDFDocument) (key : String)
    (parameters : PDFDictionary) : Prop :=
  dictionary.hasKey key = true ∧
  ∃ item0 item1 rest,
    document.getObject (dictionary.get key) = .array (item0 :: item1 :: rest) ∧
    document.getObject item0 = .name "CalGray" ∧
    document.getObject item1 = .dictionary parameters

/-- The three device families: the names of the family, the key of its override, its
stateless colour space and its number of components. -/
def IsDeviceFamily (name key : String) (variant : PDFAbstractColorSpace) (components : Nat) :
    Prop :=
  ((name = "DeviceGray" ∨ name = "G") ∧ key = "DefaultGray" ∧ variant = .deviceGray ∧
    components = 1) ∨
  ((name = "DeviceRGB" ∨ name = "RGB") ∧ key = "DefaultRGB" ∧ variant = .deviceRGB ∧
    components = 3) ∨
  ((name = "DeviceCMYK" ∨ name = "CMYK") ∧ key = "DefaultCMYK" ∧ variant = .deviceCMYK ∧
    components = 4)

/-- The array starts with two elements that dereference to the name `ICCBased` and to a
stream with the dictionary `entries`. -/
def IsICCBasedArray (document : PDFDocument) (array : List PDFObject)
    (entries : PDFDictionary) : Prop :=
  ∃ item0 item1 rest content,
    array = item0 :: item1 :: rest ∧
    document.getObject item0 = .name "ICCBased" ∧
    document.getObject item1 = .stream entries content

/-- The entry `N` of the stream dictionary dereferences to the integer `N`. -/
def HasComponentCountEntry (document : PDFDocument) (entries : PDFDictionary)
    (N : PDFInteger) : Prop :=
  entries.hasKey "N" = true ∧ document.getObject (entries.get "N") = .int N

/-- The alternate derived from `N`: 1 gives the gray, 3 the RGB, 4 the CMYK family, each
with the key of its override. -/
def IsDerivedAlternate (N : PDFInteger) (key : String) (variant : PDFAbstractColorSpace) :
    Prop :=
  (N = 1 ∧ key = "DefaultGray" ∧ variant = .deviceGray) ∨
  (N = 3 ∧ key = "DefaultRGB" ∧ variant = .deviceRGB) ∨
  (N = 4 ∧ key = "DefaultCMYK" ∧ variant = .deviceCMYK)

/-- The value `hival` of an Indexed array as the code clips it: converted to `int`, then
clipped to [0, 255]; 0 when the element does not dereference to an integer. -/
def clippedHival (document : PDFDocument) (hival : PDFObject) : Int :=
  match document.getObject hival with
  | .int value => max 0 (min (narrowToInt value) 255)
  | _ => 0

/-- The lookup data of an Indexed array: the bytes of a literal string or the decoded
bytes of a stream; `none` for every other object. -/
def lookupData? (document : PDFDocument) (lookup : PDFObject) : Option QByteArray :=
  match document.getObject lookup with
  | .string bytes => some bytes
  | .stream entries content => some (document.getDecodedStream entries content)
  | _ => none

/-- Modelled from the spec: the RGB value of a colour. An RGB colour has its own channels;
a CMYK colour is converted by the standard subtractive formula
`((1 - c) (1 - k), (1 - m) (1 - k), (1 - y) (1 - k))`; the invalid colour has none. -/
def QColor.rgbValue : QColor → Option (ℚ × ℚ × ℚ)
  | .invalid => none
  | .rgb r g b _ => some (r, g, b)
  | .cmyk c m y k _ => some ((1 - c) * (1 - k), (1 - m) * (1 - k), (1 - y) * (1 - k))

/-- The white point maps under the fixed XYZ to RGB matrix to a vector without zero
component. -/
def HasInvertibleWhitePoint (whitePoint : PDFColor3) : Prop :=
  ∀ i, convertXYZtoRGB whitePoint i ≠ 0

/-- The declared range of a Lab component contains 0; an infinite bound (`none`) puts no
condition. -/
def RangeContainsZero (min max : Option PDFColorComponent) : Prop :=
  (∀ value, min = some value → value ≤ 0) ∧ (∀ value, max = some value → 0 ≤ value)

/-- Opaque white, the RGB colour (1, 1, 1). -/
def QColor.white : QColor := .rgb 1 1 1 1

/-- The tuple (A, B, C) encodes the white point of a CalRGB colour space: its components
lie in [0, 1] and, raised to the gammas and combined through the matrix, give the white
point. -/
def EncodesWhitePoint (powf : ℚ → ℚ → ℚ) (whitePoint gamma : PDFColor3)
    (matrix : PDFColorComponentMatrix_3x3) (A B C : PDFColorComponent) : Prop :=
  (0 ≤ A ∧ A ≤ 1) ∧ (0 ≤ B ∧ B ≤ 1) ∧ (0 ≤ C ∧ C ≤ 1) ∧
  matrix.mul (colorPowerByFactors powf ![A, B, C] gamma) = whitePoint

/-- Budget monotonicity for budgets of measure at most `m`: a resolver call that returns
a colour space returns the same colour space with every larger budget. -/
def BudgetMonotone (m : Nat) : Prop :=
  (∀ csd document colorSpace (recursion recursion' : Int) result,
    2 * recursion.toNat + 1 ≤ m → recursion ≤ recursion' →
    createColorSpaceImpl csd document colorSpace recursion = .ok result →
    createColorSpaceImpl csd document colorSpace recursion' = .ok result) ∧
  (∀ csd document name (recursion recursion' : Int) result,
    2 * recursion.toNat + 1 ≤ m → recursion ≤ recursion' →
    createDeviceColorSpaceByNameImpl csd document name recursion = .ok result →
    createDeviceColorSpaceByNameImpl csd document name recursion' = .ok result) ∧
  (∀ csd document dictionary (recursion recursion' : Int) result,
    2 * recursion.toNat + 2 ≤ m → recursion ≤ recursion' →
    createICCBasedColorSpace csd document dictionary recursion = .ok result →
    createICCBasedColorSpace csd document dictionary recursion' = .ok result) ∧
  (∀ csd document array (recursion recursion' : Int) result,
    2 * recursion.toNat + 2 ≤ m → recursion ≤ recursion' →
    createIndexedColorSpace csd document array recursion = .ok result →
    createIndexedColorSpace csd document array recursion' = .ok result) ∧
  (∀ csd document array (recursion recursion' : Int) result,
    2 * recursion.toNat + 2 ≤ m → recursion ≤ recursion' →
    createSeparationColorSpace csd document array recursion = .ok result →
    createSeparationColorSpace csd document array recursion' = .ok result)

/-- The descriptor shapes without resolution: an object that is neither a name nor an
array, the empty array, and an array whose first element does not dereference to a
name. -/
def IsMalformedDescriptor (document : PDFDocument) (colorSpace : PDFObject) : Prop :=
  ((∀ n, colorSpace ≠ .name n) ∧ (∀ array, colorSpace ≠ .array array)) ∨
  colorSpace = .array [] ∨
  ∃ item0 rest, colorSpace = .array (item0 :: rest) ∧ ∀ n, document.getObject item0 ≠ .name n

/-- The array is not dispatched as a parameterised family under the name `name` of its
first element: it is not CalGray, CalRGB or Lab with a dictionary as second element, not
ICCBased with a stream as second element, and not a 4-element Indexed or Separation. -/
def IsNotParameterised (document : PDFDocument) (array : List PDFObject) (name : String) :
    Prop :=
  ¬ ((name = "CalGray" ∨ name = "CalRGB" ∨ name = "Lab") ∧ 1 < array.length ∧
      ∃ entries, document.getObject (PDFArray.getItem array 1) = .dictionary entries) ∧
  ¬ (name = "ICCBased" ∧ 1 < array.length ∧
      ∃ entries content, document.getObject (PDFArray.getItem array 1) = .stream entries content) ∧
  ¬ ((name = "Indexed" ∨ name = "Separation") ∧ array.length = 4)

/-- A family array without its parameters: CalGray, CalRGB or Lab whose second element is
absent or not a dictionary, ICCBased whose second element is absent or not a stream,
Indexed or Separation whose element count is not 4. -/
def LacksFamilyParameters (document : PDFDocument) (array : List PDFObject) (name : String) :
    Prop :=
  ((name = "CalGray" ∨ name = "CalRGB" ∨ name = "Lab") ∧
    (array.length ≤ 1 ∨
      ∀ entries, document.getObject (PDFArray.getItem array 1) ≠ .dictionary entries)) ∨
  (name = "ICCBased" ∧
    (array.length ≤ 1 ∨
      ∀ entries content,
        document.getObject (PDFArray.getItem array 1) ≠ .stream entries content)) ∨
  ((name = "Indexed" ∨ name = "Separation") ∧ array.length ≠ 4)

/-- The six device names. -/
def IsDeviceName (name : String) : Prop :=
  name = "DeviceGray" ∨ name = "G" ∨ name = "DeviceRGB" ∨ name = "RGB" ∨
    name = "DeviceCMYK" ∨ name = "CMYK"

/-- A resource dictionary whose key `CalGray` is an alias of `DeviceRGB`. -/
def familyNameAliasDictionary : PDFDictionary :=
  [("CalGray", .name "DeviceRGB")]

/-- A resource dictionary with the alias chain `A1 -> [A2]`, `A2 -> A3`, `A3 -> A4`,
`A4 -> DeviceRGB`, whose resolution from `A1` takes the whole budget of 12. -/
def aliasChainDictionary : PDFDictionary :=
  [("A1", .array [.name "A2"]), ("A2", .name "A3"), ("A3", .name "A4"),
    ("A4", .name "DeviceRGB")]

/-- The object `nested` is the nested colour space of the array: the dereferenced base
(element 1) of a 4-element Indexed array, the dereferenced alternate (element 2) of a
4-element Separation array, or the dereferenced `Alternate` entry of the stream of an
ICCBased array. -/
def IsNestedSpaceOf (document : PDFDocument) (array : List PDFObject) (nested : PDFObject) :
    Prop :=
  (∃ item0 base hival lookup, array = [item0, base, hival, lookup] ∧
    document.getObject item0 = .name "Indexed" ∧ nested = document.getObject base) ∨
  (∃ item0 colorant alternate tintTransform,
    array = [item0, colorant, alternate, tintTransform] ∧
    document.getObject item0 = .name "Separation" ∧
    nested = document.getObject alternate) ∨
  (∃ entries, IsICCBasedArray document array entries ∧
    entries.hasKey "Alternate" = true ∧
    nested = document.getObject (entries.get "Alternate"))

/-- The invariant of the data model for Indexed colour spaces, at every level of nesting:
the maximum index is not negative and the lookup table has
`(maxValue + 1) * baseComponentCount` bytes. -/
def PDFAbstractColorSpace.WellFormed : PDFAbstractColorSpace → Prop
  | .iccBased alternateColorSpace _ => alternateColorSpace.WellFormed
  | .indexed baseColorSpace colors maxValue =>
    baseColorSpace.WellFormed ∧ 0 ≤ maxValue ∧
      (colors.length : Int) = (maxValue + 1) * baseColorSpace.getColorComponentCount
  | .separation _ alternateColorSpace _ => alternateColorSpace.WellFormed
  | _ => True

/-- Every colour space returned with a budget of measure at most `m` is well formed. -/
def ResolverWellFormed (m : Nat) : Prop :=
  (∀ csd document colorSpace (recursion : Int) result,
    2 * recursion.toNat + 1 ≤ m →
    createColorSpaceImpl csd document colorSpace recursion = .ok result →
    result.WellFormed) ∧
  (∀ csd document name (recursion : Int) result,
    2 * recursion.toNat + 1 ≤ m →
    createDeviceColorSpaceByNameImpl csd document name recursion = .ok result →
    result.WellFormed) ∧
  (∀ csd document dictionary (recursion : Int) result,
    2 * recursion.toNat + 2 ≤ m →
    createICCBasedColorSpace csd document dictionary recursion = .ok result →
    result.WellFormed) ∧
  (∀ csd document array (recursion : Int) result,
    2 * recursion.toNat + 2 ≤ m →
    createIndexedColorSpace csd document array recursion = .ok result →
    result.WellFormed) ∧
  (∀ csd document array (recursion : Int) result,
    2 * recursion.toNat + 2 ≤ m →
    createSeparationColorSpace csd document array recursion = .ok result →
    result.WellFormed)

/-! ### Reference computation of the Lab conversion -/

/-- The clipping `clip(value, lower, upper)` of the reference computation; a missing bound
is infinite. -/
def referenceClip (value : ℚ) (lower upper : Option ℚ) : ℚ :=
  let bounded := match upper with
    | some u => min value u
    | none => value
  match lower with
  | some l => max l bounded
  | none => bounded

/-- The function `g` of the reference computation: `x^3` if `x >= 6/29` and
`(108/841) * (x - 4/29)` otherwise. -/
def referenceG (x : ℚ) : ℚ :=
  if x ≥ 6 / 29 then x ^ 3 else (108 / 841) * (x - 4 / 29)

/-- The fixed XYZ to RGB matrix of the reference computation applied to `(X, Y, Z)`. -/
def referenceXYZtoRGB (X Y Z : ℚ) : ℚ × ℚ × ℚ :=
  (32406 / 10000 * X - 15372 / 10000 * Y - 4986 / 10000 * Z,
   -(9689 / 10000) * X + 18758 / 10000 * Y + 415 / 10000 * Z,
   557 / 10000 * X - 2040 / 10000 * Y + 10570 / 10000 * Z)

/-- The reference computation of the Lab conversion for the tuple `(L, a, b)`: clipping,
the inverse companding `g`, scaling by the white point, the fixed matrix, the correction
coefficients (the reciprocals of the white point taken through the fixed matrix) and the
clipping of each channel to [0, 1]. -/
def labReferenceColor (whitePoint : Fin 3 → ℚ) (aMin aMax bMin bMax : Option ℚ)
    (L a b : ℚ) : QColor :=
  let L' := referenceClip L (some 0) (some 100)
  let a' := referenceClip a aMin aMax
  let b' := referenceClip b bMin bMax
  let p := (L' + 16) / 116
  let X := whitePoint 0 * referenceG (p + a' / 500)
  let Y := whitePoint 1 * referenceG p
  let Z := whitePoint 2 * referenceG (p - b' / 200)
  let rgb := referenceXYZtoRGB X Y Z
  let white := referenceXYZtoRGB (whitePoint 0) (whitePoint 1) (whitePoint 2)
  .rgb (referenceClip (rgb.1 * (1 / white.1)) (some 0) (some 1))
    (referenceClip (rgb.2.1 * (1 / white.2.1)) (some 0) (some 1))
    (referenceClip (rgb.2.2 * (1 / white.2.2)) (some 0) (some 1)) 1

/-- The parameter dictionary has none of the keys `WhitePoint`, `BlackPoint`, `Gamma`,
`Matrix` and `Range`. -/
def HasNoCalibrationKeys (dictionary : PDFDictionary) : Prop :=
  dictionary.hasKey "WhitePoint" = false ∧ dictionary.hasKey "BlackPoint" = false ∧
    dictionary.hasKey "Gamma" = false ∧ dictionary.hasKey "Matrix" = false ∧
    dictionary.hasKey "Range" = false

/-- A document without indirect objects whose function constructor returns, for every
object, the function that copies its first input to every output slot. -/
def functionDocument : PDFDocument :=
  ⟨fun _ => .null, fun _ content => content,
    fun _ => .ok (some ⟨fun x n => some (List.replicate n (x.headD 0))⟩)⟩

/-- The names form a plain alias chain that ends in `DeviceRGB`: every name is not a device
name and is a key of the resource dictionary, the entry of a name dereferences to the name
that follows it, and the entry of the last name to the name `DeviceRGB`. -/
def IsAliasChain (dictionary : PDFDictionary) (document : PDFDocument) : List String → Prop
  | [] => False
  | [last] =>
    ¬ IsDeviceName last ∧ dictionary.hasKey last = true ∧
      document.getObject (dictionary.get last) = .name "DeviceRGB"
  | name :: next :: rest =>
    ¬ IsDeviceName name ∧ dictionary.hasKey name = true ∧
      document.getObject (dictionary.get name) = .name next ∧
      IsAliasChain dictionary document (next :: rest)

/-- A resource dictionary with the plain alias chain B1, B2, B3, B4, B5 to `DeviceRGB`. -/
def plainAliasChainDictionary : PDFDictionary :=
  [("B1", .name "B2"), ("B2", .name "B3"), ("B3", .name "B4"), ("B4", .name "B5"),
    ("B5", .name "DeviceRGB")]

/-- The stream dictionary of an ICCBased colour space whose alternate is DeviceRGB: `N` is
3 and there is no `Alternate` entry, or the `Alternate` entry is the name `DeviceRGB`. -/
def HasDeviceRGBAlternate (document : PDFDocument) (entries : PDFDictionary) : Prop :=
  HasComponentCountEntry document entries 3 ∧
    (entries.hasKey "Alternate" = false ∨
      (entries.hasKey "Alternate" = true ∧
        document.getObject (entries.get "Alternate") = .name "DeviceRGB"))

/-- The budget decides between the too complex error and one other outcome, for budgets of
measure at most `m`: a resolver call whose outcome is not the too complex error has the
same outcome with every larger budget. -/
def BudgetDecides (m : Nat) : Prop :=
  (∀ csd document colorSpace (recursion recursion' : Int) outcome,
    2 * recursion.toNat + 1 ≤ m → recursion ≤ recursion' →
    outcome ≠ .error .tooComplex →
    createColorSpaceImpl csd document colorSpace recursion = outcome →
    createColorSpaceImpl csd document colorSpace recursion' = outcome) ∧
  (∀ csd document name (recursion recursion' : Int) outcome,
    2 * recursion.toNat + 1 ≤ m → recursion ≤ recursion' →
    outcome ≠ .error .tooComplex →
    createDeviceColorSpaceByNameImpl csd document name recursion = outcome →
    createDeviceColorSpaceByNameImpl csd document name recursion' = outcome) ∧
  (∀ csd document dictionary (recursion recursion' : Int) outcome,
    2 * recursion.toNat + 2 ≤ m → recursion ≤ recursion' →
    outcome ≠ .error .tooComplex →
    createICCBasedColorSpace csd document dictionary recursion = outcome →
    createICCBasedColorSpace csd document dictionary recursion' = outcome) ∧
  (∀ csd document array (recursion recursion' : Int) outcome,
    2 * recursion.toNat + 2 ≤ m → recursion ≤ recursion' →
    outcome ≠ .error .tooComplex →
    createIndexedColorSpace csd document array recursion = outcome →
    createIndexedColorSpace csd document array recursion' = outcome) ∧
  (∀ csd document array (recursion recursion' : Int) outcome,
    2 * recursion.toNat + 2 ≤ m → recursion ≤ recursion' →
    outcome ≠ .error .tooComplex →
    createSeparationColorSpace csd document array recursion = outcome →
    createSeparationColorSpace csd document array recursion' = outcome)

/-- The families DeviceGray, DeviceRGB, CalGray, CalRGB and Lab, the calibrated ones with a
white point that maps under the fixed matrix to a vector without zero component. -/
def IsRGBFamily : PDFAbstractColorSpace → Prop
  | .deviceGray => True
  | .deviceRGB => True
  | .calGray whitePoint _ _ => HasInvertibleWhitePoint whitePoint
  | .calRGB whitePoint _ _ _ => HasInvertibleWhitePoint whitePoint
  | .lab whitePoint _ _ _ _ _ => HasInvertibleWhitePoint whitePoint
  | _ => False

/-! ## Theorems -/

theorem fuelAgrees_all (fuel : Nat) : FuelAgrees fuel := by
  induction fuel with
  | zero =>
    refine ⟨?_, ?_, ?_, ?_, ?_⟩ <;> intro _ _ _ r h <;> omega
  | succ fuel ih =>
    obtain ⟨ihImpl, ihName, ihICC, ihIndexed, ihSeparation⟩ := ih
    refine ⟨?_, ?_, ?_, ?_, ?_⟩
    · intro csd document colorSpace recursion h
      unfold createColorSpaceImplFuel createColorSpaceImpl
      by_cases hr : recursion - 1 ≤ 0
      · simp [hr]
      · have h1 : 2 * (recursion - 1).toNat + 2 ≤ fuel := by omega
        have h2 : 2 * (recursion - 1).toNat + 1 ≤ fuel := by omega
        simp only [hr, ↓reduceIte, ↓reduceDIte]
        cases colorSpace <;> try rfl
        · exact ihName _ _ _ _ h2
        · simp only
          split
          · split
            · split
              · rfl
              · split
                · exact ihICC _ _ _ _ h1
                · split
                  · exact ihIndexed _ _ _ _ h1
                  · split
                    · exact ihSeparation _ _ _ _ h1
                    · exact ihImpl _ _ _ _ h2
            · rfl
          · rfl
    · intro csd document name recursion h
      unfold createDeviceColorSpaceByNameImplFuel createDeviceColorSpaceByNameImpl
      by_cases hr : recursion - 1 ≤ 0
      · simp [hr]
      · have h2 : 2 * (recursion - 1).toNat + 1 ≤ fuel := by omega
        simp only [hr, ↓reduceIte, ↓reduceDIte]
        repeat' split
        all_goals first | rfl | exact ihImpl _ _ _ _ h2
    · intro csd document dictionary recursion h
      have h2 : 2 * recursion.toNat + 1 ≤ fuel := by omega
      unfold createICCBasedColorSpaceFuel createICCBasedColorSpace
      simp only [ihImpl _ _ _ _ h2]
      repeat' split
      all_goals first | rfl | simp_all
    · intro csd document array recursion h
      have h2 : 2 * recursion.toNat + 1 ≤ fuel := by omega
      unfold createIndexedColorSpaceFuel createIndexedColorSpace
      simp only [ihImpl _ _ _ _ h2]
      repeat' split
      all_goals first | rfl | simp_all
    · intro csd document array recursion h
      have h2 : 2 * recursion.toNat + 1 ≤ fuel := by omega
      unfold createSeparationColorSpaceFuel createSeparationColorSpace
      simp only [ihImpl _ _ _ _ h2]
      repeat' split
      all_goals first | rfl | simp_all

/-- C1: `createColorSpace` is total. Whatever the descriptor, the resource dictionary and
the object graph of the document (cyclic ones included), the resolver run with a call
stack bound of 25 or more nested calls never reaches the bound: it returns the result of
`createColorSpace`, which is a colour space or an exception. The recursion is bounded by
the budget alone, which starts at 12. -/
theorem createColorSpace_total (csd : Option PDFDictionary) (document : PDFDocument)
    (colorSpace : PDFObject) (extra : Nat) :
    createColorSpaceImplFuel (25 + extra) csd document colorSpace
        COLOR_SPACE_MAX_LEVEL_OF_RECURSION
      = some (createColorSpace csd document colorSpace) ∧
    ((∃ result, createColorSpace csd document colorSpace = .ok result) ∨
      (∃ exception, createColorSpace csd document colorSpace = .error exception)) := by
  refine ⟨?_, ?_⟩
  · exact (fuelAgrees_all (25 + extra)).1 csd document colorSpace
      COLOR_SPACE_MAX_LEVEL_OF_RECURSION
      (by simp only [COLOR_SPACE_MAX_LEVEL_OF_RECURSION]; omega)
  · cases h : createColorSpace csd document colorSpace with
    | ok result => exact Or.inl ⟨result, rfl⟩
    | error exception => exact Or.inr ⟨exception, rfl⟩

theorem run_error_of_nested_error (csd : Option PDFDictionary) (document : PDFDocument)
    (x y : ResolverCall) (recursion : Int) (e : PDFParserException)
    (hxy : nestedCall csd document x = some y)
    (hy : y.run csd document (x.nestedBudget recursion) = .error e) :
    ∃ e', x.run csd document recursion = .error e' := by
  cases x with
  | impl colorSpace =>
    simp only [ResolverCall.run, ResolverCall.nestedBudget] at hy ⊢
    unfold createColorSpaceImpl
    by_cases hr : recursion - 1 ≤ 0
    · exact ⟨_, by simp [hr]; rfl⟩
    · simp only [hr, ↓reduceDIte]
      cases colorSpace <;> simp only [nestedCall] at hxy
      all_goals try (simp at hxy; done)
      · simp only [Option.some.injEq] at hxy
        subst hxy
        exact ⟨e, hy⟩
      · simp only
        repeat' split at hxy
        all_goals first
          | (simp at hxy; done)
          | (simp only [Option.some.injEq] at hxy; subst hxy; simp_all [ResolverCall.run] <;> (repeat' split) <;> first | exact ⟨_, rfl⟩ | simp_all)
  | byName name =>
    simp only [ResolverCall.run, ResolverCall.nestedBudget] at hy ⊢
    unfold createDeviceColorSpaceByNameImpl
    by_cases hr : recursion - 1 ≤ 0
    · exact ⟨_, by simp [hr]; rfl⟩
    · simp only [hr, ↓reduceDIte]
      simp only [nestedCall] at hxy
      repeat' split at hxy
      all_goals first
        | (simp at hxy; done)
        | (simp only [Option.some.injEq] at hxy; subst hxy; simp_all [ResolverCall.run])
  | iccBased dictionary =>
    simp only [ResolverCall.run, ResolverCall.nestedBudget] at hy ⊢
    unfold createICCBasedColorSpace
    simp only [nestedCall] at hxy
    repeat' split at hxy
    all_goals first
      | (simp at hxy; done)
      | (simp only [Option.some.injEq] at hxy; subst hxy; simp_all [ResolverCall.run]
         exact ⟨_, rfl⟩)
  | indexed array =>
    simp only [ResolverCall.run, ResolverCall.nestedBudget] at hy ⊢
    unfold createIndexedColorSpace
    simp only [nestedCall, Option.some.injEq] at hxy
    subst hxy
    simp_all [ResolverCall.run]
    exact ⟨_, rfl⟩
  | separation array =>
    simp only [ResolverCall.run, ResolverCall.nestedBudget] at hy ⊢
    unfold createSeparationColorSpace
    simp only [nestedCall] at hxy
    repeat' split at hxy
    all_goals first
      | (simp at hxy; done)
      | (simp only [Option.some.injEq] at hxy; subst hxy; simp_all [ResolverCall.run]
         exact ⟨_, rfl⟩)

theorem run_tooComplex_of_exhausted (csd : Option PDFDictionary) (document : PDFDocument)
    (x : ResolverCall) (recursion : Int) (hx : x.decrementsBudget = true)
    (hr : recursion - 1 ≤ 0) : x.run csd document recursion = .error .tooComplex := by
  cases x with
  | impl colorSpace =>
    simp only [ResolverCall.run]
    unfold createColorSpaceImpl
    simp [hr]
    rfl
  | byName name =>
    simp only [ResolverCall.run]
    unfold createDeviceColorSpaceByNameImpl
    simp [hr]
    rfl
  | iccBased _ => simp [ResolverCall.decrementsBudget] at hx
  | indexed _ => simp [ResolverCall.decrementsBudget] at hx
  | separation _ => simp [ResolverCall.decrementsBudget] at hx

theorem measure_nested_lt (csd : Option PDFDictionary) (document : PDFDocument)
    (x y : ResolverCall) (recursion : Int) (hxy : nestedCall csd document x = some y)
    (hr : x.decrementsBudget = true → ¬ recursion - 1 ≤ 0) :
    y.measure (x.nestedBudget recursion) < x.measure recursion := by
  cases x with
  | impl colorSpace =>
    have hr' := hr rfl
    cases y <;> simp only [ResolverCall.measure, ResolverCall.nestedBudget] <;> omega
  | byName name =>
    have hr' := hr rfl
    cases y <;> simp only [ResolverCall.measure, ResolverCall.nestedBudget] <;> omega
  | iccBased dictionary =>
    simp only [nestedCall] at hxy
    repeat' split at hxy
    all_goals first
      | (simp at hxy; done)
      | (simp only [Option.some.injEq] at hxy; subst hxy
         simp only [ResolverCall.measure, ResolverCall.nestedBudget]; omega)
  | indexed array =>
    simp only [nestedCall, Option.some.injEq] at hxy
    subst hxy
    simp only [ResolverCall.measure, ResolverCall.nestedBudget]; omega
  | separation array =>
    simp only [nestedCall] at hxy
    repeat' split at hxy
    all_goals first
      | (simp at hxy; done)
      | (simp only [Option.some.injEq] at hxy; subst hxy
         simp only [ResolverCall.measure, ResolverCall.nestedBudget]; omega)

/-- A set of calls in which every call makes a nested call of the set: every call of the
set fails, whatever its budget. -/
theorem run_error_of_closed (csd : Option PDFDictionary) (document : PDFDocument)
    (S : ResolverCall → Prop)
    (hS : ∀ x, S x → ∃ y, CallsDirectly csd document x y ∧ S y) :
    ∀ (m : Nat) (x : ResolverCall) (recursion : Int), S x → x.measure recursion ≤ m →
      ∃ e, x.run csd document recursion = .error e := by
  intro m
  induction m with
  | zero =>
    intro x recursion _ hm
    cases x <;> simp only [ResolverCall.measure] at hm <;> omega
  | succ m ih =>
    intro x recursion hx hm
    obtain ⟨y, hxy, hy⟩ := hS x hx
    by_cases hr : x.decrementsBudget = true ∧ recursion - 1 ≤ 0
    · exact ⟨_, run_tooComplex_of_exhausted csd document x recursion hr.1 hr.2⟩
    · have hlt := measure_nested_lt csd document x y recursion hxy (fun h1 h2 => hr ⟨h1, h2⟩)
      obtain ⟨e, he⟩ := ih y (x.nestedBudget recursion) hy (by omega)
      exact run_error_of_nested_error csd document x y recursion e hxy he

/-- C2: a name whose resolution leads, through the chain of nested resolver calls, to the
same name being dispatched again is rejected: `createColorSpace` on the name fails with
an exception and returns no colour space. -/
theorem createColorSpace_self_referential_alias_fails (csd : Option PDFDictionary)
    (document : PDFDocument) (X : String)
    (hcycle : Relation.TransGen (CallsDirectly csd document) (.byName X) (.byName X)) :
    ∃ e, createColorSpace csd document (.name X) = .error e := by
  have hclosed : ∀ x, Relation.ReflTransGen (CallsDirectly csd document) x (.byName X) →
      ∃ y, CallsDirectly csd document x y ∧
        Relation.ReflTransGen (CallsDirectly csd document) y (.byName X) := by
    intro x hx
    rcases Relation.ReflTransGen.cases_head hx with h | ⟨y, hxy, hy⟩
    · subst h
      obtain ⟨y, hxy, hy⟩ := Relation.TransGen.head'_iff.mp hcycle
      exact ⟨y, hxy, hy⟩
    · exact ⟨y, hxy, hy⟩
  obtain ⟨e, he⟩ := run_error_of_closed csd document _ hclosed _ (.byName X)
    (ResolverCall.nestedBudget (.impl (.name X)) COLOR_SPACE_MAX_LEVEL_OF_RECURSION)
    Relation.ReflTransGen.refl (le_refl _)
  exact run_error_of_nested_error csd document (.impl (.name X)) (.byName X)
    COLOR_SPACE_MAX_LEVEL_OF_RECURSION e rfl he

theorem createColorSpace_self_referential_alias_fails_witness :
    Relation.TransGen (CallsDirectly (some [("X", .array [.name "X"])]) emptyDocument)
        (.byName "X") (.byName "X") ∧
      ∃ e, createColorSpace (some [("X", .array [.name "X"])]) emptyDocument (.name "X")
        = .error e :=
  have hcycle : Relation.TransGen
      (CallsDirectly (some [("X", .array [.name "X"])]) emptyDocument)
      (.byName "X") (.byName "X") :=
    Relation.TransGen.tail
      (Relation.TransGen.tail
        (Relation.TransGen.single
          (show CallsDirectly _ _ (.byName "X") (.impl (.array [.name "X"])) from rfl))
        (show CallsDirectly _ _ (.impl (.array [.name "X"])) (.impl (.name "X")) from rfl))
      (show CallsDirectly _ _ (.impl (.name "X")) (.byName "X") from rfl)
  ⟨hcycle, createColorSpace_self_referential_alias_fails _ _ _ hcycle⟩

/-! ### Unfolding equations of the resolver -/

theorem createColorSpaceImpl_name (csd : Option PDFDictionary) (document : PDFDocument)
    (n : String) (recursion : Int) (hr : 1 < recursion) :
    createColorSpaceImpl csd document (.name n) recursion
      = createDeviceColorSpaceByNameImpl csd document n (recursion - 1) := by
  unfold createColorSpaceImpl
  have : ¬ recursion - 1 ≤ 0 := by omega
  simp only [this, ↓reduceDIte]

/-- The dispatch of `createColorSpaceImpl` on an array whose first element dereferences
to a name, as one equation. -/
theorem createColorSpaceImpl_array (csd : Option PDFDictionary) (document : PDFDocument)
    (array : List PDFObject) (name : String) (recursion : Int) (hr : 1 < recursion)
    (hcount : 0 < array.length)
    (hname : document.getObject (PDFArray.getItem array 0) = .name name) :
    createColorSpaceImpl csd document (.array array) recursion
      = (let colorSpaceSettings : PDFObject :=
            if array.length > 1 then document.getObject (PDFArray.getItem array 1) else .null
          let dictionary : Option PDFDictionary :=
            match colorSpaceSettings with
            | .dictionary entries => some entries
            | _ => none
          let stream : Option PDFDictionary :=
            match colorSpaceSettings with
            | .stream entries _ => some entries
            | _ => none
          match calibratedColorSpace? document dictionary name with
          | some calibrated => pure calibrated
          | none =>
            match stream, decide (name = COLOR_SPACE_NAME_ICCBASED) with
            | some entries, true =>
              createICCBasedColorSpace csd document entries (recursion - 1)
            | _, _ =>
              if name = COLOR_SPACE_NAME_INDEXED ∧ array.length = 4 then
                createIndexedColorSpace csd document array (recursion - 1)
              else if name = COLOR_SPACE_NAME_SEPARATION ∧ array.length = 4 then
                createSeparationColorSpace csd document array (recursion - 1)
              else
                createColorSpaceImpl csd document (.name name) (recursion - 1)) := by
  conv_lhs => unfold createColorSpaceImpl
  have : ¬ recursion - 1 ≤ 0 := by omega
  simp only [this, ↓reduceDIte, hcount, gt_iff_lt, ↓reduceIte, hname]

theorem createDeviceColorSpaceByNameImpl_eq (csd : Option PDFDictionary)
    (document : PDFDocument) (name : String) (recursion : Int) (hr : 1 < recursion) :
    createDeviceColorSpaceByNameImpl csd document name recursion
      = (if name = COLOR_SPACE_NAME_DEVICE_GRAY ∨ name = COLOR_SPACE_NAME_ABBREVIATION_DEVICE_GRAY then
          if hasKey? csd COLOR_SPACE_NAME_DEFAULT_GRAY then
            createColorSpaceImpl csd document
              (document.getObject (get? csd COLOR_SPACE_NAME_DEFAULT_GRAY)) (recursion - 1)
          else pure .deviceGray
        else if name = COLOR_SPACE_NAME_DEVICE_RGB ∨ name = COLOR_SPACE_NAME_ABBREVIATION_DEVICE_RGB then
          if hasKey? csd COLOR_SPACE_NAME_DEFAULT_RGB then
            createColorSpaceImpl csd document
              (document.getObject (get? csd COLOR_SPACE_NAME_DEFAULT_RGB)) (recursion - 1)
          else pure .deviceRGB
        else if name = COLOR_SPACE_NAME_DEVICE_CMYK ∨ name = COLOR_SPACE_NAME_ABBREVIATION_DEVICE_CMYK then
          if hasKey? csd COLOR_SPACE_NAME_DEFAULT_CMYK then
            createColorSpaceImpl csd document
              (document.getObject (get? csd COLOR_SPACE_NAME_DEFAULT_CMYK)) (recursion - 1)
          else pure .deviceCMYK
        else if hasKey? csd name then
          createColorSpaceImpl csd document (document.getObject (get? csd name)) (recursion - 1)
        else throw .invalidColorSpace) := by
  conv_lhs => unfold createDeviceColorSpaceByNameImpl
  have : ¬ recursion - 1 ≤ 0 := by omega
  simp only [this, ↓reduceDIte]

/-- The numbers that `createCalGrayColorSpace` reads from its parameter dictionary: a
`WhitePoint` array of three numbers, a `Gamma` number and no other key of the family. -/
theorem createCalGrayColorSpace_reads (document : PDFDocument) (parameters : PDFDictionary)
    (itemX itemY itemZ : PDFObject) (x y z gamma : ℚ)
    (hwhite : parameters.hasKey "WhitePoint" = true)
    (hitems : document.getObject (parameters.get "WhitePoint") = .array [itemX, itemY, itemZ])
    (hx : (document.getObject itemX).asNumber? = some x)
    (hy : (document.getObject itemY).asNumber? = some y)
    (hz : (document.getObject itemZ).asNumber? = some z)
    (hgamma : parameters.hasKey "Gamma" = true)
    (hvalue : (document.getObject (parameters.get "Gamma")).asNumber? = some gamma)
    (hblack : parameters.hasKey "BlackPoint" = false) :
    PDFCalGrayColorSpace.createCalGrayColorSpace document parameters
      = .calGray ![x, y, z] ![0, 0, 0] gamma := by
  have hnumbers : readNumbers? document [itemX, itemY, itemZ] = some [x, y, z] := by
    simp [readNumbers?, hx, hy, hz]
  have hpoint : (readNumberArrayFromDictionary document parameters "WhitePoint"
      whitePointD65 : PDFColor3) = ![x, y, z] := by
    funext i
    simp only [readNumberArrayFromDictionary, hwhite, ↓reduceIte, hitems, hnumbers,
      List.length_cons, List.length_nil, Nat.reduceAdd]
    fin_cases i <;> rfl
  have hblackPoint : (readNumberArrayFromDictionary document parameters "BlackPoint"
      ![0, 0, 0] : PDFColor3) = ![0, 0, 0] := by
    simp [readNumberArrayFromDictionary, hblack]
  have hgammaValue : readNumberFromDictionary document parameters "Gamma" 1 = gamma := by
    simp [readNumberFromDictionary, readNumber, hgamma, hvalue]
  simp only [PDFCalGrayColorSpace.createCalGrayColorSpace, CAL_WHITE_POINT, CAL_BLACK_POINT,
    CAL_GAMMA, hpoint, hblackPoint, hgammaValue]

/-- C3: default override. When the key of the override (`DefaultGray`, `DefaultRGB`,
`DefaultCMYK`) dereferences to an array `[CalGray, parameters]`, `createColorSpace` on the
bare device name (full or abbreviated) returns the CalGray colour space built from
`parameters`: its white point, black point and gamma are what the loader reads under the
keys `WhitePoint`, `BlackPoint` and `Gamma` (with the defaults D65, (0, 0, 0) and 1); for
a `WhitePoint` array of three numbers and a `Gamma` number they are these numbers. The
result is none of the plain device colour spaces. -/
theorem createColorSpace_default_override (dictionary : PDFDictionary)
    (document : PDFDocument) (name key : String) (parameters : PDFDictionary)
    (hname : IsDeviceNameWithDefault name key)
    (hoverride : OverridesWithCalGray dictionary document key parameters) :
    createColorSpace (some dictionary) document (.name name)
        = .ok (PDFCalGrayColorSpace.createCalGrayColorSpace document parameters) ∧
      createColorSpace (some dictionary) document (.name name)
        = .ok (.calGray
            (readNumberArrayFromDictionary document parameters "WhitePoint"
              ![9505 / 10000, 1, 1089 / 1000])
            (readNumberArrayFromDictionary document parameters "BlackPoint" ![0, 0, 0])
            (readNumberFromDictionary document parameters "Gamma" 1)) ∧
      (∀ (itemX itemY itemZ : PDFObject) (x y z gamma : ℚ),
        parameters.hasKey "WhitePoint" = true →
        document.getObject (parameters.get "WhitePoint") = .array [itemX, itemY, itemZ] →
        (document.getObject itemX).asNumber? = some x →
        (document.getObject itemY).asNumber? = some y →
        (document.getObject itemZ).asNumber? = some z →
        parameters.hasKey "Gamma" = true →
        (document.getObject (parameters.get "Gamma")).asNumber? = some gamma →
        parameters.hasKey "BlackPoint" = false →
        createColorSpace (some dictionary) document (.name name)
          = .ok (.calGray ![x, y, z] ![0, 0, 0] gamma)) ∧
      createColorSpace (some dictionary) document (.name name) ≠ .ok .deviceGray ∧
      createColorSpace (some dictionary) document (.name name) ≠ .ok .deviceRGB ∧
      createColorSpace (some dictionary) document (.name name) ≠ .ok .deviceCMYK := by
  obtain ⟨hkey, item0, item1, rest, harray, h0, h1⟩ := hoverride
  have hres : createColorSpace (some dictionary) document (.name name)
      = .ok (PDFCalGrayColorSpace.createCalGrayColorSpace document parameters) := by
    have hinner : createColorSpaceImpl (some dictionary) document
        (.array (item0 :: item1 :: rest)) 10
        = .ok (PDFCalGrayColorSpace.createCalGrayColorSpace document parameters) := by
      rw [createColorSpaceImpl_array (some dictionary) document _ "CalGray" 10 (by omega)
        (by simp) (by simpa [PDFArray.getItem] using h0)]
      simp [PDFArray.getItem, h1, calibratedColorSpace?]
      rfl
    unfold createColorSpace COLOR_SPACE_MAX_LEVEL_OF_RECURSION
    rw [createColorSpaceImpl_name _ _ _ _ (by omega),
      createDeviceColorSpaceByNameImpl_eq _ _ _ _ (by omega)]
    rcases hname with ⟨hn, hk⟩ | ⟨hn, hk⟩ | ⟨hn, hk⟩
    · subst hk
      rcases hn with hn | hn <;> subst hn <;>
        simp [hasKey?, get?, hkey, harray] <;> exact hinner
    · subst hk
      rcases hn with hn | hn <;> subst hn <;>
        simp [hasKey?, get?, hkey, harray] <;> exact hinner
    · subst hk
      rcases hn with hn | hn <;> subst hn <;>
        simp [hasKey?, get?, hkey, harray] <;> exact hinner
  refine ⟨hres, ?_, ?_, ?_, ?_, ?_⟩
  · rw [hres]
    rfl
  · intro itemX itemY itemZ x y z gamma hwhite hitems hx hy hz hgamma hvalue hblack
    rw [hres, createCalGrayColorSpace_reads document parameters itemX itemY itemZ
      x y z gamma hwhite hitems hx hy hz hgamma hvalue hblack]
  all_goals (rw [hres]; simp [PDFCalGrayColorSpace.createCalGrayColorSpace])

theorem createColorSpace_default_override_witness :
    IsDeviceNameWithDefault "DeviceGray" "DefaultGray" ∧
      OverridesWithCalGray
        [("DefaultGray", .array [.name "CalGray",
          .dictionary [("WhitePoint", .array [.real (9 / 10), .int 1, .real (11 / 10)]),
            ("Gamma", .real (11 / 5))]])]
        emptyDocument "DefaultGray"
        [("WhitePoint", .array [.real (9 / 10), .int 1, .real (11 / 10)]),
          ("Gamma", .real (11 / 5))] ∧
      createColorSpace
          (some [("DefaultGray", .array [.name "CalGray",
            .dictionary [("WhitePoint", .array [.real (9 / 10), .int 1, .real (11 / 10)]),
              ("Gamma", .real (11 / 5))]])])
          emptyDocument (.name "DeviceGray")
        = .ok (.calGray ![9 / 10, 1, 11 / 10] ![0, 0, 0] (11 / 5)) :=
  have hname : IsDeviceNameWithDefault "DeviceGray" "DefaultGray" :=
    Or.inl ⟨Or.inl rfl, rfl⟩
  have hoverride : OverridesWithCalGray
      [("DefaultGray", .array [.name "CalGray",
        .dictionary [("WhitePoint", .array [.real (9 / 10), .int 1, .real (11 / 10)]),
          ("Gamma", .real (11 / 5))]])]
      emptyDocument "DefaultGray"
      [("WhitePoint", .array [.real (9 / 10), .int 1, .real (11 / 10)]),
        ("Gamma", .real (11 / 5))] :=
    ⟨rfl, .name "CalGray", .dictionary [("WhitePoint",
      .array [.real (9 / 10), .int 1, .real (11 / 10)]), ("Gamma", .real (11 / 5))], [],
      rfl, rfl, rfl⟩
  ⟨hname, hoverride,
    (createColorSpace_default_override _ _ _ _ _ hname hoverride).2.2.1
      (.real (9 / 10)) (.int 1) (.real (11 / 10)) (9 / 10) 1 (11 / 10) (11 / 5)
      rfl rfl rfl (by simp [PDFDocument.getObject, PDFObject.asNumber?]) rfl rfl rfl rfl⟩

theorem createColorSpace_device_of_no_override (csd : Option PDFDictionary)
    (document : PDFDocument) (name key : String) (variant : PDFAbstractColorSpace)
    (components : Nat) (recursion : Int) (hr : 2 < recursion)
    (hfamily : IsDeviceFamily name key variant components)
    (hkey : hasKey? csd key = false) :
    createColorSpaceImpl csd document (.name name) recursion = .ok variant := by
  rw [createColorSpaceImpl_name _ _ _ _ (by omega),
    createDeviceColorSpaceByNameImpl_eq _ _ _ _ (by omega)]
  rcases hfamily with ⟨hn, hk, hv, _⟩ | ⟨hn, hk, hv, _⟩ | ⟨hn, hk, hv, _⟩
  all_goals
    subst hk hv
    rcases hn with hn | hn <;> subst hn <;> simp [hkey] <;> rfl

/-- C4: device names without override. For a name of a device family and a resource
dictionary that is absent or lacks the override key of the family, `createColorSpace`
returns the stateless device colour space of the family, with 1, 3 or 4 components,
whatever the other entries and the document are; and an abbreviation always resolves to
what its full name resolves to. -/
theorem createColorSpace_device_names (csd : Option PDFDictionary) (document : PDFDocument)
    (name key : String) (variant : PDFAbstractColorSpace) (components : Nat)
    (hfamily : IsDeviceFamily name key variant components)
    (hkey : hasKey? csd key = false) :
    createColorSpace csd document (.name name) = .ok variant ∧
      variant.getColorComponentCount = components ∧
      (∀ (csd' : Option PDFDictionary) (document' : PDFDocument),
        createColorSpace csd' document' (.name "G")
            = createColorSpace csd' document' (.name "DeviceGray") ∧
          createColorSpace csd' document' (.name "RGB")
            = createColorSpace csd' document' (.name "DeviceRGB") ∧
          createColorSpace csd' document' (.name "CMYK")
            = createColorSpace csd' document' (.name "DeviceCMYK")) := by
  refine ⟨?_, ?_, ?_⟩
  · exact createColorSpace_device_of_no_override csd document name key variant components
      _ (by simp [COLOR_SPACE_MAX_LEVEL_OF_RECURSION]) hfamily hkey
  · rcases hfamily with ⟨_, _, hv, hc⟩ | ⟨_, _, hv, hc⟩ | ⟨_, _, hv, hc⟩ <;>
      subst hv hc <;> rfl
  · intro csd' document'
    unfold createColorSpace COLOR_SPACE_MAX_LEVEL_OF_RECURSION
    refine ⟨?_, ?_, ?_⟩ <;>
      rw [createColorSpaceImpl_name _ _ _ _ (by omega),
        createColorSpaceImpl_name _ _ _ _ (by omega),
        createDeviceColorSpaceByNameImpl_eq _ _ _ _ (by omega),
        createDeviceColorSpaceByNameImpl_eq _ _ _ _ (by omega)] <;>
      simp

theorem createColorSpace_device_names_witness :
    IsDeviceFamily "CMYK" "DefaultCMYK" .deviceCMYK 4 ∧
      hasKey? (some [("DefaultGray", .name "DeviceRGB")]) "DefaultCMYK" = false ∧
      createColorSpace (some [("DefaultGray", .name "DeviceRGB")]) emptyDocument
        (.name "CMYK") = .ok .deviceCMYK :=
  have hfamily : IsDeviceFamily "CMYK" "DefaultCMYK" .deviceCMYK 4 :=
    Or.inr (Or.inr ⟨Or.inr rfl, rfl, rfl, rfl⟩)
  ⟨hfamily, rfl,
    (createColorSpace_device_names (some [("DefaultGray", .name "DeviceRGB")])
      emptyDocument _ _ _ _ hfamily rfl).1⟩

/-! ### ICCBased -/

theorem clip01_clip01 (x : PDFColorComponent) : clip01 (clip01 x) = clip01 x := by
  unfold clip01 qBound qMax qMin
  split_ifs <;> first | rfl | linarith

theorem clip01_qBound_zero_one (x : PDFColorComponent) : clip01 (qBound 0 x 1) = clip01 x :=
  clip01_clip01 x

theorem createColorSpaceImpl_iccBased (csd : Option PDFDictionary) (document : PDFDocument)
    (array : List PDFObject) (entries : PDFDictionary) (recursion : Int) (hr : 1 < recursion)
    (harray : IsICCBasedArray document array entries) :
    createColorSpaceImpl csd document (.array array) recursion
      = createICCBasedColorSpace csd document entries (recursion - 1) := by
  obtain ⟨item0, item1, rest, content, rfl, h0, h1⟩ := harray
  rw [createColorSpaceImpl_array csd document _ "ICCBased" recursion hr (by simp)
    (by simpa [PDFArray.getItem] using h0)]
  simp [PDFArray.getItem, h1, calibratedColorSpace?]

/-- The ranges of an ICCBased colour space whose stream dictionary has no `Range` entry. -/
theorem PDFICCBasedColorSpace.finish_of_no_range (document : PDFDocument)
    (entries : PDFDictionary) (alternate : PDFAbstractColorSpace)
    (hrange : entries.hasKey "Range" = false)
    (hcount : alternate.getColorComponentCount ≤ 4) :
    PDFICCBasedColorSpace.finish document entries alternate
      = .ok (.iccBased alternate ![0, 1, 0, 1, 0, 1, 0, 1]) := by
  unfold PDFICCBasedColorSpace.finish
  have h8 : ¬ 2 * alternate.getColorComponentCount > 8 := by omega
  simp only [h8, ↓reduceIte, readNumberArrayFromDictionary, ICCBASED_RANGE, hrange]
  have hfun : (fun i : Fin 8 =>
      if h : i.val < 2 * alternate.getColorComponentCount then
        rangeAt ![0, 1, 0, 1, 0, 1, 0, 1] (⟨i.val, h⟩ : Fin _).val
      else (![0, 1, 0, 1, 0, 1, 0, 1] : Fin 8 → PDFColorComponent) i)
      = ![0, 1, 0, 1, 0, 1, 0, 1] := by
    funext i
    have hi : rangeAt ![0, 1, 0, 1, 0, 1, 0, 1] i.val
        = (![0, 1, 0, 1, 0, 1, 0, 1] : Fin 8 → PDFColorComponent) i := by
      simp [rangeAt]
    split <;> simp [hi]
  simp only [Bool.false_eq_true, ↓reduceIte] at hfun ⊢
  rw [hfun]
  rfl

theorem unitRanges_upper :
    (![0, 1, 0, 1, 0, 1, 0, 1] : Fin 8 → PDFColorComponent) 4 = 0 ∧
      (![0, 1, 0, 1, 0, 1, 0, 1] : Fin 8 → PDFColorComponent) 5 = 1 ∧
      (![0, 1, 0, 1, 0, 1, 0, 1] : Fin 8 → PDFColorComponent) 6 = 0 ∧
      (![0, 1, 0, 1, 0, 1, 0, 1] : Fin 8 → PDFColorComponent) 7 = 1 :=
  ⟨rfl, rfl, rfl, rfl⟩

theorem iccBased_getColor_unit_ranges (powf : ℚ → ℚ → ℚ) (variant : PDFAbstractColorSpace)
    (hvariant : variant = .deviceGray ∨ variant = .deviceRGB ∨ variant = .deviceCMYK)
    (color : PDFColor) :
    (PDFAbstractColorSpace.iccBased variant ![0, 1, 0, 1, 0, 1, 0, 1]).getColor powf color
      = variant.getColor powf color := by
  rcases hvariant with rfl | rfl | rfl
  · by_cases h : color.length = 1
    · obtain ⟨a, rfl⟩ := List.length_eq_one.mp h
      simp [PDFAbstractColorSpace.getColor, PDFAbstractColorSpace.getColorComponentCount,
        clipByRange, rangeAt, clip01_qBound_zero_one, unitRanges_upper]
    · simp [PDFAbstractColorSpace.getColor, PDFAbstractColorSpace.getColorComponentCount, h]
  · by_cases h : color.length = 3
    · obtain ⟨a, b, c, rfl⟩ := List.length_eq_three.mp h
      simp [PDFAbstractColorSpace.getColor, PDFAbstractColorSpace.getColorComponentCount,
        clipByRange, rangeAt, fromRGB01, clip01_qBound_zero_one, unitRanges_upper]
    · simp [PDFAbstractColorSpace.getColor, PDFAbstractColorSpace.getColorComponentCount, h]
  · by_cases h : color.length = 4
    · match color, h with
      | [a, b, c, d], _ =>
        simp [PDFAbstractColorSpace.getColor, PDFAbstractColorSpace.getColorComponentCount,
          clipByRange, rangeAt, clip01_qBound_zero_one, unitRanges_upper]
    · simp [PDFAbstractColorSpace.getColor, PDFAbstractColorSpace.getColorComponentCount, h]

/-- C5: ICCBased alternate derived from N. For an array `[ICCBased, stream]` whose stream
dictionary has no `Alternate` and no `Range` entry and whose `N` is 1, 3 or 4, resolved
with a resource dictionary that is absent or lacks the override key of the derived device
family, `createColorSpace` returns an ICCBased colour space over the device colour space
of the family, with `N` components, and its `getColor` equals the `getColor` of that
device colour space on every tuple. -/
theorem createColorSpace_iccBased_derived_alternate (csd : Option PDFDictionary)
    (document : PDFDocument) (array : List PDFObject) (entries : PDFDictionary)
    (N : PDFInteger) (key : String) (variant : PDFAbstractColorSpace)
    (harray : IsICCBasedArray document array entries)
    (halternate : entries.hasKey "Alternate" = false)
    (hrange : entries.hasKey "Range" = false)
    (hN : HasComponentCountEntry document entries N)
    (hderived : IsDerivedAlternate N key variant)
    (hkey : hasKey? csd key = false) :
    ∃ range,
      createColorSpace csd document (.array array) = .ok (.iccBased variant range) ∧
      ((PDFAbstractColorSpace.iccBased variant range).getColorComponentCount : Int) = N ∧
      ∀ (powf : ℚ → ℚ → ℚ) (color : PDFColor),
        (PDFAbstractColorSpace.iccBased variant range).getColor powf color
          = variant.getColor powf color := by
  have hread : readIntegerFromDictionary document entries ICCBASED_N 0 = N := by
    simp [readIntegerFromDictionary, readInteger, hN.1, hN.2]
  have hcreate : createColorSpace csd document (.array array)
      = createICCBasedColorSpace csd document entries 11 := by
    unfold createColorSpace COLOR_SPACE_MAX_LEVEL_OF_RECURSION
    rw [createColorSpaceImpl_iccBased csd document array entries 12 (by omega) harray]
    rfl
  refine ⟨![0, 1, 0, 1, 0, 1, 0, 1], ?_, ?_, ?_⟩
  · rw [hcreate]
    unfold createICCBasedColorSpace
    simp only [ICCBASED_ALTERNATE, halternate, hread]
    rcases hderived with ⟨rfl, rfl, rfl⟩ | ⟨rfl, rfl, rfl⟩ | ⟨rfl, rfl, rfl⟩
    · rw [createColorSpace_device_of_no_override csd document "DeviceGray" "DefaultGray"
        .deviceGray 1 11 (by omega) (Or.inl ⟨Or.inl rfl, rfl, rfl, rfl⟩) hkey]
      simp [PDFICCBasedColorSpace.finish_of_no_range document entries .deviceGray hrange
        (by simp [PDFAbstractColorSpace.getColorComponentCount])]
    · rw [createColorSpace_device_of_no_override csd document "DeviceRGB" "DefaultRGB"
        .deviceRGB 3 11 (by omega) (Or.inr (Or.inl ⟨Or.inl rfl, rfl, rfl, rfl⟩)) hkey]
      simp [PDFICCBasedColorSpace.finish_of_no_range document entries .deviceRGB hrange
        (by simp [PDFAbstractColorSpace.getColorComponentCount])]
    · rw [createColorSpace_device_of_no_override csd document "DeviceCMYK" "DefaultCMYK"
        .deviceCMYK 4 11 (by omega) (Or.inr (Or.inr ⟨Or.inl rfl, rfl, rfl, rfl⟩)) hkey]
      simp [PDFICCBasedColorSpace.finish_of_no_range document entries .deviceCMYK hrange
        (by simp [PDFAbstractColorSpace.getColorComponentCount])]
  · rcases hderived with ⟨rfl, _, rfl⟩ | ⟨rfl, _, rfl⟩ | ⟨rfl, _, rfl⟩ <;> rfl
  · intro powf color
    refine iccBased_getColor_unit_ranges powf variant ?_ color
    rcases hderived with ⟨_, _, rfl⟩ | ⟨_, _, rfl⟩ | ⟨_, _, rfl⟩ <;> simp

theorem createColorSpace_iccBased_derived_alternate_witness :
    IsICCBasedArray emptyDocument [.name "ICCBased", .stream [("N", .int 3)] []]
        [("N", .int 3)] ∧
      ∃ range,
        createColorSpace none emptyDocument
            (.array [.name "ICCBased", .stream [("N", .int 3)] []])
          = .ok (.iccBased .deviceRGB range) ∧
        ((PDFAbstractColorSpace.iccBased .deviceRGB range).getColorComponentCount : Int) = 3 ∧
        ∀ (powf : ℚ → ℚ → ℚ) (color : PDFColor),
          (PDFAbstractColorSpace.iccBased .deviceRGB range).getColor powf color
            = PDFAbstractColorSpace.deviceRGB.getColor powf color :=
  have harray : IsICCBasedArray emptyDocument
      [.name "ICCBased", .stream [("N", .int 3)] []] [("N", .int 3)] :=
    ⟨.name "ICCBased", .stream [("N", .int 3)] [], [], [], rfl, rfl, rfl⟩
  ⟨harray,
    createColorSpace_iccBased_derived_alternate none emptyDocument _ [("N", .int 3)] 3
      "DefaultRGB" .deviceRGB harray rfl rfl ⟨rfl, rfl⟩ (Or.inr (Or.inl ⟨rfl, rfl, rfl⟩)) rfl⟩

/-- C6: invalid ICCBased component count. For an array `[ICCBased, stream]` whose stream
dictionary has no `Alternate` entry and whose `N`, as the loader reads it, is not 1, 3 or
4, `createColorSpace` fails, for every resource dictionary; an `N` that is absent or does
not dereference to an integer is read as 0 and fails in this way. -/
theorem createColorSpace_iccBased_invalid_component_count (csd : Option PDFDictionary)
    (document : PDFDocument) (array : List PDFObject) (entries : PDFDictionary)
    (harray : IsICCBasedArray document array entries)
    (halternate : entries.hasKey "Alternate" = false) :
    ((readIntegerFromDictionary document entries "N" 0 ≠ 1 ∧
        readIntegerFromDictionary document entries "N" 0 ≠ 3 ∧
        readIntegerFromDictionary document entries "N" 0 ≠ 4) →
      createColorSpace csd document (.array array)
        = .error (.iccUnknownComponentCount
            (readIntegerFromDictionary document entries "N" 0))) ∧
    ((entries.hasKey "N" = false ∨ ∀ value, document.getObject (entries.get "N") ≠ .int value) →
      createColorSpace csd document (.array array) = .error (.iccUnknownComponentCount 0)) := by
  have hmain : (readIntegerFromDictionary document entries "N" 0 ≠ 1 ∧
        readIntegerFromDictionary document entries "N" 0 ≠ 3 ∧
        readIntegerFromDictionary document entries "N" 0 ≠ 4) →
      createColorSpace csd document (.array array)
        = .error (.iccUnknownComponentCount
            (readIntegerFromDictionary document entries "N" 0)) := by
    intro hN
    unfold createColorSpace COLOR_SPACE_MAX_LEVEL_OF_RECURSION
    rw [createColorSpaceImpl_iccBased csd document array entries 12 (by omega) harray]
    unfold createICCBasedColorSpace
    simp only [ICCBASED_ALTERNATE, halternate, ICCBASED_N, hN.1, hN.2.1, hN.2.2]
    rfl
  refine ⟨hmain, ?_⟩
  intro habsent
  have hzero : readIntegerFromDictionary document entries "N" 0 = 0 := by
    unfold readIntegerFromDictionary readInteger
    rcases habsent with h | h
    · simp [h]
    · split
      · split
        · rename_i value hvalue
          exact absurd hvalue (h value)
        · rfl
      · rfl
  have := hmain (by rw [hzero]; decide)
  rwa [hzero] at this

theorem createColorSpace_iccBased_invalid_component_count_witness :
    IsICCBasedArray emptyDocument [.name "ICCBased", .stream [("N", .int 2)] []]
        [("N", .int 2)] ∧
      PDFDictionary.hasKey [("N", .int 2)] "Alternate" = false ∧
      readIntegerFromDictionary emptyDocument [("N", .int 2)] "N" 0 = 2 ∧
      createColorSpace (some [("DefaultRGB", .name "DeviceGray")]) emptyDocument
          (.array [.name "ICCBased", .stream [("N", .int 2)] []])
        = .error (.iccUnknownComponentCount 2) :=
  have harray : IsICCBasedArray emptyDocument
      [.name "ICCBased", .stream [("N", .int 2)] []] [("N", .int 2)] :=
    ⟨.name "ICCBased", .stream [("N", .int 2)] [], [], [], rfl, rfl, rfl⟩
  ⟨harray, rfl, rfl,
    (createColorSpace_iccBased_invalid_component_count
      (some [("DefaultRGB", .name "DeviceGray")]) emptyDocument
      [.name "ICCBased", .stream [("N", .int 2)] []] [("N", .int 2)] harray rfl).1
      ⟨by decide, by decide, by decide⟩⟩

/-! ### Indexed -/

theorem getColorComponentCount_pos (colorSpace : PDFAbstractColorSpace) :
    1 ≤ colorSpace.getColorComponentCount := by
  induction colorSpace with
  | iccBased alternate range ih => simpa [PDFAbstractColorSpace.getColorComponentCount] using ih
  | _ => simp [PDFAbstractColorSpace.getColorComponentCount]

theorem qBound_int_eq (value : Int) : qBound MIN_VALUE value MAX_VALUE = max 0 (min value 255) := by
  unfold qBound qMax qMin MIN_VALUE MAX_VALUE
  split_ifs <;> omega

theorem createColorSpaceImpl_indexed (csd : Option PDFDictionary) (document : PDFDocument)
    (item0 item1 item2 item3 : PDFObject) (recursion : Int) (hr : 1 < recursion)
    (h0 : document.getObject item0 = .name "Indexed") :
    createColorSpaceImpl csd document (.array [item0, item1, item2, item3]) recursion
      = createIndexedColorSpace csd document [item0, item1, item2, item3] (recursion - 1) := by
  rw [createColorSpaceImpl_array csd document _ "Indexed" recursion hr (by simp)
    (by simpa [PDFArray.getItem] using h0)]
  have hcal : ∀ dictionary, calibratedColorSpace? document dictionary "Indexed" = none := by
    intro dictionary
    cases dictionary <;> simp [calibratedColorSpace?]
  simp only [hcal]
  split <;> simp_all

/-- The table size check of `createIndexedColorSpace`. For a 4-element array
`[Indexed, base, hival, lookup]` whose base resolves, inside the array (with the budget 11
that is left there), to a colour space with `c` components, `createColorSpace` succeeds if
and only if the lookup data (the bytes of a literal string, or the decoded bytes of a
stream) exists and has length exactly `(h + 1) * c`, `h` being `hival` converted to `int`
and clipped to [0, 255] (0 when it is not an integer); the colour space returned is then
the Indexed one over that base, table and `h`. -/
theorem createColorSpace_indexed_iff_table_size (csd : Option PDFDictionary)
    (document : PDFDocument) (item0 base hival lookup : PDFObject)
    (baseColorSpace : PDFAbstractColorSpace)
    (h0 : document.getObject item0 = .name "Indexed")
    (hbase : createColorSpaceImpl csd document (document.getObject base) 11
      = .ok baseColorSpace) :
    ((∃ result, createColorSpace csd document (.array [item0, base, hival, lookup])
        = .ok result) ↔
      ∃ table, lookupData? document lookup = some table ∧
        (table.length : Int)
          = (clippedHival document hival + 1) * baseColorSpace.getColorComponentCount) ∧
    (∀ result, createColorSpace csd document (.array [item0, base, hival, lookup])
        = .ok result →
      ∃ table, lookupData? document lookup = some table ∧
        result = .indexed baseColorSpace table (clippedHival document hival)) := by
  have hcreate : createColorSpace csd document (.array [item0, base, hival, lookup])
      = PDFIndexedColorSpace.finish document [item0, base, hival, lookup] baseColorSpace := by
    unfold createColorSpace COLOR_SPACE_MAX_LEVEL_OF_RECURSION
    rw [createColorSpaceImpl_indexed csd document item0 base hival lookup 12 (by omega) h0]
    unfold createIndexedColorSpace
    have : document.getObject (PDFArray.getItem [item0, base, hival, lookup] 1)
        = document.getObject base := by simp [PDFArray.getItem]
    rw [this]
    have h11 : (12 : Int) - 1 = 11 := by norm_num
    rw [h11, hbase]
  have hmax : qBound MIN_VALUE (narrowToInt (readInteger document
      (PDFArray.getItem [item0, base, hival, lookup] 2) 0)) MAX_VALUE
      = clippedHival document hival := by
    rw [qBound_int_eq]
    simp only [readInteger, PDFArray.getItem, clippedHival, List.getD_cons_succ,
      List.getD_cons_zero]
    split
    · rfl
    · rfl
  have hpos := getColorComponentCount_pos baseColorSpace
  have hnonneg : 0 ≤ clippedHival document hival := by
    unfold clippedHival
    split <;> omega
  have hprod : 0 < (clippedHival document hival + 1) * (baseColorSpace.getColorComponentCount : Int) := by
    positivity
  have hfinish : PDFIndexedColorSpace.finish document [item0, base, hival, lookup]
      baseColorSpace
      = if (clippedHival document hival + 1) * (baseColorSpace.getColorComponentCount : Int)
            ≠ (((lookupData? document lookup).getD []).length : Int) then
          .error (.indexedInvalidColors (clippedHival document hival + 1)
            baseColorSpace.getColorComponentCount
            ((clippedHival document hival + 1) * baseColorSpace.getColorComponentCount)
            ((lookupData? document lookup).getD []).length)
        else
          .ok (.indexed baseColorSpace ((lookupData? document lookup).getD [])
            (clippedHival document hival)) := by
    have hlookup : document.getObject (PDFArray.getItem [item0, base, hival, lookup] 3)
        = document.getObject lookup := by simp [PDFArray.getItem]
    unfold PDFIndexedColorSpace.finish
    simp only [hlookup]
    rw [hmax]
    have hcolors : (match document.getObject lookup with
        | .string bytes => bytes
        | .stream entries content => document.getDecodedStream entries content
        | _ => []) = (lookupData? document lookup).getD [] := by
      unfold lookupData?
      cases document.getObject lookup <;> rfl
    rw [hcolors]
    simp only [MIN_VALUE, sub_zero]
    rfl
  rw [hcreate, hfinish]
  cases hdata : lookupData? document lookup with
  | none =>
    have hne : (clippedHival document hival + 1) * (baseColorSpace.getColorComponentCount : Int)
        ≠ 0 := by omega
    simp [hne]
  | some table =>
    by_cases hsize : (clippedHival document hival + 1)
        * (baseColorSpace.getColorComponentCount : Int) = (table.length : Int)
    · simp [hsize]
    · have hsize' : ¬ (table.length : Int) = (clippedHival document hival + 1)
          * (baseColorSpace.getColorComponentCount : Int) := fun h => hsize h.symm
      simp [hsize, hsize']

theorem createColorSpace_indexed_iff_table_size_witness :
    createColorSpaceImpl none emptyDocument
        (emptyDocument.getObject (.name "DeviceRGB")) 11 = .ok .deviceRGB ∧
      ∃ result, createColorSpace none emptyDocument
        (.array [.name "Indexed", .name "DeviceRGB", .int 1, .string [1, 2, 3, 4, 5, 255]])
        = .ok result :=
  have hbase : createColorSpaceImpl none emptyDocument
      (emptyDocument.getObject (.name "DeviceRGB")) 11 = .ok .deviceRGB :=
    createColorSpace_device_of_no_override none emptyDocument "DeviceRGB" "DefaultRGB"
      .deviceRGB 3 11 (by decide) (Or.inr (Or.inl ⟨Or.inl rfl, rfl, rfl, rfl⟩)) rfl
  ⟨hbase,
    (createColorSpace_indexed_iff_table_size none emptyDocument (.name "Indexed")
      (.name "DeviceRGB") (.int 1) (.string [1, 2, 3, 4, 5, 255]) .deviceRGB rfl hbase).1.mpr
      ⟨[1, 2, 3, 4, 5, 255], rfl, by decide⟩⟩

theorem truncToInt_natCast (i : Nat) : truncToInt (i : ℚ) = (i : Int) := by
  unfold truncToInt
  have h : (0 : ℚ) ≤ (i : ℚ) := Nat.cast_nonneg i
  simp only [h, ↓reduceIte]
  exact_mod_cast Int.floor_natCast (α := ℚ) i

theorem decodeColor_length (colors : QByteArray) (byteOffset componentCount : Nat) :
    (decodeColor colors byteOffset componentCount).length = componentCount := by
  simp [decodeColor]

theorem decodeColor_getElem? (colors : QByteArray) (byteOffset componentCount j : Nat)
    (hj : j < componentCount) (hbound : byteOffset + componentCount ≤ colors.length) :
    ∃ byte, colors[byteOffset + j]? = some byte ∧
      (decodeColor colors byteOffset componentCount)[j]? = some ((byte.val : ℚ) / 255) := by
  have hlt : byteOffset + j < colors.length := by omega
  refine ⟨colors[byteOffset + j], List.getElem?_eq_getElem hlt, ?_⟩
  simp [decodeColor, hj, List.getD_eq_getElem?_getD, List.getElem?_eq_getElem hlt]

/-- C8: Indexed palette decoding. For an Indexed colour space with maximum index `h`, a
base colour space of `c` components and a lookup table `T` of length `(h + 1) * c`, and
every integer index `i` with `0 ≤ i ≤ h`, `getColor [i]` is the `getColor` of the base
colour space on the tuple of length `c` whose `j`-th component is the byte `T[i * c + j]`,
read as an unsigned value, divided by 255. -/
theorem indexed_getColor_palette (powf : ℚ → ℚ → ℚ) (baseColorSpace : PDFAbstractColorSpace)
    (T : QByteArray) (h : Int) (i : Nat)
    (hlength : (T.length : Int) = (h + 1) * baseColorSpace.getColorComponentCount)
    (hi : (i : Int) ≤ h) :
    ∃ decoded : PDFColor,
      (PDFAbstractColorSpace.indexed baseColorSpace T h).getColor powf [(i : ℚ)]
        = baseColorSpace.getColor powf decoded ∧
      decoded.length = baseColorSpace.getColorComponentCount ∧
      ∀ j, j < baseColorSpace.getColorComponentCount →
        ∃ byte, T[i * baseColorSpace.getColorComponentCount + j]? = some byte ∧
          decoded[j]? = some ((byte.val : ℚ) / 255) := by
  have hpos := getColorComponentCount_pos baseColorSpace
  have hindex : qBound MIN_VALUE (truncToInt (i : ℚ)) h = (i : Int) := by
    rw [truncToInt_natCast]
    unfold qBound qMax qMin MIN_VALUE
    split_ifs <;> omega
  have hmul : (i : Int) * (baseColorSpace.getColorComponentCount : Int)
      + baseColorSpace.getColorComponentCount ≤ T.length := by
    rw [hlength]
    nlinarith
  have hmulNat : i * baseColorSpace.getColorComponentCount
      + baseColorSpace.getColorComponentCount ≤ T.length := by
    exact_mod_cast hmul
  refine ⟨decodeColor T (i * baseColorSpace.getColorComponentCount)
    baseColorSpace.getColorComponentCount, ?_, decodeColor_length _ _ _, ?_⟩
  · have hassert : (i : Int) * (baseColorSpace.getColorComponentCount : Int)
        + baseColorSpace.getColorComponentCount - 1 < T.length := by omega
    have htoNat : ((i : Int) * (baseColorSpace.getColorComponentCount : Int)).toNat
        = i * baseColorSpace.getColorComponentCount := by
      rw [← Int.natCast_mul]
      exact Int.toNat_natCast _
    simp only [PDFAbstractColorSpace.getColor, List.length_singleton, ↓reduceIte,
      List.getD_cons_zero, hindex, hassert, htoNat]
  · intro j hj
    exact decodeColor_getElem? T _ _ j hj hmulNat

theorem indexed_getColor_palette_witness :
    (([1, 2, 3, 4, 5, 255] : QByteArray).length : Int)
        = ((1 : Int) + 1) * PDFAbstractColorSpace.deviceRGB.getColorComponentCount ∧
      ((1 : Nat) : Int) ≤ 1 ∧
      ∃ decoded : PDFColor,
        (PDFAbstractColorSpace.indexed .deviceRGB [1, 2, 3, 4, 5, 255] 1).getColor
            (fun x _ => x) [((1 : Nat) : ℚ)]
          = PDFAbstractColorSpace.deviceRGB.getColor (fun x _ => x) decoded ∧
        decoded.length = PDFAbstractColorSpace.deviceRGB.getColorComponentCount ∧
        ∀ j, j < PDFAbstractColorSpace.deviceRGB.getColorComponentCount →
          ∃ byte, ([1, 2, 3, 4, 5, 255] : QByteArray)[1
              * PDFAbstractColorSpace.deviceRGB.getColorComponentCount + j]? = some byte ∧
            decoded[j]? = some ((byte.val : ℚ) / 255) :=
  ⟨by decide, by decide,
    indexed_getColor_palette (fun x _ => x) .deviceRGB [1, 2, 3, 4, 5, 255] 1 1
      (by decide) (by decide)⟩

theorem truncToInt_intCast (h : Int) : truncToInt (h : ℚ) = h := by
  unfold truncToInt
  split <;> simp

theorem le_truncToInt_of_lt (h : Int) (x : ℚ) (hx : (h : ℚ) < x) : h ≤ truncToInt x := by
  unfold truncToInt
  split
  · exact Int.le_floor.mpr hx.le
  · have h1 : (h : ℚ) < (⌈x⌉ : ℚ) := lt_of_lt_of_le hx (Int.le_ceil x)
    have h2 : h < ⌈x⌉ := by exact_mod_cast h1
    omega

theorem truncToInt_nonpos_of_neg (x : ℚ) (hx : x < 0) : truncToInt x ≤ 0 := by
  unfold truncToInt
  have h0 : ¬ (0 : ℚ) ≤ x := not_le.mpr hx
  simp only [h0, ↓reduceIte]
  exact Int.ceil_le.mpr (by simpa using hx.le)

/-- The index computed by `PDFIndexedColorSpace::getColor`. -/
theorem colorIndex_of_gt (h : Int) (x : ℚ) (hx : (h : ℚ) < x) :
    qBound MIN_VALUE (truncToInt x) h = qBound MIN_VALUE (truncToInt (h : ℚ)) h := by
  have h1 := le_truncToInt_of_lt h x hx
  rw [truncToInt_intCast]
  unfold qBound qMax qMin MIN_VALUE
  split_ifs <;> omega

theorem colorIndex_of_neg (h : Int) (x : ℚ) (hx : x < 0) :
    qBound MIN_VALUE (truncToInt x) h = qBound MIN_VALUE (truncToInt (0 : ℚ)) h := by
  have h1 := truncToInt_nonpos_of_neg x hx
  have h2 : truncToInt (0 : ℚ) = 0 := by simpa using truncToInt_intCast 0
  rw [h2]
  unfold qBound qMax qMin MIN_VALUE
  split_ifs <;> omega

theorem colorIndex_bounds (h : Int) (x : ℚ) (hh : 0 ≤ h) :
    0 ≤ qBound MIN_VALUE (truncToInt x) h ∧ qBound MIN_VALUE (truncToInt x) h ≤ h := by
  unfold qBound qMax qMin MIN_VALUE
  split_ifs <;> omega

theorem indexed_getColor_congr (powf : ℚ → ℚ → ℚ) (baseColorSpace : PDFAbstractColorSpace)
    (T : QByteArray) (h : Int) (x y : ℚ)
    (hindex : qBound MIN_VALUE (truncToInt x) h = qBound MIN_VALUE (truncToInt y) h) :
    (PDFAbstractColorSpace.indexed baseColorSpace T h).getColor powf [x]
      = (PDFAbstractColorSpace.indexed baseColorSpace T h).getColor powf [y] := by
  simp only [PDFAbstractColorSpace.getColor, List.length_singleton, ↓reduceIte,
    List.getD_cons_zero, hindex]

theorem staticCastInt_of_range (x : ℚ) (hlow : -2 ^ 31 ≤ truncToInt x)
    (hhigh : truncToInt x < 2 ^ 31) : staticCastInt x = truncToInt x := by
  unfold staticCastInt
  rw [if_pos ⟨hlow, hhigh⟩]

theorem staticCastInt_natCast (i : Nat) (hi : i < 2 ^ 31) : staticCastInt (i : ℚ) = i := by
  have h := truncToInt_natCast i
  rw [staticCastInt_of_range _ (by rw [h]; exact le_trans (by norm_num) (Int.natCast_nonneg i))
    (by rw [h]; exact_mod_cast hi), h]

theorem staticCastInt_out_of_range (x : ℚ) (hhigh : 2 ^ 31 ≤ truncToInt x) :
    staticCastInt x = -2 ^ 31 := by
  unfold staticCastInt
  rw [if_neg (fun h => absurd h.2 (not_lt.mpr hhigh))]

theorem indexed_getColorRelease_congr (powf : ℚ → ℚ → ℚ)
    (baseColorSpace : PDFAbstractColorSpace) (T : QByteArray) (h : Int) (x y : ℚ)
    (hindex : qBound MIN_VALUE (staticCastInt x) h = qBound MIN_VALUE (staticCastInt y) h) :
    (PDFAbstractColorSpace.indexed baseColorSpace T h).getColorRelease powf [x]
      = (PDFAbstractColorSpace.indexed baseColorSpace T h).getColorRelease powf [y] := by
  simp only [PDFAbstractColorSpace.getColorRelease, List.length_singleton, le_refl, ↓reduceIte,
    List.getD_cons_zero, hindex]

/-- The index clipping of `PDFIndexedColorSpace::getColor` where the conversion to `int`
is defined: an index value greater than the maximum index `h` whose truncation fits
`int` gives `getColor [h]`, a negative index value gives `getColor [0]`. -/
theorem indexed_getColorRelease_clips (powf : ℚ → ℚ → ℚ)
    (baseColorSpace : PDFAbstractColorSpace) (T : QByteArray) (h : Int) (x : ℚ) :
    ((h : ℚ) < x → truncToInt x < 2 ^ 31 →
      (PDFAbstractColorSpace.indexed baseColorSpace T h).getColorRelease powf [x]
        = (PDFAbstractColorSpace.indexed baseColorSpace T h).getColorRelease powf [(h : ℚ)]) ∧
    (x < 0 →
      (PDFAbstractColorSpace.indexed baseColorSpace T h).getColorRelease powf [x]
        = (PDFAbstractColorSpace.indexed baseColorSpace T h).getColorRelease powf [0]) := by
  refine ⟨?_, ?_⟩
  · intro hx hfits
    apply indexed_getColorRelease_congr
    have h1 := le_truncToInt_of_lt h x hx
    have h2 := truncToInt_intCast h
    unfold staticCastInt
    rw [h2]
    unfold qBound qMax qMin MIN_VALUE
    have e31 : (2 : Int) ^ 31 = 2147483648 := by norm_num
    rw [e31] at hfits ⊢
    split_ifs <;> omega
  · intro hx
    apply indexed_getColorRelease_congr
    have h1 := truncToInt_nonpos_of_neg x hx
    have h2 : truncToInt (0 : ℚ) = 0 := by simpa using truncToInt_intCast 0
    unfold staticCastInt
    rw [h2]
    unfold qBound qMax qMin MIN_VALUE
    have e31 : (2 : Int) ^ 31 = 2147483648 := by norm_num
    rw [e31]
    split_ifs <;> omega

/-- C9, the code at an index value whose truncation does not fit `int`: for the Indexed
colour space over DeviceGray with the table (0, 255) and maximum index 1, the index value
3000000000 is greater than 1, its conversion to `int` gives `INT_MIN`, which is clipped to
0, and `getColor` returns the entry 0 (black), not the entry 1 (white) of `getColor [1]`. -/
theorem indexed_getColorRelease_index_out_of_int_range :
    ((1 : Int) : ℚ) < 3000000000 ∧
      staticCastInt 3000000000 = -2147483648 ∧
      (PDFAbstractColorSpace.indexed .deviceGray [0, 255] 1).getColorRelease (fun x _ => x)
          [3000000000] = some (.rgb 0 0 0 1) ∧
      (PDFAbstractColorSpace.indexed .deviceGray [0, 255] 1).getColorRelease (fun x _ => x)
          [1] = some (.rgb 1 1 1 1) ∧
      (PDFAbstractColorSpace.indexed .deviceGray [0, 255] 1).getColorRelease (fun x _ => x)
          [3000000000]
        ≠ (PDFAbstractColorSpace.indexed .deviceGray [0, 255] 1).getColorRelease (fun x _ => x)
          [((1 : Int) : ℚ)] := by
  have hbig : staticCastInt 3000000000 = -2147483648 := by
    have h := truncToInt_natCast 3000000000
    have h' : truncToInt (3000000000 : ℚ) = 3000000000 := by exact_mod_cast h
    rw [staticCastInt_out_of_range _ (by rw [h']; norm_num)]
    norm_num
  have hone : staticCastInt 1 = 1 := by
    have h := staticCastInt_natCast 1 (by norm_num)
    exact_mod_cast h
  have hindexBig : qBound MIN_VALUE (-2147483648 : Int) 1 = 0 := by decide
  have hindexOne : qBound MIN_VALUE (1 : Int) 1 = 1 := by decide
  have hfirst : (PDFAbstractColorSpace.indexed .deviceGray [0, 255] 1).getColorRelease
      (fun x _ => x) [3000000000] = some (.rgb 0 0 0 1) := by
    simp [PDFAbstractColorSpace.getColorRelease, PDFAbstractColorSpace.getColorComponentCount,
      hbig, hindexBig, decodeColor]
    norm_num [clip01, qBound, qMax, qMin]
  have hsecond : (PDFAbstractColorSpace.indexed .deviceGray [0, 255] 1).getColorRelease
      (fun x _ => x) [1] = some (.rgb 1 1 1 1) := by
    have hbyte : ((255 : Fin 256) : ℕ) = 255 := rfl
    simp [PDFAbstractColorSpace.getColorRelease, PDFAbstractColorSpace.getColorComponentCount,
      hone, hindexOne, decodeColor]
    simp only [clip01, qBound, qMax, qMin, hbyte]
    norm_num
  refine ⟨by norm_num, hbig, hfirst, hsecond, ?_⟩
  have hcast : (((1 : Int) : ℚ)) = 1 := by norm_num
  rw [hcast, hfirst, hsecond]
  simp

/-! ### Default colour -/

theorem clip01_zero : clip01 0 = 0 := by
  unfold clip01 qBound qMax qMin
  norm_num

/-- C10, as stated, fails for DeviceCMYK: its default colour is RGB black, the colour of
the all-zero tuple is the CMYK colour (0, 0, 0, 0). -/
theorem deviceCMYK_getDefaultColor_ne_getColor_zero :
    PDFAbstractColorSpace.deviceCMYK.getDefaultColor (fun x _ => x)
      ≠ PDFAbstractColorSpace.deviceCMYK.getColor (fun x _ => x)
        (List.replicate PDFAbstractColorSpace.deviceCMYK.getColorComponentCount 0) := by
  simp [PDFAbstractColorSpace.getDefaultColor, PDFAbstractColorSpace.getColor,
    PDFAbstractColorSpace.getColorComponentCount, QColor.black, clip01_zero]

/-- C10, amended: for every colour space other than DeviceCMYK, `getDefaultColor` equals
`getColor` on the all-zero tuple of length `getColorComponentCount`; the default colour of
DeviceCMYK is RGB black. -/
theorem getDefaultColor_eq_getColor_zero (powf : ℚ → ℚ → ℚ)
    (colorSpace : PDFAbstractColorSpace) (hcmyk : colorSpace ≠ .deviceCMYK) :
    colorSpace.getDefaultColor powf
        = colorSpace.getColor powf (List.replicate colorSpace.getColorComponentCount 0) ∧
      PDFAbstractColorSpace.deviceCMYK.getDefaultColor powf = some (.rgb 0 0 0 1) := by
  refine ⟨?_, rfl⟩
  cases colorSpace with
  | deviceGray =>
    simp [PDFAbstractColorSpace.getDefaultColor, PDFAbstractColorSpace.getColor,
      PDFAbstractColorSpace.getColorComponentCount, QColor.black, clip01_zero]
  | deviceRGB =>
    simp [PDFAbstractColorSpace.getDefaultColor, PDFAbstractColorSpace.getColor,
      PDFAbstractColorSpace.getColorComponentCount, QColor.black, fromRGB01, clip01_zero]
  | deviceCMYK => exact absurd rfl hcmyk
  | calGray whitePoint blackPoint gamma => rfl
  | calRGB whitePoint blackPoint gamma matrix => rfl
  | lab whitePoint blackPoint aMin aMax bMin bMax => rfl
  | iccBased alternate range => rfl
  | indexed base colors maxValue => rfl
  | separation colorName alternate tintTransform => rfl

theorem getDefaultColor_eq_getColor_zero_witness :
    PDFAbstractColorSpace.indexed .deviceCMYK [0, 0, 0, 255] 0 ≠ .deviceCMYK ∧
      (PDFAbstractColorSpace.indexed .deviceCMYK [0, 0, 0, 255] 0).getDefaultColor
          (fun x _ => x)
        = (PDFAbstractColorSpace.indexed .deviceCMYK [0, 0, 0, 255] 0).getColor
          (fun x _ => x)
          (List.replicate
            (PDFAbstractColorSpace.indexed .deviceCMYK [0, 0, 0, 255] 0).getColorComponentCount
            0) :=
  ⟨by simp,
    (getDefaultColor_eq_getColor_zero (fun x _ => x)
      (.indexed .deviceCMYK [0, 0, 0, 255] 0) (by simp)).1⟩

/-! ### Device colour spaces -/

theorem clip01_one : clip01 1 = 1 := by
  unfold clip01 qBound qMax qMin
  norm_num

/-- C11, as stated, fails for DeviceCMYK: the all-zero tuple is the CMYK colour without
ink, whose RGB value is (1, 1, 1), white; no colour of RGB value (0, 0, 0) is returned. -/
theorem deviceCMYK_getColor_zero_not_black :
    PDFAbstractColorSpace.deviceCMYK.getColor (fun x _ => x)
        (List.replicate PDFAbstractColorSpace.deviceCMYK.getColorComponentCount 0)
      = some (.cmyk 0 0 0 0 1) ∧
    (QColor.cmyk 0 0 0 0 1).rgbValue = some (1, 1, 1) ∧
    ¬ ∃ color, PDFAbstractColorSpace.deviceCMYK.getColor (fun x _ => x)
        (List.replicate PDFAbstractColorSpace.deviceCMYK.getColorComponentCount 0)
          = some color ∧ color.rgbValue = some (0, 0, 0) := by
  have h : PDFAbstractColorSpace.deviceCMYK.getColor (fun x _ => x)
      (List.replicate PDFAbstractColorSpace.deviceCMYK.getColorComponentCount 0)
      = some (.cmyk 0 0 0 0 1) := by
    simp [PDFAbstractColorSpace.getColor, PDFAbstractColorSpace.getColorComponentCount,
      clip01_zero]
  refine ⟨h, by simp [QColor.rgbValue], ?_⟩
  rintro ⟨color, hcolor, hvalue⟩
  rw [h] at hcolor
  cases hcolor
  simp [QColor.rgbValue] at hvalue

/-- C11, amended: `getColor` on the all-zero tuple yields black, a colour of RGB value
(0, 0, 0), for DeviceGray and DeviceRGB; for DeviceCMYK the all-zero tuple yields the CMYK
colour (0, 0, 0, 0), of RGB value (1, 1, 1), and black is the tuple (0, 0, 0, 1). -/
theorem device_getColor_zero (powf : ℚ → ℚ → ℚ) :
    (∃ color, PDFAbstractColorSpace.deviceGray.getColor powf
        (List.replicate PDFAbstractColorSpace.deviceGray.getColorComponentCount 0)
          = some color ∧ color.rgbValue = some (0, 0, 0)) ∧
    (∃ color, PDFAbstractColorSpace.deviceRGB.getColor powf
        (List.replicate PDFAbstractColorSpace.deviceRGB.getColorComponentCount 0)
          = some color ∧ color.rgbValue = some (0, 0, 0)) ∧
    (∃ color, PDFAbstractColorSpace.deviceCMYK.getColor powf
        (List.replicate PDFAbstractColorSpace.deviceCMYK.getColorComponentCount 0)
          = some color ∧ color.rgbValue = some (1, 1, 1)) ∧
    (∃ color, PDFAbstractColorSpace.deviceCMYK.getColor powf [0, 0, 0, 1]
          = some color ∧ color.rgbValue = some (0, 0, 0)) := by
  refine ⟨⟨.rgb 0 0 0 1, ?_, rfl⟩, ⟨.rgb 0 0 0 1, ?_, rfl⟩, ⟨.cmyk 0 0 0 0 1, ?_, ?_⟩,
    ⟨.cmyk 0 0 0 1 1, ?_, ?_⟩⟩
  · simp [PDFAbstractColorSpace.getColor, PDFAbstractColorSpace.getColorComponentCount,
      clip01_zero]
  · simp [PDFAbstractColorSpace.getColor, PDFAbstractColorSpace.getColorComponentCount,
      fromRGB01, clip01_zero]
  · simp [PDFAbstractColorSpace.getColor, PDFAbstractColorSpace.getColorComponentCount,
      clip01_zero]
  · simp [QColor.rgbValue]
  · simp [PDFAbstractColorSpace.getColor, clip01_zero, clip01_one]
  · simp [QColor.rgbValue]

/-! ### Calibrated colour spaces: the white point -/

theorem fromRGB01_of_ones (color : PDFColor3) (h : ∀ i, color i = 1) :
    fromRGB01 color = QColor.white := by
  simp [fromRGB01, h, clip01_one, QColor.white]

/-- The correction coefficients map the converted white point to (1, 1, 1). -/
theorem calibrated_whitePoint (whitePoint : PDFColor3)
    (hwhite : HasInvertibleWhitePoint whitePoint) (i : Fin 3) :
    colorMultiplyByFactors (convertXYZtoRGB whitePoint) (correctionCoefficients whitePoint) i
      = 1 := by
  have h0 := hwhite 0
  have h1 := hwhite 1
  have h2 := hwhite 2
  fin_cases i <;> simp [colorMultiplyByFactors, correctionCoefficients, h0, h1, h2]

/-- C13: CalGray white point. For every CalGray colour space, with any gamma (the power
function satisfies `powf 1 gamma = 1`) and any white point whose image under the fixed
XYZ to RGB matrix has no zero component, `getColor [1]` is white, RGB = (1, 1, 1). -/
theorem calGray_getColor_one_white (powf : ℚ → ℚ → ℚ) (whitePoint blackPoint : PDFColor3)
    (gamma : PDFColorComponent) (hpow : powf 1 gamma = 1)
    (hwhite : HasInvertibleWhitePoint whitePoint) :
    (PDFAbstractColorSpace.calGray whitePoint blackPoint gamma).getColor powf [1]
      = some (.rgb 1 1 1 1) := by
  have hscaled : colorMultiplyByFactor whitePoint 1 = whitePoint := by
    funext i
    simp [colorMultiplyByFactor]
  simp only [PDFAbstractColorSpace.getColor, List.length_singleton, ↓reduceIte,
    List.getD_cons_zero, clip01_one, hpow, hscaled]
  rw [fromRGB01_of_ones _ (calibrated_whitePoint whitePoint hwhite)]
  rfl

/-- The conversion from XYZ to RGB with the entries of the fixed matrix written out. -/
theorem convertXYZtoRGB_eq (xyzColor : PDFColor3) :
    convertXYZtoRGB xyzColor
      = ![32406 / 10000 * xyzColor 0 + -15372 / 10000 * xyzColor 1 + -4986 / 10000 * xyzColor 2,
          -9689 / 10000 * xyzColor 0 + 18758 / 10000 * xyzColor 1 + 415 / 10000 * xyzColor 2,
          557 / 10000 * xyzColor 0 + -2040 / 10000 * xyzColor 1 + 10570 / 10000 * xyzColor 2] := by
  have h0 : matrixXYZtoRGB 0 = 32406 / 10000 := rfl
  have h1 : matrixXYZtoRGB 1 = -15372 / 10000 := rfl
  have h2 : matrixXYZtoRGB 2 = -4986 / 10000 := rfl
  have h3 : matrixXYZtoRGB 3 = -9689 / 10000 := rfl
  have h4 : matrixXYZtoRGB 4 = 18758 / 10000 := rfl
  have h5 : matrixXYZtoRGB 5 = 415 / 10000 := rfl
  have h6 : matrixXYZtoRGB 6 = 557 / 10000 := rfl
  have h7 : matrixXYZtoRGB 7 = -2040 / 10000 := rfl
  have h8 : matrixXYZtoRGB 8 = 10570 / 10000 := rfl
  unfold convertXYZtoRGB PDFColorComponentMatrix_3x3.mul
  rw [h0, h1, h2, h3, h4, h5, h6, h7, h8]
  simp only [zero_add]

theorem whitePointD65_invertible : HasInvertibleWhitePoint whitePointD65 := by
  intro i
  rw [convertXYZtoRGB_eq]
  fin_cases i <;> simp [whitePointD65] <;> norm_num

theorem calGray_getColor_one_white_witness :
    HasInvertibleWhitePoint whitePointD65 ∧
      (PDFAbstractColorSpace.calGray whitePointD65 ![0, 0, 0] 2).getColor
          (fun x _ => x) [1]
        = some (.rgb 1 1 1 1) :=
  ⟨whitePointD65_invertible,
    calGray_getColor_one_white (fun x _ => x) whitePointD65 ![0, 0, 0] 2 rfl
      whitePointD65_invertible⟩

theorem labG_one : labG 1 = 1 := by
  unfold labG
  norm_num

theorem qBoundRange_zero (min max : Option PDFColorComponent)
    (hrange : RangeContainsZero min max) : qBoundRange min 0 max = 0 := by
  obtain ⟨hmin, hmax⟩ := hrange
  unfold qBoundRange qMin qMax
  cases max with
  | none =>
    cases min with
    | none => rfl
    | some low =>
      have := hmin low rfl
      simp only
      split_ifs <;> first | rfl | linarith
  | some high =>
    have h1 := hmax high rfl
    cases min with
    | none =>
      simp only
      split_ifs <;> first | rfl | linarith
    | some low =>
      have h2 := hmin low rfl
      simp only
      split_ifs <;> first | rfl | linarith

/-- C14, as stated, fails in two ways: with the D65 white point and the declared range
`a* ∈ [10, 20]`, which does not contain 0, `getColor [100, 0, 0]` is not white (its green
channel is below 1); with the white point (0, 0, 0), whose image has zero components,
`getColor [100, 0, 0]` is black. -/
theorem lab_getColor_white_point_counterexample :
    (PDFAbstractColorSpace.lab whitePointD65 ![0, 0, 0] (some 10) (some 20) none none).getColor
        (fun x _ => x) [100, 0, 0] ≠ some (.rgb 1 1 1 1) ∧
    (PDFAbstractColorSpace.lab ![0, 0, 0] ![0, 0, 0] none none none none).getColor
        (fun x _ => x) [100, 0, 0] = some (.rgb 0 0 0 1) := by
  constructor
  · simp only [PDFAbstractColorSpace.getColor, List.length_cons, List.length_nil,
      List.getD_cons_zero, List.getD_cons_succ, qBoundRange, convertXYZtoRGB_eq,
      colorMultiplyByFactors, correctionCoefficients, fromRGB01, whitePointD65, labG,
      clip01, qBound, qMin, qMax]
    norm_num
  · simp only [PDFAbstractColorSpace.getColor, List.length_cons, List.length_nil,
      List.getD_cons_zero, List.getD_cons_succ, qBoundRange, convertXYZtoRGB_eq,
      colorMultiplyByFactors, correctionCoefficients, fromRGB01, labG,
      clip01, qBound, qMin, qMax]
    norm_num

/-- C14, amended: Lab white point. For every Lab colour space whose white point maps
under the fixed XYZ to RGB matrix to a vector without zero component and whose declared
`a*` and `b*` ranges contain 0, `getColor [100, 0, 0]` is white, RGB = (1, 1, 1). -/
theorem lab_getColor_white (powf : ℚ → ℚ → ℚ) (whitePoint blackPoint : PDFColor3)
    (aMin aMax bMin bMax : Option PDFColorComponent)
    (hwhite : HasInvertibleWhitePoint whitePoint)
    (ha : RangeContainsZero aMin aMax) (hb : RangeContainsZero bMin bMax) :
    (PDFAbstractColorSpace.lab whitePoint blackPoint aMin aMax bMin bMax).getColor powf
        [100, 0, 0]
      = some (.rgb 1 1 1 1) := by
  have hL : qBound (0 : ℚ) 100 100 = 100 := by
    unfold qBound qMax qMin
    norm_num
  have hscaled : colorMultiplyByFactors whitePoint ![labG 1, labG 1, labG 1] = whitePoint := by
    funext i
    fin_cases i <;> simp [colorMultiplyByFactors, labG_one]
  have hparam : ((100 : ℚ) + 16) / 116 = 1 := by norm_num
  simp only [PDFAbstractColorSpace.getColor, List.length_cons, List.length_nil,
    List.getD_cons_zero, List.getD_cons_succ, hL, qBoundRange_zero aMin aMax ha,
    qBoundRange_zero bMin bMax hb, hparam, zero_div, add_zero, sub_zero, hscaled]
  simp only [Nat.reduceAdd, ↓reduceIte]
  rw [fromRGB01_of_ones _ (calibrated_whitePoint whitePoint hwhite)]
  rfl

theorem lab_getColor_white_witness :
    HasInvertibleWhitePoint whitePointD65 ∧
      RangeContainsZero (some (-128)) (some 127) ∧
      (PDFAbstractColorSpace.lab whitePointD65 ![0, 0, 0] (some (-128)) (some 127)
          none none).getColor (fun x _ => x) [100, 0, 0]
        = some (.rgb 1 1 1 1) :=
  have ha : RangeContainsZero (some (-128)) (some 127) :=
    ⟨fun value h => (by cases h; norm_num), fun value h => (by cases h; norm_num)⟩
  have hb : RangeContainsZero none none :=
    ⟨fun value h => (by cases h), fun value h => (by cases h)⟩
  ⟨whitePointD65_invertible, ha,
    lab_getColor_white (fun x _ => x) whitePointD65 ![0, 0, 0] _ _ _ _
      whitePointD65_invertible ha hb⟩

theorem clip01_of_mem (x : PDFColorComponent) (h0 : 0 ≤ x) (h1 : x ≤ 1) : clip01 x = x := by
  unfold clip01 qBound qMax qMin
  split_ifs <;> linarith

/-- The matrix product for a matrix given by its nine entries in row order. -/
theorem matrix_mul_entries (m0 m1 m2 m3 m4 m5 m6 m7 m8 : PDFColorComponent)
    (color : PDFColor3) :
    PDFColorComponentMatrix_3x3.mul ![m0, m1, m2, m3, m4, m5, m6, m7, m8] color
      = ![0 + m0 * color 0 + m1 * color 1 + m2 * color 2,
          0 + m3 * color 0 + m4 * color 1 + m5 * color 2,
          0 + m6 * color 0 + m7 * color 1 + m8 * color 2] :=
  rfl

/-- C15, as stated, fails for a white point whose image has a zero component: for the
white point (0, 0, 0), unit gammas and the identity matrix, the tuple (0, 0, 0) encodes
the white point and `getColor [0, 0, 0]` is black. -/
theorem calRGB_getColor_white_point_counterexample :
    EncodesWhitePoint (fun x _ => x) ![0, 0, 0] ![1, 1, 1]
        ![1, 0, 0, 0, 1, 0, 0, 0, 1] 0 0 0 ∧
    (PDFAbstractColorSpace.calRGB ![0, 0, 0] ![0, 0, 0] ![1, 1, 1]
        ![1, 0, 0, 0, 1, 0, 0, 0, 1]).getColor (fun x _ => x) [0, 0, 0]
      = some (.rgb 0 0 0 1) ∧
    (PDFAbstractColorSpace.calRGB ![0, 0, 0] ![0, 0, 0] ![1, 1, 1]
        ![1, 0, 0, 0, 1, 0, 0, 0, 1]).getColor (fun x _ => x) [0, 0, 0]
      ≠ some (.rgb 1 1 1 1) := by
  have hencodes : PDFColorComponentMatrix_3x3.mul ![1, 0, 0, 0, 1, 0, 0, 0, 1]
      (colorPowerByFactors (fun x _ => x) ![0, 0, 0] ![1, 1, 1]) = ![0, 0, 0] := by
    rw [matrix_mul_entries]
    funext i
    fin_cases i <;> simp [colorPowerByFactors]
  have hclip : clip01Color3 ![0, 0, 0] = ![0, 0, 0] := by
    funext i
    fin_cases i <;> simp [clip01Color3, clip01_zero]
  have hcolor : (PDFAbstractColorSpace.calRGB ![0, 0, 0] ![0, 0, 0] ![1, 1, 1]
      ![1, 0, 0, 0, 1, 0, 0, 0, 1]).getColor (fun x _ => x) [0, 0, 0]
      = some (.rgb 0 0 0 1) := by
    simp only [PDFAbstractColorSpace.getColor, List.length_cons, List.length_nil,
      List.getD_cons_zero, List.getD_cons_succ, hclip, hencodes, convertXYZtoRGB_eq,
      colorMultiplyByFactors, correctionCoefficients, fromRGB01]
    simp [clip01_zero]
  refine ⟨⟨by norm_num, by norm_num, by norm_num, hencodes⟩, hcolor, ?_⟩
  rw [hcolor]
  simp

/-- C15, amended: CalRGB white point. For every CalRGB colour space whose white point maps
under the fixed XYZ to RGB matrix to a vector without zero component, and every tuple
(A, B, C) in [0, 1]^3 whose gamma-powered components combined through the matrix of the
colour space give exactly the white point, `getColor [A, B, C]` is white, RGB = (1, 1, 1). -/
theorem calRGB_getColor_white (powf : ℚ → ℚ → ℚ) (whitePoint blackPoint gamma : PDFColor3)
    (matrix : PDFColorComponentMatrix_3x3) (A B C : PDFColorComponent)
    (hwhite : HasInvertibleWhitePoint whitePoint)
    (hencodes : EncodesWhitePoint powf whitePoint gamma matrix A B C) :
    (PDFAbstractColorSpace.calRGB whitePoint blackPoint gamma matrix).getColor powf [A, B, C]
      = some (.rgb 1 1 1 1) := by
  obtain ⟨⟨hA0, hA1⟩, ⟨hB0, hB1⟩, ⟨hC0, hC1⟩, hXYZ⟩ := hencodes
  have hclip : clip01Color3 ![A, B, C] = ![A, B, C] := by
    funext i
    fin_cases i <;> simp [clip01Color3, clip01_of_mem, *]
  simp only [PDFAbstractColorSpace.getColor, List.length_cons, List.length_nil,
    List.getD_cons_zero, List.getD_cons_succ, hclip, hXYZ]
  simp only [Nat.reduceAdd, ↓reduceIte]
  rw [fromRGB01_of_ones _ (calibrated_whitePoint whitePoint hwhite)]
  rfl

theorem calRGB_getColor_white_witness :
    HasInvertibleWhitePoint whitePointD65 ∧
      EncodesWhitePoint (fun x _ => x) whitePointD65 ![1, 1, 1]
        ![9505 / 10000, 0, 0, 0, 1, 0, 0, 0, 1089 / 1000] 1 1 1 ∧
      (PDFAbstractColorSpace.calRGB whitePointD65 ![0, 0, 0] ![1, 1, 1]
          ![9505 / 10000, 0, 0, 0, 1, 0, 0, 0, 1089 / 1000]).getColor (fun x _ => x)
          [1, 1, 1]
        = some (.rgb 1 1 1 1) :=
  have hencodes : EncodesWhitePoint (fun x _ => x) whitePointD65 ![1, 1, 1]
      ![9505 / 10000, 0, 0, 0, 1, 0, 0, 0, 1089 / 1000] 1 1 1 :=
    ⟨by norm_num, by norm_num, by norm_num, by
      rw [matrix_mul_entries]
      funext i
      fin_cases i <;> simp [colorPowerByFactors, whitePointD65]⟩
  ⟨whitePointD65_invertible, hencodes,
    calRGB_getColor_white (fun x _ => x) whitePointD65 ![0, 0, 0] ![1, 1, 1] _ 1 1 1
      whitePointD65_invertible hencodes⟩

/-! ### Budget monotonicity -/

theorem budgetMonotone_all (m : Nat) : BudgetMonotone m := by
  induction m with
  | zero =>
    refine ⟨?_, ?_, ?_, ?_, ?_⟩ <;> intro _ _ _ r _ _ h <;> omega
  | succ m ih =>
    obtain ⟨ihImpl, ihName, ihICC, ihIndexed, ihSeparation⟩ := ih
    refine ⟨?_, ?_, ?_, ?_, ?_⟩
    · intro csd document colorSpace recursion recursion' result hm hle hok
      unfold createColorSpaceImpl at hok ⊢
      by_cases hr : recursion - 1 ≤ 0
      · simp only [hr, ↓reduceDIte] at hok
        cases hok
      · have hr' : ¬ recursion' - 1 ≤ 0 := by omega
        have h1 : 2 * (recursion - 1).toNat + 2 ≤ m := by omega
        have h2 : 2 * (recursion - 1).toNat + 1 ≤ m := by omega
        have hle' : recursion - 1 ≤ recursion' - 1 := by omega
        simp only [hr, hr', ↓reduceDIte] at hok ⊢
        cases colorSpace <;> try (cases hok)
        · exact ihName _ _ _ _ _ _ h2 hle' hok
        · simp only at hok ⊢
          revert hok
          split
          · split
            · split
              · exact id
              · split
                · exact ihICC _ _ _ _ _ _ h1 hle'
                · split
                  · exact ihIndexed _ _ _ _ _ _ h1 hle'
                  · split
                    · exact ihSeparation _ _ _ _ _ _ h1 hle'
                    · exact ihImpl _ _ _ _ _ _ h2 hle'
            · exact id
          · exact id
    · intro csd document name recursion recursion' result hm hle hok
      unfold createDeviceColorSpaceByNameImpl at hok ⊢
      by_cases hr : recursion - 1 ≤ 0
      · simp only [hr, ↓reduceDIte] at hok
        cases hok
      · have hr' : ¬ recursion' - 1 ≤ 0 := by omega
        have h2 : 2 * (recursion - 1).toNat + 1 ≤ m := by omega
        have hle' : recursion - 1 ≤ recursion' - 1 := by omega
        simp only [hr, hr', ↓reduceDIte] at hok ⊢
        revert hok
        repeat' split
        all_goals first | exact id | exact ihImpl _ _ _ _ _ _ h2 hle'
    · intro csd document dictionary recursion recursion' result hm hle hok
      have h2 : 2 * recursion.toNat + 1 ≤ m := by omega
      unfold createICCBasedColorSpace at hok ⊢
      dsimp only at hok ⊢
      repeat' split at hok
      all_goals first
        | cases hok
        | (rename_i hnested
           simp_all [ihImpl _ _ _ _ _ _ h2 hle hnested])
    · intro csd document array recursion recursion' result hm hle hok
      have h2 : 2 * recursion.toNat + 1 ≤ m := by omega
      unfold createIndexedColorSpace at hok ⊢
      repeat' split at hok
      all_goals first
        | cases hok
        | (rename_i hnested
           simp_all [ihImpl _ _ _ _ _ _ h2 hle hnested])
    · intro csd document array recursion recursion' result hm hle hok
      have h2 : 2 * recursion.toNat + 1 ≤ m := by omega
      unfold createSeparationColorSpace at hok ⊢
      repeat' split at hok
      all_goals first
        | cases hok
        | (rename_i hnested
           simp_all [ihImpl _ _ _ _ _ _ h2 hle hnested])

/-- Budget monotonicity of `createColorSpaceImpl`. -/
theorem createColorSpaceImpl_mono (csd : Option PDFDictionary) (document : PDFDocument)
    (colorSpace : PDFObject) (recursion recursion' : Int) (result : PDFAbstractColorSpace)
    (hle : recursion ≤ recursion')
    (hok : createColorSpaceImpl csd document colorSpace recursion = .ok result) :
    createColorSpaceImpl csd document colorSpace recursion' = .ok result :=
  (budgetMonotone_all (2 * recursion.toNat + 1)).1 csd document colorSpace recursion
    recursion' result (le_refl _) hle hok

/-! ### Dispatch of the resolver: shapes and shorthand arrays -/

/-- A result of the resolver run with a call stack bound of 25 is the result of
`createColorSpace`: concrete descriptors are evaluated on the bounded resolver. -/
theorem createColorSpace_eq_of_fuel (csd : Option PDFDictionary) (document : PDFDocument)
    (colorSpace : PDFObject) (result : Except PDFParserException PDFAbstractColorSpace)
    (h : createColorSpaceImplFuel 25 csd document colorSpace 12 = some result) :
    createColorSpace csd document colorSpace = result := by
  have hagree := (fuelAgrees_all 25).1 csd document colorSpace 12 (by decide)
  rw [h] at hagree
  exact (Option.some.inj hagree).symm

theorem narrowToInt_of_range (value : Int) (hlow : -2 ^ 31 ≤ value)
    (hhigh : value < 2 ^ 31) : narrowToInt value = value := by
  unfold narrowToInt
  norm_num at hlow hhigh ⊢
  omega

/-- C7, the code at an `hival` outside the range of `int`: in the array
`[Indexed, DeviceGray, 4294967296, <07>]` the value 2^32 is converted to the `int` 0 before
`qBound<int>` clips it, one byte is required and `createColorSpace` returns the Indexed
colour space with maximum index 0, although `hival` clipped to [0, 255] is 255 and the
table does not have 256 bytes. An `hival` in the range of `int` is not changed by the
conversion. -/
theorem createColorSpace_indexed_hival_out_of_int_range :
    createColorSpace none emptyDocument
        (.array [.name "Indexed", .name "DeviceGray", .int 4294967296, .string [7]])
      = .ok (.indexed .deviceGray [7] 0) ∧
      (([7] : QByteArray).length : Int)
        ≠ (max 0 (min 4294967296 255) + 1)
            * PDFAbstractColorSpace.deviceGray.getColorComponentCount ∧
      narrowToInt 4294967296 = 0 ∧
      (∀ value : Int, -2 ^ 31 ≤ value → value < 2 ^ 31 → narrowToInt value = value) :=
  ⟨createColorSpace_eq_of_fuel _ _ _ _ rfl,
    by simp [PDFAbstractColorSpace.getColorComponentCount],
    by decide, narrowToInt_of_range⟩

/-- An array that is not dispatched as a parameterised family is resolved as the bare
name of its first element, with the decremented budget. -/
theorem createColorSpaceImpl_array_shorthand (csd : Option PDFDictionary)
    (document : PDFDocument) (array : List PDFObject) (name : String) (recursion : Int)
    (hr : 1 < recursion) (hcount : 0 < array.length)
    (hname : document.getObject (PDFArray.getItem array 0) = .name name)
    (hshort : IsNotParameterised document array name) :
    createColorSpaceImpl csd document (.array array) recursion
      = createColorSpaceImpl csd document (.name name) (recursion - 1) := by
  obtain ⟨hcal, hicc, hindexed⟩ := hshort
  rw [createColorSpaceImpl_array csd document array name recursion hr hcount hname]
  have hif1 : ¬ (name = COLOR_SPACE_NAME_INDEXED ∧ array.length = 4) :=
    fun h => hindexed ⟨Or.inl h.1, h.2⟩
  have hif2 : ¬ (name = COLOR_SPACE_NAME_SEPARATION ∧ array.length = 4) :=
    fun h => hindexed ⟨Or.inr h.1, h.2⟩
  by_cases hlen : array.length > 1
  · simp only [hlen, ↓reduceIte]
    cases hsettings : document.getObject (PDFArray.getItem array 1) with
    | dictionary entries =>
      have hfamily : ¬ (name = "CalGray" ∨ name = "CalRGB" ∨ name = "Lab") :=
        fun h => hcal ⟨h, hlen, entries, hsettings⟩
      simp only [not_or] at hfamily
      simp [calibratedColorSpace?, hfamily.1, hfamily.2.1, hfamily.2.2, hif1, hif2]
    | stream entries content =>
      have hname' : ¬ name = "ICCBased" := fun h => hicc ⟨h, hlen, entries, content, hsettings⟩
      simp [calibratedColorSpace?, hname', hif1, hif2]
    | _ => simp [calibratedColorSpace?, hif1, hif2]
  · simp [hlen, calibratedColorSpace?, hif1, hif2]

/-- C18: malformed descriptor shapes fail. `createColorSpace` fails with the invalid
colour space exception for every descriptor that is neither a name nor an array, for the
empty array, and for every array whose first element does not dereference to a name. -/
theorem createColorSpace_malformed_descriptor (csd : Option PDFDictionary)
    (document : PDFDocument) (colorSpace : PDFObject)
    (hshape : IsMalformedDescriptor document colorSpace) :
    createColorSpace csd document colorSpace = .error .invalidColorSpace := by
  unfold createColorSpace COLOR_SPACE_MAX_LEVEL_OF_RECURSION createColorSpaceImpl
  have hr : ¬ ((12 : Int) - 1 ≤ 0) := by decide
  simp only [hr, ↓reduceDIte]
  rcases hshape with ⟨hname, harray⟩ | rfl | ⟨item0, rest, rfl, hitem⟩
  · cases colorSpace with
    | name n => exact absurd rfl (hname n)
    | array array => exact absurd rfl (harray array)
    | _ => rfl
  · rfl
  · simp only [List.length_cons, gt_iff_lt, Nat.zero_lt_succ, ↓reduceIte, PDFArray.getItem,
      List.getD_cons_zero]
    rfl

theorem createColorSpace_malformed_descriptor_witness :
    IsMalformedDescriptor emptyDocument (.array [.int 3, .name "DeviceRGB"]) ∧
      createColorSpace (some [("DefaultRGB", .name "DeviceGray")]) emptyDocument
        (.array [.int 3, .name "DeviceRGB"]) = .error .invalidColorSpace :=
  have hshape : IsMalformedDescriptor emptyDocument (.array [.int 3, .name "DeviceRGB"]) :=
    Or.inr (Or.inr ⟨.int 3, [.name "DeviceRGB"], rfl, fun n h => by cases h⟩)
  ⟨hshape, createColorSpace_malformed_descriptor _ emptyDocument _ hshape⟩

theorem lacksFamilyParameters_isNotParameterised (document : PDFDocument)
    (array : List PDFObject) (name : String)
    (hlacks : LacksFamilyParameters document array name) :
    IsNotParameterised document array name := by
  rcases hlacks with ⟨hname, hsecond⟩ | ⟨hname, hsecond⟩ | ⟨hname, hcount⟩
  · refine ⟨?_, ?_, ?_⟩
    · rintro ⟨_, hlen, entries, hentries⟩
      rcases hsecond with h | h
      · omega
      · exact h entries hentries
    · rintro ⟨hicc, _⟩
      rcases hname with h | h | h <;> simp [h] at hicc
    · rintro ⟨hindexed, _⟩
      rcases hname with h | h | h <;> simp [h] at hindexed
  · refine ⟨?_, ?_, ?_⟩
    · rintro ⟨hcal, _⟩
      simp [hname] at hcal
    · rintro ⟨_, hlen, entries, content, hentries⟩
      rcases hsecond with h | h
      · omega
      · exact h entries content hentries
    · rintro ⟨hindexed, _⟩
      simp [hname] at hindexed
  · refine ⟨?_, ?_, ?_⟩
    · rintro ⟨hcal, _⟩
      rcases hname with h | h <;> simp [h] at hcal
    · rintro ⟨hicc, _⟩
      rcases hname with h | h <;> simp [h] at hicc
    · rintro ⟨_, hlen⟩
      exact hcount hlen

theorem createDeviceColorSpaceByNameImpl_unknown (csd : Option PDFDictionary)
    (document : PDFDocument) (name : String) (recursion : Int) (hr : 1 < recursion)
    (hname : ¬ IsDeviceName name) :
    createDeviceColorSpaceByNameImpl csd document name recursion
      = if hasKey? csd name then
          createColorSpaceImpl csd document (document.getObject (get? csd name))
            (recursion - 1)
        else .error .invalidColorSpace := by
  rw [createDeviceColorSpaceByNameImpl_eq csd document name recursion hr]
  simp only [IsDeviceName, not_or] at hname
  obtain ⟨h1, h2, h3, h4, h5, h6⟩ := hname
  simp [h1, h2, h3, h4, h5, h6]
  rfl

/-- C16, as stated, fails for a resource dictionary with an entry under the family name:
with the key `CalGray` an alias of `DeviceRGB`, the array `[CalGray]`, which has no
parameter dictionary, resolves to DeviceRGB. -/
theorem createColorSpace_family_without_parameters_counterexample :
    LacksFamilyParameters emptyDocument [.name "CalGray"] "CalGray" ∧
    createColorSpace (some familyNameAliasDictionary) emptyDocument
      (.array [.name "CalGray"]) = .ok .deviceRGB :=
  ⟨Or.inl ⟨Or.inl rfl, Or.inl (by decide)⟩,
    createColorSpace_eq_of_fuel _ _ _ _ rfl⟩

/-- C16, amended: family arrays with missing parameters fail for every resource dictionary
that is absent or has no entry under the family name. For an array whose first element
dereferences to the name CalGray, CalRGB or Lab and whose second element is absent or not
a dictionary, or to ICCBased with a second element absent or not a stream, or to Indexed
or Separation with an element count other than 4, `createColorSpace` fails with the
invalid colour space exception. -/
theorem createColorSpace_family_without_parameters (csd : Option PDFDictionary)
    (document : PDFDocument) (array : List PDFObject) (name : String)
    (hcount : 0 < array.length)
    (hname : document.getObject (PDFArray.getItem array 0) = .name name)
    (hlacks : LacksFamilyParameters document array name)
    (hkey : hasKey? csd name = false) :
    createColorSpace csd document (.array array) = .error .invalidColorSpace := by
  have hnodevice : ¬ IsDeviceName name := by
    unfold IsDeviceName
    rcases hlacks with ⟨h, _⟩ | ⟨h, _⟩ | ⟨h, _⟩
    · rcases h with h | h | h <;> simp [h]
    · simp [h]
    · rcases h with h | h <;> simp [h]
  unfold createColorSpace COLOR_SPACE_MAX_LEVEL_OF_RECURSION
  rw [createColorSpaceImpl_array_shorthand csd document array name 12 (by decide) hcount hname
    (lacksFamilyParameters_isNotParameterised document array name hlacks),
    createColorSpaceImpl_name _ _ _ _ (by decide),
    createDeviceColorSpaceByNameImpl_unknown _ _ _ _ (by decide) hnodevice]
  simp [hkey]

theorem createColorSpace_family_without_parameters_witness :
    LacksFamilyParameters emptyDocument [.name "Indexed", .name "DeviceRGB", .int 0]
        "Indexed" ∧
      hasKey? (some familyNameAliasDictionary) "Indexed" = false ∧
      createColorSpace (some familyNameAliasDictionary) emptyDocument
        (.array [.name "Indexed", .name "DeviceRGB", .int 0]) = .error .invalidColorSpace :=
  have hlacks : LacksFamilyParameters emptyDocument
      [.name "Indexed", .name "DeviceRGB", .int 0] "Indexed" :=
    Or.inr (Or.inr ⟨Or.inl rfl, by decide⟩)
  ⟨hlacks, rfl,
    createColorSpace_family_without_parameters (some familyNameAliasDictionary)
      emptyDocument _ "Indexed" (by decide) rfl hlacks rfl⟩

/-- C17: unknown bare names. For a name that is none of the six device names,
`createColorSpace` on the bare name fails with the invalid colour space exception when
the resource dictionary is absent or has no entry under the name; when it has the entry,
the result is the result of the nested resolution of the dereferenced entry value (the
call of `createColorSpaceImpl` with the budget 10 that is left), and a colour space
returned for the name is the colour space that `createColorSpace` returns for the
dereferenced entry value. -/
theorem createColorSpace_unknown_bare_name (csd : Option PDFDictionary)
    (document : PDFDocument) (name : String) (hname : ¬ IsDeviceName name) :
    (hasKey? csd name = false →
      createColorSpace csd document (.name name) = .error .invalidColorSpace) ∧
    (hasKey? csd name = true →
      createColorSpace csd document (.name name)
          = createColorSpaceImpl csd document (document.getObject (get? csd name)) 10 ∧
        ∀ result, createColorSpace csd document (.name name) = .ok result →
          createColorSpace csd document (document.getObject (get? csd name)) = .ok result) := by
  have hunfold : createColorSpace csd document (.name name)
      = if hasKey? csd name then
          createColorSpaceImpl csd document (document.getObject (get? csd name)) 10
        else .error .invalidColorSpace := by
    unfold createColorSpace COLOR_SPACE_MAX_LEVEL_OF_RECURSION
    rw [createColorSpaceImpl_name _ _ _ _ (by decide),
      createDeviceColorSpaceByNameImpl_unknown _ _ _ _ (by decide) hname]
    rfl
  refine ⟨fun hkey => ?_, fun hkey => ?_⟩
  · rw [hunfold]
    simp [hkey]
  · have heq : createColorSpace csd document (.name name)
        = createColorSpaceImpl csd document (document.getObject (get? csd name)) 10 := by
      rw [hunfold]
      simp [hkey]
    refine ⟨heq, fun result hresult => ?_⟩
    rw [heq] at hresult
    exact createColorSpaceImpl_mono csd document _ 10 12 result (by decide) hresult

theorem createColorSpace_unknown_bare_name_witness :
    ¬ IsDeviceName "A4" ∧ hasKey? (some aliasChainDictionary) "A4" = true ∧
      createColorSpace (some aliasChainDictionary) emptyDocument (.name "A4")
        = createColorSpaceImpl (some aliasChainDictionary) emptyDocument
            (emptyDocument.getObject (get? (some aliasChainDictionary) "A4")) 10 :=
  have hname : ¬ IsDeviceName "A4" := by
    unfold IsDeviceName
    decide
  ⟨hname, rfl,
    ((createColorSpace_unknown_bare_name (some aliasChainDictionary) emptyDocument "A4"
      hname).2 rfl).1⟩

/-- C19, as stated, fails when the bare name needs the whole budget: with the alias chain
`A1 -> [A2]`, `A2 -> A3`, `A3 -> A4`, `A4 -> DeviceRGB` the bare name `A1` resolves to
DeviceRGB and the array `[A1]`, which is not dispatched as a parameterised family, fails
with the too complex exception. -/
theorem createColorSpace_array_shorthand_counterexample :
    IsNotParameterised emptyDocument [.name "A1"] "A1" ∧
    createColorSpace (some aliasChainDictionary) emptyDocument (.name "A1")
      = .ok .deviceRGB ∧
    createColorSpace (some aliasChainDictionary) emptyDocument (.array [.name "A1"])
      = .error .tooComplex :=
  ⟨⟨by simp, by simp, by simp⟩,
    createColorSpace_eq_of_fuel _ _ _ _ rfl,
    createColorSpace_eq_of_fuel _ _ _ _ rfl⟩

/-- C19, amended: array shorthand. For an array whose first element dereferences to a
name `n` and that is not dispatched as a parameterised family, `createColorSpace` on the
array is the resolution of the bare name `n` with one unit of budget less
(`createColorSpaceImpl` with budget 11): a colour space returned for the array is the
colour space returned by `createColorSpace` for the bare name, and when the bare name
fails the array fails. -/
theorem createColorSpace_array_shorthand (csd : Option PDFDictionary)
    (document : PDFDocument) (array : List PDFObject) (name : String)
    (hcount : 0 < array.length)
    (hname : document.getObject (PDFArray.getItem array 0) = .name name)
    (hshort : IsNotParameterised document array name) :
    createColorSpace csd document (.array array)
        = createColorSpaceImpl csd document (.name name) 11 ∧
    (∀ result, createColorSpace csd document (.array array) = .ok result →
      createColorSpace csd document (.name name) = .ok result) ∧
    (∀ exception, createColorSpace csd document (.name name) = .error exception →
      ∃ exception', createColorSpace csd document (.array array) = .error exception') := by
  have heq : createColorSpace csd document (.array array)
      = createColorSpaceImpl csd document (.name name) 11 := by
    unfold createColorSpace COLOR_SPACE_MAX_LEVEL_OF_RECURSION
    rw [createColorSpaceImpl_array_shorthand csd document array name 12 (by decide) hcount
      hname hshort]
    rfl
  have hmono : ∀ result, createColorSpace csd document (.array array) = .ok result →
      createColorSpace csd document (.name name) = .ok result := by
    intro result hresult
    rw [heq] at hresult
    exact createColorSpaceImpl_mono csd document _ 11 12 result (by decide) hresult
  refine ⟨heq, hmono, fun exception hexception => ?_⟩
  cases harray : createColorSpace csd document (.array array) with
  | error exception' => exact ⟨exception', rfl⟩
  | ok result =>
    have := hmono result harray
    rw [hexception] at this
    cases this

theorem createColorSpace_array_shorthand_witness :
    IsNotParameterised emptyDocument [.name "CalGray"] "CalGray" ∧
      createColorSpace (some familyNameAliasDictionary) emptyDocument
          (.array [.name "CalGray"])
        = createColorSpaceImpl (some familyNameAliasDictionary) emptyDocument
            (.name "CalGray") 11 :=
  have hshort : IsNotParameterised emptyDocument [.name "CalGray"] "CalGray" :=
    ⟨by simp, by simp, by simp⟩
  ⟨hshort,
    (createColorSpace_array_shorthand (some familyNameAliasDictionary) emptyDocument
      [.name "CalGray"] "CalGray" (by decide) rfl hshort).1⟩

/-! ### Nested colour spaces -/

theorem createColorSpaceImpl_separation (csd : Option PDFDictionary) (document : PDFDocument)
    (item0 item1 item2 item3 : PDFObject) (recursion : Int) (hr : 1 < recursion)
    (h0 : document.getObject item0 = .name "Separation") :
    createColorSpaceImpl csd document (.array [item0, item1, item2, item3]) recursion
      = createSeparationColorSpace csd document [item0, item1, item2, item3]
          (recursion - 1) := by
  rw [createColorSpaceImpl_array csd document _ "Separation" recursion hr (by simp)
    (by simpa [PDFArray.getItem] using h0)]
  have hcal : ∀ dictionary, calibratedColorSpace? document dictionary "Separation" = none := by
    intro dictionary
    cases dictionary <;> simp [calibratedColorSpace?]
  simp only [hcal]
  split <;> simp_all

/-- A nested resolution that fails under `createColorSpace` fails with the budget 11 of
the nested call. -/
theorem createColorSpaceImpl_error_of_createColorSpace_error (csd : Option PDFDictionary)
    (document : PDFDocument) (nested : PDFObject)
    (hfails : (∃ e, createColorSpaceImpl csd document nested 11 = .error e) ∨
      (∃ e, createColorSpace csd document nested = .error e)) :
    ∃ e, createColorSpaceImpl csd document nested 11 = .error e := by
  rcases hfails with h | ⟨e, he⟩
  · exact h
  · cases h11 : createColorSpaceImpl csd document nested 11 with
    | error e' => exact ⟨e', rfl⟩
    | ok result =>
      have := createColorSpaceImpl_mono csd document nested 11 12 result (by decide) h11
      unfold createColorSpace COLOR_SPACE_MAX_LEVEL_OF_RECURSION at he
      rw [he] at this
      cases this

/-- C20: nested failures propagate. If the resolution of the base of an Indexed array, of
the alternate of a Separation array, or of the `Alternate` entry of an ICCBased stream
fails (as the nested call with the budget 11, or as a `createColorSpace` of its own), then
`createColorSpace` on the enclosing array fails: no colour space is returned around a
failed nested colour space. -/
theorem createColorSpace_nested_failure_propagates (csd : Option PDFDictionary)
    (document : PDFDocument) (array : List PDFObject) (nested : PDFObject)
    (hnested : IsNestedSpaceOf document array nested)
    (hfails : (∃ e, createColorSpaceImpl csd document nested 11 = .error e) ∨
      (∃ e, createColorSpace csd document nested = .error e)) :
    (∃ e, createColorSpace csd document (.array array) = .error e) ∧
      ∀ result, createColorSpace csd document (.array array) ≠ .ok result := by
  obtain ⟨e, he⟩ := createColorSpaceImpl_error_of_createColorSpace_error csd document nested
    hfails
  have h11 : (12 : Int) - 1 = 11 := by norm_num
  have herror : ∃ e, createColorSpace csd document (.array array) = .error e := by
    unfold createColorSpace COLOR_SPACE_MAX_LEVEL_OF_RECURSION
    rcases hnested with ⟨item0, base, hival, lookup, rfl, h0, rfl⟩ |
      ⟨item0, colorant, alternate, tintTransform, rfl, h0, rfl⟩ |
      ⟨entries, harray, hkey, rfl⟩
    · rw [createColorSpaceImpl_indexed csd document item0 base hival lookup 12 (by decide) h0]
      unfold createIndexedColorSpace
      have hitem : document.getObject (PDFArray.getItem [item0, base, hival, lookup] 1)
          = document.getObject base := by simp [PDFArray.getItem]
      rw [hitem, h11, he]
      exact ⟨e, rfl⟩
    · rw [createColorSpaceImpl_separation csd document item0 colorant alternate tintTransform
        12 (by decide) h0]
      unfold createSeparationColorSpace
      have hitem : document.getObject
          (PDFArray.getItem [item0, colorant, alternate, tintTransform] 2)
          = document.getObject alternate := by simp [PDFArray.getItem]
      rw [hitem, h11, he]
      split
      · exact ⟨e, rfl⟩
      · exact ⟨_, rfl⟩
    · rw [createColorSpaceImpl_iccBased csd document array entries 12 (by decide) harray]
      unfold createICCBasedColorSpace
      simp only [ICCBASED_ALTERNATE, hkey, ↓reduceIte]
      rw [h11, he]
      exact ⟨e, rfl⟩
  refine ⟨herror, fun result hresult => ?_⟩
  obtain ⟨e', he'⟩ := herror
  rw [he'] at hresult
  cases hresult

theorem createColorSpace_nested_failure_propagates_witness :
    IsNestedSpaceOf emptyDocument
        [.name "Indexed", .name "Unknown", .int 0, .string [0, 0, 0]] (.name "Unknown") ∧
      (∃ e, createColorSpace none emptyDocument (.name "Unknown") = .error e) ∧
      ∃ e, createColorSpace none emptyDocument
        (.array [.name "Indexed", .name "Unknown", .int 0, .string [0, 0, 0]]) = .error e :=
  have hnested : IsNestedSpaceOf emptyDocument
      [.name "Indexed", .name "Unknown", .int 0, .string [0, 0, 0]] (.name "Unknown") :=
    Or.inl ⟨.name "Indexed", .name "Unknown", .int 0, .string [0, 0, 0], rfl, rfl, rfl⟩
  have hfails : ∃ e, createColorSpace none emptyDocument (.name "Unknown") = .error e :=
    ⟨.invalidColorSpace, createColorSpace_eq_of_fuel _ _ _ _ rfl⟩
  ⟨hnested, hfails,
    (createColorSpace_nested_failure_propagates none emptyDocument _ _ hnested
      (Or.inr hfails)).1⟩

/-! ### Arity of `getColor` and well-formed colour spaces -/

theorem clipByRange_length (range : Fin 8 → PDFColorComponent) (i : Nat) (color : PDFColor) :
    (clipByRange range i color).length = color.length := by
  induction color generalizing i with
  | nil => rfl
  | cons component rest ih => simp [clipByRange, ih]

theorem outputBuffer_length (written : List ℚ) (slots : Nat) :
    (outputBuffer written slots).length = slots := by
  simp [outputBuffer]

theorem getColor_none_of_length_ne (powf : ℚ → ℚ → ℚ) (colorSpace : PDFAbstractColorSpace)
    (color : PDFColor) (hlength : color.length ≠ colorSpace.getColorComponentCount) :
    colorSpace.getColor powf color = none := by
  cases colorSpace <;>
    simp only [PDFAbstractColorSpace.getColorComponentCount] at hlength <;>
    simp [PDFAbstractColorSpace.getColor, hlength]

theorem getColor_some_of_wellFormed (powf : ℚ → ℚ → ℚ) (colorSpace : PDFAbstractColorSpace) :
    colorSpace.WellFormed → ∀ color : PDFColor,
      color.length = colorSpace.getColorComponentCount →
      ∃ result, colorSpace.getColor powf color = some result := by
  induction colorSpace with
  | iccBased alternate range ih =>
    intro hwell color hlength
    simp only [PDFAbstractColorSpace.getColorComponentCount] at hlength
    simp only [PDFAbstractColorSpace.getColor, hlength, ↓reduceIte]
    exact ih hwell _ (by rw [clipByRange_length, hlength])
  | indexed base colors maxValue ih =>
    intro hwell color hlength
    obtain ⟨hbase, hmax, hcolors⟩ := hwell
    simp only [PDFAbstractColorSpace.getColorComponentCount] at hlength
    obtain ⟨hlow, hhigh⟩ := colorIndex_bounds maxValue (color.getD 0 0) hmax
    have hpos := getColorComponentCount_pos base
    have hassert : qBound MIN_VALUE (truncToInt (color.getD 0 0)) maxValue
        * (base.getColorComponentCount : Int) + base.getColorComponentCount - 1
        < colors.length := by
      rw [hcolors]
      nlinarith
    simp only [PDFAbstractColorSpace.getColor, hlength, ↓reduceIte, hassert]
    exact ih hbase _ (decodeColor_length _ _ _)
  | separation colorName alternate tintTransform ih =>
    intro hwell color hlength
    simp only [PDFAbstractColorSpace.getColorComponentCount] at hlength
    simp only [PDFAbstractColorSpace.getColor, hlength, ↓reduceIte]
    split
    · exact ih hwell _ (outputBuffer_length _ _)
    · exact ⟨_, rfl⟩
  | _ =>
    intro _ color hlength
    simp only [PDFAbstractColorSpace.getColorComponentCount] at hlength
    simp [PDFAbstractColorSpace.getColor, hlength]
theorem calibratedColorSpace?_wellFormed (document : PDFDocument)
    (dictionary : Option PDFDictionary) (name : String) (result : PDFAbstractColorSpace)
    (h : calibratedColorSpace? document dictionary name = some result) :
    result.WellFormed := by
  unfold calibratedColorSpace? at h
  repeat' split at h
  all_goals cases h
  all_goals
    simp [PDFAbstractColorSpace.WellFormed, PDFCalGrayColorSpace.createCalGrayColorSpace,
      PDFCalRGBColorSpace.createCalRGBColorSpace, PDFLabColorSpace.createLabColorSpace]

theorem iccBased_finish_wellFormed (document : PDFDocument)
    (dictionary : PDFDictionary) (alternate result : PDFAbstractColorSpace)
    (halternate : alternate.WellFormed)
    (h : PDFICCBasedColorSpace.finish document dictionary alternate = .ok result) :
    result.WellFormed := by
  unfold PDFICCBasedColorSpace.finish at h
  dsimp only at h
  split at h
  · cases h
  · cases h
    exact halternate

theorem indexed_finish_wellFormed (document : PDFDocument)
    (array : List PDFObject) (base result : PDFAbstractColorSpace)
    (hbase : base.WellFormed)
    (h : PDFIndexedColorSpace.finish document array base = .ok result) :
    result.WellFormed := by
  unfold PDFIndexedColorSpace.finish at h
  dsimp only at h
  split at h
  · cases h
  · rename_i hsize
    cases h
    simp only [ne_eq, Decidable.not_not, MIN_VALUE, sub_zero] at hsize
    refine ⟨hbase, ?_, hsize.symm⟩
    rw [qBound_int_eq]
    omega

theorem separation_finish_wellFormed (document : PDFDocument)
    (array : List PDFObject) (colorName : String) (alternate result : PDFAbstractColorSpace)
    (halternate : alternate.WellFormed)
    (h : PDFSeparationColorSpace.finish document array colorName alternate = .ok result) :
    result.WellFormed := by
  unfold PDFSeparationColorSpace.finish at h
  split at h
  · cases h
  · cases h
  · cases h
    exact halternate

theorem resolverWellFormed_all (m : Nat) : ResolverWellFormed m := by
  induction m with
  | zero =>
    refine ⟨?_, ?_, ?_, ?_, ?_⟩ <;> intro _ _ _ r _ h <;> omega
  | succ m ih =>
    obtain ⟨ihImpl, ihName, ihICC, ihIndexed, ihSeparation⟩ := ih
    refine ⟨?_, ?_, ?_, ?_, ?_⟩
    · intro csd document colorSpace recursion result hm hok
      unfold createColorSpaceImpl at hok
      by_cases hr : recursion - 1 ≤ 0
      · simp only [hr, ↓reduceDIte] at hok
        cases hok
      · have h1 : 2 * (recursion - 1).toNat + 2 ≤ m := by omega
        have h2 : 2 * (recursion - 1).toNat + 1 ≤ m := by omega
        simp only [hr, ↓reduceDIte] at hok
        cases colorSpace <;> try (cases hok)
        · exact ihName _ _ _ _ _ h2 hok
        · simp only at hok
          revert hok
          split
          · split
            · split
              · rename_i calibrated hcalibrated
                intro hok
                cases hok
                exact calibratedColorSpace?_wellFormed _ _ _ _ hcalibrated
              · split
                · exact ihICC _ _ _ _ _ h1
                · split
                  · exact ihIndexed _ _ _ _ _ h1
                  · split
                    · exact ihSeparation _ _ _ _ _ h1
                    · exact ihImpl _ _ _ _ _ h2
            · intro hok
              cases hok
          · intro hok
            cases hok
    · intro csd document name recursion result hm hok
      unfold createDeviceColorSpaceByNameImpl at hok
      by_cases hr : recursion - 1 ≤ 0
      · simp only [hr, ↓reduceDIte] at hok
        cases hok
      · have h2 : 2 * (recursion - 1).toNat + 1 ≤ m := by omega
        simp only [hr, ↓reduceDIte] at hok
        revert hok
        repeat' split
        all_goals first
          | exact ihImpl _ _ _ _ _ h2
          | (intro hok; cases hok; trivial)
          | (intro hok; cases hok)
    · intro csd document dictionary recursion result hm hok
      have h2 : 2 * recursion.toNat + 1 ≤ m := by omega
      unfold createICCBasedColorSpace at hok
      dsimp only at hok
      repeat' split at hok
      all_goals first
        | cases hok
        | (rename_i hnested
           exact iccBased_finish_wellFormed _ _ _ _
             (ihImpl _ _ _ _ _ h2 hnested) hok)
    · intro csd document array recursion result hm hok
      have h2 : 2 * recursion.toNat + 1 ≤ m := by omega
      unfold createIndexedColorSpace at hok
      repeat' split at hok
      all_goals first
        | cases hok
        | (rename_i hnested
           exact indexed_finish_wellFormed _ _ _ _
             (ihImpl _ _ _ _ _ h2 hnested) hok)
    · intro csd document array recursion result hm hok
      have h2 : 2 * recursion.toNat + 1 ≤ m := by omega
      unfold createSeparationColorSpace at hok
      repeat' split at hok
      all_goals first
        | cases hok
        | (rename_i hnested
           exact separation_finish_wellFormed _ _ _ _ _
             (ihImpl _ _ _ _ _ h2 hnested) hok)

/-- Every colour space returned by `createColorSpace` is well formed. -/
theorem createColorSpace_wellFormed (csd : Option PDFDictionary) (document : PDFDocument)
    (colorSpace : PDFObject) (result : PDFAbstractColorSpace)
    (h : createColorSpace csd document colorSpace = .ok result) : result.WellFormed :=
  (resolverWellFormed_all _).1 csd document colorSpace COLOR_SPACE_MAX_LEVEL_OF_RECURSION
    result (le_refl _) h

theorem getColorRelease_some_of_wellFormed (powf : ℚ → ℚ → ℚ)
    (colorSpace : PDFAbstractColorSpace) :
    colorSpace.WellFormed → ∀ color : PDFColor,
      color.length = colorSpace.getColorComponentCount →
      ∃ result, colorSpace.getColorRelease powf color = some result := by
  induction colorSpace with
  | iccBased alternate range ih =>
    intro hwell color hlength
    simp only [PDFAbstractColorSpace.getColorComponentCount] at hlength
    simp only [PDFAbstractColorSpace.getColorRelease, hlength, le_refl, ↓reduceIte]
    refine ih hwell _ ?_
    rw [← hlength]
    simp [clipByRange_length]
  | indexed base colors maxValue ih =>
    intro hwell color hlength
    obtain ⟨hbase, hmax, hcolors⟩ := hwell
    simp only [PDFAbstractColorSpace.getColorComponentCount] at hlength
    have hpos := getColorComponentCount_pos base
    have hbounds : 0 ≤ qBound MIN_VALUE (staticCastInt (color.getD 0 0)) maxValue ∧
        qBound MIN_VALUE (staticCastInt (color.getD 0 0)) maxValue ≤ maxValue := by
      unfold qBound qMax qMin MIN_VALUE
      split_ifs <;> omega
    have hoffset : 0 ≤ qBound MIN_VALUE (staticCastInt (color.getD 0 0)) maxValue
        * (base.getColorComponentCount : Int) := mul_nonneg hbounds.1 (by omega)
    have hassert : qBound MIN_VALUE (staticCastInt (color.getD 0 0)) maxValue
        * (base.getColorComponentCount : Int) + base.getColorComponentCount - 1
        < colors.length := by
      rw [hcolors]
      nlinarith [hbounds.2]
    simp only [PDFAbstractColorSpace.getColorRelease, hlength, le_refl, ↓reduceIte, hoffset,
      hassert, and_self]
    exact ih hbase _ (decodeColor_length _ _ _)
  | separation colorName alternate tintTransform ih =>
    intro hwell color hlength
    simp only [PDFAbstractColorSpace.getColorComponentCount] at hlength
    simp only [PDFAbstractColorSpace.getColorRelease, hlength, le_refl, ↓reduceIte]
    split
    · exact ih hwell _ (outputBuffer_length _ _)
    · exact ⟨_, rfl⟩
  | _ =>
    intro _ color hlength
    simp only [PDFAbstractColorSpace.getColorComponentCount] at hlength
    simp [PDFAbstractColorSpace.getColorRelease, hlength]

/-- C12, as stated, fails in a build without assertions: the size of the tuple is tested
by `Q_ASSERT` only, and `getColor` of DeviceGray on the tuple (1/2, 1/4) of two components
returns the colour of its first component, the colour of the truncated tuple (1/2). -/
theorem deviceGray_getColorRelease_padded_tuple :
    ([1 / 2, 1 / 4] : PDFColor).length
        ≠ PDFAbstractColorSpace.deviceGray.getColorComponentCount ∧
      PDFAbstractColorSpace.deviceGray.getColorRelease (fun x _ => x) [1 / 2, 1 / 4]
        = some (.rgb (1 / 2) (1 / 2) (1 / 2) 1) ∧
      PDFAbstractColorSpace.deviceGray.getColorRelease (fun x _ => x) [1 / 2, 1 / 4]
        = PDFAbstractColorSpace.deviceGray.getColorRelease (fun x _ => x) [1 / 2] := by
  have hclip : clip01 (2⁻¹ : ℚ) = 2⁻¹ := clip01_of_mem _ (by norm_num) (by norm_num)
  refine ⟨by decide, ?_, ?_⟩ <;>
    simp [PDFAbstractColorSpace.getColorRelease, hclip]

/-- C12, amended: the tuple length `getColorComponentCount` is a precondition of `getColor`
that only `Q_ASSERT` states. For a tuple of the right length `getColor` returns a colour,
with and without assertions, when the colour space is well formed (the size invariant of
Indexed lookup tables), which every colour space returned by `createColorSpace` is.
Without assertions a longer tuple is not rejected: the device colour spaces compute the
colour of its leading components, and ICCBased clips the leading components and hands the
whole tuple to its alternate. -/
theorem getColor_arity_precondition (powf : ℚ → ℚ → ℚ) (colorSpace : PDFAbstractColorSpace)
    (color : PDFColor) :
    (colorSpace.WellFormed → color.length = colorSpace.getColorComponentCount →
      (∃ result, colorSpace.getColor powf color = some result) ∧
        ∃ result, colorSpace.getColorRelease powf color = some result) ∧
    (∀ (csd : Option PDFDictionary) (document : PDFDocument) (descriptor : PDFObject),
      createColorSpace csd document descriptor = .ok colorSpace → colorSpace.WellFormed) ∧
    (∀ (t0 : PDFColorComponent) (rest : PDFColor),
      PDFAbstractColorSpace.deviceGray.getColorRelease powf (t0 :: rest)
        = PDFAbstractColorSpace.deviceGray.getColor powf [t0]) ∧
    (∀ (t0 t1 t2 : PDFColorComponent) (rest : PDFColor),
      PDFAbstractColorSpace.deviceRGB.getColorRelease powf (t0 :: t1 :: t2 :: rest)
        = PDFAbstractColorSpace.deviceRGB.getColor powf [t0, t1, t2]) ∧
    (∀ (c m y k : PDFColorComponent) (rest : PDFColor),
      PDFAbstractColorSpace.deviceCMYK.getColorRelease powf (c :: m :: y :: k :: rest)
        = PDFAbstractColorSpace.deviceCMYK.getColor powf [c, m, y, k]) ∧
    (∀ (alternate : PDFAbstractColorSpace) (range : Fin 8 → PDFColorComponent),
      alternate.getColorComponentCount ≤ color.length →
      (PDFAbstractColorSpace.iccBased alternate range).getColorRelease powf color
        = alternate.getColorRelease powf
            (clipByRange range 0 (color.take alternate.getColorComponentCount)
              ++ color.drop alternate.getColorComponentCount)) := by
  refine ⟨fun hwell hlength =>
      ⟨getColor_some_of_wellFormed powf colorSpace hwell color hlength,
        getColorRelease_some_of_wellFormed powf colorSpace hwell color hlength⟩,
    fun csd document descriptor h =>
      createColorSpace_wellFormed csd document descriptor colorSpace h, ?_, ?_, ?_, ?_⟩
  · intro t0 rest
    simp [PDFAbstractColorSpace.getColorRelease, PDFAbstractColorSpace.getColor]
  · intro t0 t1 t2 rest
    simp [PDFAbstractColorSpace.getColorRelease, PDFAbstractColorSpace.getColor]
  · intro c m y k rest
    simp [PDFAbstractColorSpace.getColorRelease, PDFAbstractColorSpace.getColor]
  · intro alternate range hlength
    simp [PDFAbstractColorSpace.getColorRelease, hlength]

theorem getColor_arity_precondition_witness :
    (PDFAbstractColorSpace.indexed .deviceRGB [1, 2, 3] 0).WellFormed ∧
      (∃ result, (PDFAbstractColorSpace.indexed .deviceRGB [1, 2, 3] 0).getColor
        (fun x _ => x) [1 / 2] = some result) ∧
      (∃ result, (PDFAbstractColorSpace.indexed .deviceRGB [1, 2, 3] 0).getColorRelease
        (fun x _ => x) [1 / 2] = some result) ∧
      (PDFAbstractColorSpace.iccBased .deviceGray ![0, 1, 0, 1, 0, 1, 0, 1]).getColorRelease
          (fun x _ => x) [2, 1 / 4]
        = PDFAbstractColorSpace.deviceGray.getColorRelease (fun x _ => x)
            (clipByRange ![0, 1, 0, 1, 0, 1, 0, 1] 0
                (([2, 1 / 4] : PDFColor).take
                  PDFAbstractColorSpace.deviceGray.getColorComponentCount)
              ++ ([2, 1 / 4] : PDFColor).drop
                  PDFAbstractColorSpace.deviceGray.getColorComponentCount) :=
  have hwell : (PDFAbstractColorSpace.indexed .deviceRGB [1, 2, 3] 0).WellFormed :=
    ⟨trivial, le_refl _, by decide⟩
  ⟨hwell,
    ((getColor_arity_precondition (fun x _ => x) (.indexed .deviceRGB [1, 2, 3] 0)
      [1 / 2]).1 hwell rfl).1,
    ((getColor_arity_precondition (fun x _ => x) (.indexed .deviceRGB [1, 2, 3] 0)
      [1 / 2]).1 hwell rfl).2,
    (getColor_arity_precondition (fun x _ => x) .deviceGray [2, 1 / 4]).2.2.2.2.2
      .deviceGray ![0, 1, 0, 1, 0, 1, 0, 1] (by decide)⟩

/-! ### ICCBased conversion, component count bounds -/

theorem getColorComponentCount_mem (colorSpace : PDFAbstractColorSpace) :
    colorSpace.getColorComponentCount = 1 ∨ colorSpace.getColorComponentCount = 3 ∨
      colorSpace.getColorComponentCount = 4 := by
  induction colorSpace with
  | iccBased alternate range ih => simpa [PDFAbstractColorSpace.getColorComponentCount] using ih
  | _ => simp [PDFAbstractColorSpace.getColorComponentCount]

theorem getColorComponentCount_le_four (colorSpace : PDFAbstractColorSpace) :
    colorSpace.getColorComponentCount ≤ 4 := by
  rcases getColorComponentCount_mem colorSpace with h | h | h <;> omega

theorem qBound_eq_max_min (lower value upper : ℚ) :
    qBound lower value upper = max lower (min value upper) := by
  unfold qBound qMax qMin
  split_ifs with h1 h2 h2
  · rw [min_eq_right (le_of_lt h1), max_eq_right (le_of_lt h2)]
  · rw [min_eq_right (le_of_lt h1), max_eq_left (not_lt.mp h2)]
  · rw [min_eq_left (not_lt.mp h1), max_eq_right (le_of_lt h2)]
  · rw [min_eq_left (not_lt.mp h1), max_eq_left (not_lt.mp h2)]

theorem clipByRange_getElem? (range : Fin 8 → PDFColorComponent) (i j : Nat)
    (color : PDFColor) :
    (clipByRange range i color)[j]?
      = color[j]?.map (fun component =>
          qBound (rangeAt range (2 * (i + j))) component (rangeAt range (2 * (i + j) + 1))) := by
  induction color generalizing i j with
  | nil => simp [clipByRange]
  | cons component rest ih =>
    cases j with
    | zero => simp [clipByRange]
    | succ j =>
      simp only [clipByRange, List.getElem?_cons_succ, ih]
      have h : i + 1 + j = i + (j + 1) := by omega
      rw [h]

theorem createICCBasedColorSpace_ok (csd : Option PDFDictionary) (document : PDFDocument)
    (entries : PDFDictionary) (recursion : Int) (variant : PDFAbstractColorSpace)
    (hok : createICCBasedColorSpace csd document entries recursion = .ok variant) :
    ∃ alternate,
      PDFICCBasedColorSpace.finish document entries alternate = .ok variant ∧
      ((entries.hasKey "Alternate" = true ∧
          createColorSpaceImpl csd document (document.getObject (entries.get "Alternate"))
            recursion = .ok alternate) ∨
        (entries.hasKey "Alternate" = false ∧
          ((readIntegerFromDictionary document entries "N" 0 = 1 ∧
              createColorSpaceImpl csd document (.name "DeviceGray") recursion
                = .ok alternate) ∨
            (readIntegerFromDictionary document entries "N" 0 = 3 ∧
              createColorSpaceImpl csd document (.name "DeviceRGB") recursion
                = .ok alternate) ∨
            (readIntegerFromDictionary document entries "N" 0 = 4 ∧
              createColorSpaceImpl csd document (.name "DeviceCMYK") recursion
                = .ok alternate)))) := by
  unfold createICCBasedColorSpace at hok
  dsimp only at hok
  by_cases halt : entries.hasKey "Alternate" = true
  · simp only [ICCBASED_ALTERNATE, halt, ↓reduceIte] at hok
    cases hnested : createColorSpaceImpl csd document
        (document.getObject (entries.get "Alternate")) recursion with
    | error exception => rw [hnested] at hok; cases hok
    | ok alternate =>
      rw [hnested] at hok
      exact ⟨alternate, hok, Or.inl ⟨halt, rfl⟩⟩
  · have halt' : entries.hasKey "Alternate" = false := by simpa using halt
    simp only [ICCBASED_ALTERNATE, halt', Bool.false_eq_true, ↓reduceIte, ICCBASED_N] at hok
    by_cases h1 : readIntegerFromDictionary document entries "N" 0 = 1
    · simp only [h1, ↓reduceIte, COLOR_SPACE_NAME_DEVICE_GRAY] at hok
      cases hnested : createColorSpaceImpl csd document (.name "DeviceGray") recursion with
      | error exception => rw [hnested] at hok; cases hok
      | ok alternate =>
        rw [hnested] at hok
        exact ⟨alternate, hok, Or.inr ⟨halt', Or.inl ⟨h1, rfl⟩⟩⟩
    · by_cases h3 : readIntegerFromDictionary document entries "N" 0 = 3
      · simp only [h3, ↓reduceIte, COLOR_SPACE_NAME_DEVICE_RGB] at hok
        cases hnested : createColorSpaceImpl csd document (.name "DeviceRGB") recursion with
        | error exception => rw [hnested] at hok; simp at hok
        | ok alternate =>
          rw [hnested] at hok
          exact ⟨alternate, by simpa using hok, Or.inr ⟨halt', Or.inr (Or.inl ⟨h3, rfl⟩)⟩⟩
      · by_cases h4 : readIntegerFromDictionary document entries "N" 0 = 4
        · simp only [h4, ↓reduceIte, COLOR_SPACE_NAME_DEVICE_CMYK] at hok
          cases hnested : createColorSpaceImpl csd document (.name "DeviceCMYK") recursion with
          | error exception => rw [hnested] at hok; simp at hok
          | ok alternate =>
            rw [hnested] at hok
            exact ⟨alternate, by simpa using hok,
              Or.inr ⟨halt', Or.inr (Or.inr ⟨h4, rfl⟩)⟩⟩
        · simp [h1, h3, h4] at hok

theorem iccBased_finish_ok (document : PDFDocument) (entries : PDFDictionary)
    (alternate variant : PDFAbstractColorSpace)
    (hok : PDFICCBasedColorSpace.finish document entries alternate = .ok variant) :
    ∃ range, variant = .iccBased alternate range := by
  unfold PDFICCBasedColorSpace.finish at hok
  dsimp only at hok
  split at hok
  · cases hok
  · exact ⟨_, (Except.ok.inj hok).symm⟩

theorem createColorSpace_iccBased_three :
    createColorSpace none emptyDocument (.array [.name "ICCBased", .stream [("N", .int 3)] []])
      = .ok (.iccBased .deviceRGB ![0, 1, 0, 1, 0, 1, 0, 1]) := by
  unfold createColorSpace COLOR_SPACE_MAX_LEVEL_OF_RECURSION
  rw [createColorSpaceImpl_iccBased none emptyDocument _ [("N", .int 3)] 12 (by omega)
    ⟨.name "ICCBased", .stream [("N", .int 3)] [], [], [], rfl, rfl, rfl⟩]
  unfold createICCBasedColorSpace
  have hread : readIntegerFromDictionary emptyDocument [("N", .int 3)] "N" 0 = 3 := rfl
  have halternate : PDFDictionary.hasKey [("N", .int 3)] "Alternate" = false := rfl
  simp only [ICCBASED_ALTERNATE, halternate, ICCBASED_N, hread]
  rw [createColorSpace_device_of_no_override none emptyDocument "DeviceRGB" "DefaultRGB"
    .deviceRGB 3 (12 - 1) (by omega) (Or.inr (Or.inl ⟨Or.inl rfl, rfl, rfl, rfl⟩)) rfl]
  simp [PDFICCBasedColorSpace.finish_of_no_range emptyDocument [("N", .int 3)] .deviceRGB rfl
    (by simp [PDFAbstractColorSpace.getColorComponentCount])]

/-- C21: the colour of an ICCBased colour space is the colour its alternate gives to the
tuple whose component `i` is clipped to `[range (2 i), range (2 i + 1)]`, and a colour
space resolved from a stream dictionary without a `Range` entry has every range `(0, 1)`. -/
theorem iccBased_getColor_clips_then_delegates :
    (∀ (powf : ℚ → ℚ → ℚ) (alternate : PDFAbstractColorSpace)
        (range : Fin 8 → PDFColorComponent) (color : PDFColor),
        color.length = (PDFAbstractColorSpace.iccBased alternate range).getColorComponentCount →
        ∃ clipped : PDFColor,
          (PDFAbstractColorSpace.iccBased alternate range).getColor powf color
            = alternate.getColor powf clipped ∧
          clipped.length = color.length ∧
          ∀ (i : Nat) (hi : i < color.length) (hmax : 2 * i + 1 < 8),
            clipped[i]? = some (max (range ⟨2 * i, by omega⟩)
              (min (color.get ⟨i, hi⟩) (range ⟨2 * i + 1, hmax⟩)))) ∧
      (∀ (csd : Option PDFDictionary) (document : PDFDocument) (array : List PDFObject)
        (entries : PDFDictionary) (variant : PDFAbstractColorSpace),
        IsICCBasedArray document array entries →
        entries.hasKey "Range" = false →
        createColorSpace csd document (.array array) = .ok variant →
        ∃ alternate, variant = .iccBased alternate ![0, 1, 0, 1, 0, 1, 0, 1]) := by
  refine ⟨?_, ?_⟩
  · intro powf alternate range color hlength
    refine ⟨clipByRange range 0 color, ?_, clipByRange_length range 0 color, ?_⟩
    · simp only [PDFAbstractColorSpace.getColorComponentCount] at hlength
      simp [PDFAbstractColorSpace.getColor, hlength]
    · intro i hi hmax
      have hmin : 2 * i < 8 := by omega
      rw [clipByRange_getElem?, List.getElem?_eq_getElem hi]
      simp only [Nat.zero_add, Option.map_some', rangeAt, hmin, hmax, ↓reduceDIte,
        qBound_eq_max_min]
      rfl
  · intro csd document array entries variant harray hrange hok
    unfold createColorSpace at hok
    rw [createColorSpaceImpl_iccBased csd document array entries _ (by decide) harray] at hok
    obtain ⟨alternate, hfinish, -⟩ := createICCBasedColorSpace_ok _ _ _ _ _ hok
    rw [PDFICCBasedColorSpace.finish_of_no_range document entries alternate hrange
      (getColorComponentCount_le_four alternate)] at hfinish
    exact ⟨alternate, (Except.ok.inj hfinish).symm⟩

theorem iccBased_getColor_clips_then_delegates_witness :
    (∃ clipped : PDFColor,
        (PDFAbstractColorSpace.iccBased .deviceGray ![0, 1, 0, 1, 0, 1, 0, 1]).getColor
            (fun x _ => x) [2]
          = PDFAbstractColorSpace.deviceGray.getColor (fun x _ => x) clipped ∧
        clipped.length = [(2 : ℚ)].length ∧
        ∀ (i : Nat) (hi : i < [(2 : ℚ)].length) (hmax : 2 * i + 1 < 8),
          clipped[i]? = some (max ((![0, 1, 0, 1, 0, 1, 0, 1] : Fin 8 → ℚ) ⟨2 * i, by omega⟩)
            (min ([(2 : ℚ)].get ⟨i, hi⟩)
              ((![0, 1, 0, 1, 0, 1, 0, 1] : Fin 8 → ℚ) ⟨2 * i + 1, hmax⟩)))) ∧
      (∃ alternate,
        PDFAbstractColorSpace.iccBased .deviceRGB ![0, 1, 0, 1, 0, 1, 0, 1]
          = .iccBased alternate ![0, 1, 0, 1, 0, 1, 0, 1]) :=
  ⟨iccBased_getColor_clips_then_delegates.1 (fun x _ => x) .deviceGray
      ![0, 1, 0, 1, 0, 1, 0, 1] [2] rfl,
    iccBased_getColor_clips_then_delegates.2 none emptyDocument
      [.name "ICCBased", .stream [("N", .int 3)] []] [("N", .int 3)]
      (.iccBased .deviceRGB ![0, 1, 0, 1, 0, 1, 0, 1])
      ⟨.name "ICCBased", .stream [("N", .int 3)] [], [], [], rfl, rfl, rfl⟩ rfl
      createColorSpace_iccBased_three⟩

theorem createColorSpaceImpl_eq_of_fuel (csd : Option PDFDictionary) (document : PDFDocument)
    (colorSpace : PDFObject) (recursion : Int)
    (result : Except PDFParserException PDFAbstractColorSpace) (hr : recursion ≤ 12)
    (h : createColorSpaceImplFuel 25 csd document colorSpace recursion = some result) :
    createColorSpaceImpl csd document colorSpace recursion = result := by
  have hagree := (fuelAgrees_all 25).1 csd document colorSpace recursion (by omega)
  rw [h] at hagree
  exact (Option.some.inj hagree).symm

/-- C22, counterexample: a stream dictionary with `N` equal to 3 and the explicit
`Alternate` entry `DeviceGray` resolves to an ICCBased colour space with one component; so
does a stream dictionary with `N` equal to 3 and no `Alternate` entry under a resource
dictionary whose `DefaultRGB` is `DeviceGray`. -/
theorem createColorSpace_iccBased_component_count_counterexample :
    (IsICCBasedArray emptyDocument
        [.name "ICCBased", .stream [("N", .int 3), ("Alternate", .name "DeviceGray")] []]
        [("N", .int 3), ("Alternate", .name "DeviceGray")] ∧
      HasComponentCountEntry emptyDocument [("N", .int 3), ("Alternate", .name "DeviceGray")] 3 ∧
      createColorSpace none emptyDocument
          (.array [.name "ICCBased",
            .stream [("N", .int 3), ("Alternate", .name "DeviceGray")] []])
        = .ok (.iccBased .deviceGray ![0, 1, 0, 1, 0, 1, 0, 1]) ∧
      (PDFAbstractColorSpace.iccBased .deviceGray ![0, 1, 0, 1, 0, 1, 0, 1]).getColorComponentCount
        = 1) ∧
    (IsICCBasedArray emptyDocument [.name "ICCBased", .stream [("N", .int 3)] []]
        [("N", .int 3)] ∧
      HasComponentCountEntry emptyDocument [("N", .int 3)] 3 ∧
      PDFDictionary.hasKey [("N", .int 3)] "Alternate" = false ∧
      createColorSpace (some [("DefaultRGB", .name "DeviceGray")]) emptyDocument
          (.array [.name "ICCBased", .stream [("N", .int 3)] []])
        = .ok (.iccBased .deviceGray ![0, 1, 0, 1, 0, 1, 0, 1])) := by
  refine ⟨⟨⟨.name "ICCBased",
        .stream [("N", .int 3), ("Alternate", .name "DeviceGray")] [], [], [], rfl, rfl, rfl⟩,
      ⟨rfl, rfl⟩, ?_, rfl⟩,
    ⟨.name "ICCBased", .stream [("N", .int 3)] [], [], [], rfl, rfl, rfl⟩, ⟨rfl, rfl⟩, rfl, ?_⟩
  · unfold createColorSpace COLOR_SPACE_MAX_LEVEL_OF_RECURSION
    rw [createColorSpaceImpl_iccBased none emptyDocument _
      [("N", .int 3), ("Alternate", .name "DeviceGray")] 12 (by omega)
      ⟨.name "ICCBased", .stream [("N", .int 3), ("Alternate", .name "DeviceGray")] [],
        [], [], rfl, rfl, rfl⟩]
    unfold createICCBasedColorSpace
    have halternate : PDFDictionary.hasKey [("N", .int 3), ("Alternate", .name "DeviceGray")]
        "Alternate" = true := rfl
    have hnested : createColorSpaceImpl none emptyDocument
        (emptyDocument.getObject
          (PDFDictionary.get [("N", .int 3), ("Alternate", .name "DeviceGray")] "Alternate")) 11
        = .ok .deviceGray :=
      createColorSpaceImpl_eq_of_fuel _ _ _ _ _ (by omega) rfl
    simp only [ICCBASED_ALTERNATE, halternate, ↓reduceIte, Int.reduceSub, hnested]
    simp [PDFICCBasedColorSpace.finish_of_no_range emptyDocument
      [("N", .int 3), ("Alternate", .name "DeviceGray")] .deviceGray rfl
      (by simp [PDFAbstractColorSpace.getColorComponentCount])]
  · unfold createColorSpace COLOR_SPACE_MAX_LEVEL_OF_RECURSION
    rw [createColorSpaceImpl_iccBased _ emptyDocument _ [("N", .int 3)] 12 (by omega)
      ⟨.name "ICCBased", .stream [("N", .int 3)] [], [], [], rfl, rfl, rfl⟩]
    unfold createICCBasedColorSpace
    have hread : readIntegerFromDictionary emptyDocument [("N", .int 3)] "N" 0 = 3 := rfl
    have halternate : PDFDictionary.hasKey [("N", .int 3)] "Alternate" = false := rfl
    have hnested : createColorSpaceImpl (some [("DefaultRGB", .name "DeviceGray")])
        emptyDocument (.name "DeviceRGB") 11 = .ok .deviceGray :=
      createColorSpaceImpl_eq_of_fuel _ _ _ _ _ (by omega) rfl
    simp only [ICCBASED_ALTERNATE, halternate, ICCBASED_N, hread, Int.reduceSub]
    simp [hnested, PDFICCBasedColorSpace.finish_of_no_range emptyDocument [("N", .int 3)] .deviceGray rfl
      (by simp [PDFAbstractColorSpace.getColorComponentCount])]

/-- C22, amended: an ICCBased colour space returned by `createColorSpace` for an array
`[ICCBased, stream]` has the component count of its alternate colour space, one of 1, 3
and 4. With an explicit `Alternate` entry the alternate is the resolved entry, whatever
`N` is; without one, and when the resource dictionary has no override key for the device
family derived from `N`, the component count is `N`. -/
theorem createColorSpace_iccBased_component_count (csd : Option PDFDictionary)
    (document : PDFDocument) (array : List PDFObject) (entries : PDFDictionary)
    (variant : PDFAbstractColorSpace)
    (harray : IsICCBasedArray document array entries)
    (hok : createColorSpace csd document (.array array) = .ok variant) :
    ∃ alternate range,
      variant = .iccBased alternate range ∧
      variant.getColorComponentCount = alternate.getColorComponentCount ∧
      (variant.getColorComponentCount = 1 ∨ variant.getColorComponentCount = 3 ∨
        variant.getColorComponentCount = 4) ∧
      (entries.hasKey "Alternate" = true →
        createColorSpaceImpl csd document (document.getObject (entries.get "Alternate")) 11
          = .ok alternate) ∧
      (entries.hasKey "Alternate" = false →
        (∀ key device, IsDerivedAlternate (readIntegerFromDictionary document entries "N" 0)
            key device → hasKey? csd key = false) →
        (variant.getColorComponentCount : Int)
          = readIntegerFromDictionary document entries "N" 0) := by
  unfold createColorSpace at hok
  rw [createColorSpaceImpl_iccBased csd document array entries _ (by decide) harray] at hok
  obtain ⟨alternate, hfinish, hcases⟩ := createICCBasedColorSpace_ok _ _ _ _ _ hok
  obtain ⟨range, rfl⟩ := iccBased_finish_ok _ _ _ _ hfinish
  refine ⟨alternate, range, rfl, rfl, getColorComponentCount_mem _, ?_, ?_⟩
  · intro halt
    rcases hcases with ⟨_, h⟩ | ⟨h, _⟩
    · exact h
    · rw [h] at halt; cases halt
  · intro halt hkey
    rcases hcases with ⟨h, _⟩ | ⟨_, hN⟩
    · rw [h] at halt; cases halt
    · rcases hN with ⟨hN, himpl⟩ | ⟨hN, himpl⟩ | ⟨hN, himpl⟩
      · have := createColorSpace_device_of_no_override csd document "DeviceGray" "DefaultGray"
          .deviceGray 1 (COLOR_SPACE_MAX_LEVEL_OF_RECURSION - 1) (by decide)
          (Or.inl ⟨Or.inl rfl, rfl, rfl, rfl⟩)
          (hkey "DefaultGray" .deviceGray (Or.inl ⟨hN, rfl, rfl⟩))
        rw [this] at himpl
        cases himpl
        rw [hN]; rfl
      · have := createColorSpace_device_of_no_override csd document "DeviceRGB" "DefaultRGB"
          .deviceRGB 3 (COLOR_SPACE_MAX_LEVEL_OF_RECURSION - 1) (by decide)
          (Or.inr (Or.inl ⟨Or.inl rfl, rfl, rfl, rfl⟩))
          (hkey "DefaultRGB" .deviceRGB (Or.inr (Or.inl ⟨hN, rfl, rfl⟩)))
        rw [this] at himpl
        cases himpl
        rw [hN]; rfl
      · have := createColorSpace_device_of_no_override csd document "DeviceCMYK" "DefaultCMYK"
          .deviceCMYK 4 (COLOR_SPACE_MAX_LEVEL_OF_RECURSION - 1) (by decide)
          (Or.inr (Or.inr ⟨Or.inl rfl, rfl, rfl, rfl⟩))
          (hkey "DefaultCMYK" .deviceCMYK (Or.inr (Or.inr ⟨hN, rfl, rfl⟩)))
        rw [this] at himpl
        cases himpl
        rw [hN]; rfl

theorem createColorSpace_iccBased_component_count_witness :
    ∃ alternate range,
      PDFAbstractColorSpace.iccBased .deviceRGB ![0, 1, 0, 1, 0, 1, 0, 1]
        = .iccBased alternate range ∧
      (PDFAbstractColorSpace.iccBased .deviceRGB
          ![0, 1, 0, 1, 0, 1, 0, 1]).getColorComponentCount
        = alternate.getColorComponentCount ∧
      ((PDFAbstractColorSpace.iccBased .deviceRGB
          ![0, 1, 0, 1, 0, 1, 0, 1]).getColorComponentCount = 1 ∨
        (PDFAbstractColorSpace.iccBased .deviceRGB
          ![0, 1, 0, 1, 0, 1, 0, 1]).getColorComponentCount = 3 ∨
        (PDFAbstractColorSpace.iccBased .deviceRGB
          ![0, 1, 0, 1, 0, 1, 0, 1]).getColorComponentCount = 4) ∧
      (PDFDictionary.hasKey [("N", .int 3)] "Alternate" = true →
        createColorSpaceImpl none emptyDocument
            (emptyDocument.getObject (PDFDictionary.get [("N", .int 3)] "Alternate")) 11
          = .ok alternate) ∧
      (PDFDictionary.hasKey [("N", .int 3)] "Alternate" = false →
        (∀ key device,
          IsDerivedAlternate (readIntegerFromDictionary emptyDocument [("N", .int 3)] "N" 0)
            key device → hasKey? none key = false) →
        ((PDFAbstractColorSpace.iccBased .deviceRGB
            ![0, 1, 0, 1, 0, 1, 0, 1]).getColorComponentCount : Int)
          = readIntegerFromDictionary emptyDocument [("N", .int 3)] "N" 0) :=
  createColorSpace_iccBased_component_count none emptyDocument
    [.name "ICCBased", .stream [("N", .int 3)] []] [("N", .int 3)]
    (.iccBased .deviceRGB ![0, 1, 0, 1, 0, 1, 0, 1])
    ⟨.name "ICCBased", .stream [("N", .int 3)] [], [], [], rfl, rfl, rfl⟩
    createColorSpace_iccBased_three

/-- C25: every colour space returned by `createColorSpace` has a component count that is
1, 3 or 4, so at least 1 and at most 4; every tuple it accepts has at most four components;
and the check `rangeSize > ranges.size()` of ICCBased construction never fires: the tail of
`createICCBasedColorSpace` returns an ICCBased colour space for every alternate. -/
theorem createColorSpace_component_count_bounds :
    (∀ (csd : Option PDFDictionary) (document : PDFDocument) (colorSpace : PDFObject)
        (variant : PDFAbstractColorSpace),
        createColorSpace csd document colorSpace = .ok variant →
        (variant.getColorComponentCount = 1 ∨ variant.getColorComponentCount = 3 ∨
          variant.getColorComponentCount = 4) ∧
        1 ≤ variant.getColorComponentCount ∧ variant.getColorComponentCount ≤ 4 ∧
        ∀ (powf : ℚ → ℚ → ℚ) (color : PDFColor),
          variant.getColor powf color ≠ none → color.length ≤ 4) ∧
      (∀ (document : PDFDocument) (dictionary : PDFDictionary)
        (alternate : PDFAbstractColorSpace),
        ¬ (2 * alternate.getColorComponentCount > 8) ∧
        PDFICCBasedColorSpace.finish document dictionary alternate
          ≠ .error .iccTooMuchComponents ∧
        ∃ range, PDFICCBasedColorSpace.finish document dictionary alternate
          = .ok (.iccBased alternate range)) := by
  refine ⟨?_, ?_⟩
  · intro csd document colorSpace variant _
    refine ⟨getColorComponentCount_mem variant, getColorComponentCount_pos variant,
      getColorComponentCount_le_four variant, ?_⟩
    intro powf color hcolor
    by_contra hlength
    have hne : color.length ≠ variant.getColorComponentCount := by
      have := getColorComponentCount_le_four variant
      omega
    exact hcolor (getColor_none_of_length_ne powf variant color hne)
  · intro document dictionary alternate
    have h8 : ¬ (2 * alternate.getColorComponentCount > 8) := by
      have := getColorComponentCount_le_four alternate
      omega
    have hfinish : ∃ range, PDFICCBasedColorSpace.finish document dictionary alternate
        = .ok (.iccBased alternate range) := by
      unfold PDFICCBasedColorSpace.finish
      simp only [h8, ↓reduceIte]
      exact ⟨_, rfl⟩
    refine ⟨h8, ?_, hfinish⟩
    obtain ⟨range, hrange⟩ := hfinish
    rw [hrange]
    simp

theorem createColorSpace_component_count_bounds_witness :
    ((PDFAbstractColorSpace.iccBased .deviceRGB
          ![0, 1, 0, 1, 0, 1, 0, 1]).getColorComponentCount = 1 ∨
        (PDFAbstractColorSpace.iccBased .deviceRGB
          ![0, 1, 0, 1, 0, 1, 0, 1]).getColorComponentCount = 3 ∨
        (PDFAbstractColorSpace.iccBased .deviceRGB
          ![0, 1, 0, 1, 0, 1, 0, 1]).getColorComponentCount = 4) ∧
      1 ≤ (PDFAbstractColorSpace.iccBased .deviceRGB
          ![0, 1, 0, 1, 0, 1, 0, 1]).getColorComponentCount ∧
      (PDFAbstractColorSpace.iccBased .deviceRGB
          ![0, 1, 0, 1, 0, 1, 0, 1]).getColorComponentCount ≤ 4 ∧
      ∀ (powf : ℚ → ℚ → ℚ) (color : PDFColor),
        (PDFAbstractColorSpace.iccBased .deviceRGB ![0, 1, 0, 1, 0, 1, 0, 1]).getColor powf color
          ≠ none → color.length ≤ 4 :=
  createColorSpace_component_count_bounds.1 none emptyDocument
    (.array [.name "ICCBased", .stream [("N", .int 3)] []])
    (.iccBased .deviceRGB ![0, 1, 0, 1, 0, 1, 0, 1]) createColorSpace_iccBased_three

/-! ### Separation conversion, device clipping, Lab formula -/

theorem outputBuffer_of_length (written : List ℚ) (slots : Nat)
    (hlength : written.length = slots) : outputBuffer written slots = written := by
  subst hlength
  apply List.ext_getElem?
  intro i
  by_cases hi : i < written.length
  · simp [outputBuffer, hi, List.getD_eq_getElem?_getD]
  · have hle : written.length ≤ i := not_lt.mp hi
    have hrange : (List.range written.length)[i]? = none :=
      List.getElem?_eq_none (by simpa using hle)
    simp only [outputBuffer, List.getElem?_map, hrange, List.getElem?_eq_none hle]
    rfl

/-- C23: for every Separation colour space and every tint `t`, when the tint transform
succeeds on `t` with an output that has one value per component of the alternate colour
space, `getColor [t]` is the colour the alternate colour space gives to that output; when
the tint transform fails, `getColor [t]` returns the invalid colour, it does not fail. -/
theorem separation_getColor_tint_transform (powf : ℚ → ℚ → ℚ) (colorName : String)
    (alternate : PDFAbstractColorSpace) (tintTransform : PDFFunction) (t : PDFColorComponent) :
    (∀ o : List ℚ,
        tintTransform.apply [t] alternate.getColorComponentCount = some o →
        o.length = alternate.getColorComponentCount →
        (PDFAbstractColorSpace.separation colorName alternate tintTransform).getColor powf [t]
          = alternate.getColor powf o) ∧
      (tintTransform.apply [t] alternate.getColorComponentCount = none →
        (PDFAbstractColorSpace.separation colorName alternate tintTransform).getColor powf [t]
          = some QColor.invalid) := by
  refine ⟨?_, ?_⟩
  · intro o happly hlength
    simp [PDFAbstractColorSpace.getColor, happly, outputBuffer_of_length o _ hlength]
  · intro happly
    simp [PDFAbstractColorSpace.getColor, happly]

theorem separation_getColor_tint_transform_witness :
    ((PDFAbstractColorSpace.separation "Gold" .deviceCMYK
          ⟨fun x n => some (List.replicate n (x.headD 0))⟩).getColor (fun x _ => x) [1 / 2]
        = PDFAbstractColorSpace.deviceCMYK.getColor (fun x _ => x) [1 / 2, 1 / 2, 1 / 2, 1 / 2]) ∧
      ((PDFAbstractColorSpace.separation "Gold" .deviceCMYK ⟨fun _ _ => none⟩).getColor
          (fun x _ => x) [1 / 2]
        = some QColor.invalid) :=
  ⟨(separation_getColor_tint_transform (fun x _ => x) "Gold" .deviceCMYK
      ⟨fun x n => some (List.replicate n (x.headD 0))⟩ (1 / 2)).1
      [1 / 2, 1 / 2, 1 / 2, 1 / 2] rfl rfl,
    (separation_getColor_tint_transform (fun x _ => x) "Gold" .deviceCMYK
      ⟨fun _ _ => none⟩ (1 / 2)).2 rfl⟩

/-- C28: the device colour spaces clip every component to [0, 1]: `getColor` of a tuple is
`getColor` of the tuple with every component clipped, DeviceGray gives the RGB colour with
R = G = B = `clip01 t0`, DeviceRGB the RGB colour of the three clipped components and
DeviceCMYK the CMYK colour of the four clipped components; `clip01 x` is `x` clipped to
[0, 1]. -/
theorem device_getColor_clips (powf : ℚ → ℚ → ℚ) :
    (∀ t : PDFColor,
        PDFAbstractColorSpace.deviceGray.getColor powf t
          = PDFAbstractColorSpace.deviceGray.getColor powf (t.map clip01) ∧
        PDFAbstractColorSpace.deviceRGB.getColor powf t
          = PDFAbstractColorSpace.deviceRGB.getColor powf (t.map clip01) ∧
        PDFAbstractColorSpace.deviceCMYK.getColor powf t
          = PDFAbstractColorSpace.deviceCMYK.getColor powf (t.map clip01)) ∧
      (∀ t0 : PDFColorComponent,
        PDFAbstractColorSpace.deviceGray.getColor powf [t0]
          = some (.rgb (clip01 t0) (clip01 t0) (clip01 t0) 1)) ∧
      (∀ t0 t1 t2 : PDFColorComponent,
        PDFAbstractColorSpace.deviceRGB.getColor powf [t0, t1, t2]
          = some (.rgb (clip01 t0) (clip01 t1) (clip01 t2) 1)) ∧
      (∀ c m y k : PDFColorComponent,
        PDFAbstractColorSpace.deviceCMYK.getColor powf [c, m, y, k]
          = some (.cmyk (clip01 c) (clip01 m) (clip01 y) (clip01 k) 1)) ∧
      (∀ x : PDFColorComponent, clip01 x = max 0 (min x 1)) := by
  refine ⟨?_, ?_, ?_, ?_, ?_⟩
  · intro t
    refine ⟨?_, ?_, ?_⟩
    · match t with
      | [] => rfl
      | [t0] => simp [PDFAbstractColorSpace.getColor, clip01_clip01]
      | _ :: _ :: _ => simp [PDFAbstractColorSpace.getColor]
    · match t with
      | [] => rfl
      | [_] => simp [PDFAbstractColorSpace.getColor]
      | [_, _] => simp [PDFAbstractColorSpace.getColor]
      | [t0, t1, t2] => simp [PDFAbstractColorSpace.getColor, fromRGB01, clip01_clip01]
      | _ :: _ :: _ :: _ :: _ => simp [PDFAbstractColorSpace.getColor]
    · match t with
      | [] => rfl
      | [_] => simp [PDFAbstractColorSpace.getColor]
      | [_, _] => simp [PDFAbstractColorSpace.getColor]
      | [_, _, _] => simp [PDFAbstractColorSpace.getColor]
      | [c, m, y, k] => simp [PDFAbstractColorSpace.getColor, clip01_clip01]
      | _ :: _ :: _ :: _ :: _ :: _ => simp [PDFAbstractColorSpace.getColor]
  · intro t0
    simp [PDFAbstractColorSpace.getColor]
  · intro t0 t1 t2
    simp [PDFAbstractColorSpace.getColor, fromRGB01]
  · intro c m y k
    simp [PDFAbstractColorSpace.getColor]
  · intro x
    exact qBound_eq_max_min 0 x 1

theorem qBoundRange_eq_referenceClip (lower upper : Option ℚ) (value : ℚ) :
    qBoundRange lower value upper = referenceClip value lower upper := by
  unfold qBoundRange referenceClip
  cases upper with
  | none =>
    cases lower with
    | none => rfl
    | some l =>
      simp only [qMax]
      split_ifs with h
      · exact (max_eq_right (le_of_lt h)).symm
      · exact (max_eq_left (not_lt.mp h)).symm
  | some u =>
    have hmin : qMin u value = min value u := by
      simp only [qMin]
      split_ifs with h
      · exact (min_eq_right (le_of_lt h)).symm
      · exact (min_eq_left (not_lt.mp h)).symm
    cases lower with
    | none => exact hmin
    | some l =>
      simp only [hmin, qMax]
      split_ifs with h
      · exact (max_eq_right (le_of_lt h)).symm
      · exact (max_eq_left (not_lt.mp h)).symm

theorem labG_eq_referenceG (x : ℚ) : labG x = referenceG x := by
  unfold labG referenceG
  split_ifs <;> ring

/-- C26: for every Lab colour space and every tuple `(L, a, b)`, `getColor` returns the
colour of the reference computation `labReferenceColor`. -/
theorem lab_getColor_eq_reference (powf : ℚ → ℚ → ℚ) (whitePoint blackPoint : PDFColor3)
    (aMin aMax bMin bMax : Option PDFColorComponent) (L a b : PDFColorComponent) :
    (PDFAbstractColorSpace.lab whitePoint blackPoint aMin aMax bMin bMax).getColor powf [L, a, b]
      = some (labReferenceColor whitePoint aMin aMax bMin bMax L a b) := by
  have hclip : ∀ lower value upper : ℚ,
      qBound lower value upper = referenceClip value (some lower) (some upper) :=
    fun lower value upper => qBound_eq_max_min lower value upper
  simp only [PDFAbstractColorSpace.getColor, List.length_cons, List.length_nil, Nat.reduceAdd,
    ↓reduceIte, List.getD_cons_zero, List.getD_cons_succ, labReferenceColor,
    referenceXYZtoRGB, Option.some.injEq, fromRGB01, clip01, hclip,
    qBoundRange_eq_referenceClip, labG_eq_referenceG, convertXYZtoRGB_eq,
    colorMultiplyByFactors, correctionCoefficients]
  simp only [Matrix.cons_val_zero, Matrix.cons_val_one, Matrix.head_cons, Matrix.cons_val_two,
    Matrix.tail_cons]
  congr 2 <;> ring

/-! ### Defaults of the calibrated families -/

/-- C27: for an array whose first element is the family name and whose second element is a
parameter dictionary with none of the keys `WhitePoint`, `BlackPoint`, `Gamma`, `Matrix`,
`Range`, `createColorSpace` returns, for `CalGray`, the white point (0.9505, 1, 1.089), the
black point (0, 0, 0) and gamma 1; for `CalRGB` the same white and black points, the
gammas (1, 1, 1) and the identity matrix; for `Lab` the same white and black points and no
bounds for `a*` and `b*`, and the clipping with no bounds returns its argument. -/
theorem createColorSpace_calibrated_defaults (csd : Option PDFDictionary)
    (document : PDFDocument) (item0 item1 : PDFObject) (rest : List PDFObject)
    (parameters : PDFDictionary)
    (hparameters : document.getObject item1 = .dictionary parameters)
    (hkeys : HasNoCalibrationKeys parameters) :
    (document.getObject item0 = .name "CalGray" →
        createColorSpace csd document (.array (item0 :: item1 :: rest))
          = .ok (.calGray ![9505 / 10000, 1, 1089 / 1000] ![0, 0, 0] 1)) ∧
      (document.getObject item0 = .name "CalRGB" →
        createColorSpace csd document (.array (item0 :: item1 :: rest))
          = .ok (.calRGB ![9505 / 10000, 1, 1089 / 1000] ![0, 0, 0] ![1, 1, 1]
              ![1, 0, 0, 0, 1, 0, 0, 0, 1])) ∧
      (document.getObject item0 = .name "Lab" →
        createColorSpace csd document (.array (item0 :: item1 :: rest))
          = .ok (.lab ![9505 / 10000, 1, 1089 / 1000] ![0, 0, 0] none none none none)) ∧
      (∀ value : PDFColorComponent, qBoundRange none value none = value) := by
  obtain ⟨hwhite, hblack, hgamma, hmatrix, hrange⟩ := hkeys
  refine ⟨?_, ?_, ?_, fun _ => rfl⟩
  · intro hname
    unfold createColorSpace COLOR_SPACE_MAX_LEVEL_OF_RECURSION
    rw [createColorSpaceImpl_array csd document _ "CalGray" 12 (by omega) (by simp)
      (by simpa [PDFArray.getItem] using hname)]
    simp [PDFArray.getItem, hparameters, calibratedColorSpace?,
      PDFCalGrayColorSpace.createCalGrayColorSpace, readNumberArrayFromDictionary,
      readNumberFromDictionary, hwhite, hblack, hgamma, whitePointD65]
    rfl
  · intro hname
    unfold createColorSpace COLOR_SPACE_MAX_LEVEL_OF_RECURSION
    rw [createColorSpaceImpl_array csd document _ "CalRGB" 12 (by omega) (by simp)
      (by simpa [PDFArray.getItem] using hname)]
    simp [PDFArray.getItem, hparameters, calibratedColorSpace?,
      PDFCalRGBColorSpace.createCalRGBColorSpace, readNumberArrayFromDictionary,
      hwhite, hblack, hgamma, hmatrix, whitePointD65]
    rfl
  · intro hname
    unfold createColorSpace COLOR_SPACE_MAX_LEVEL_OF_RECURSION
    rw [createColorSpaceImpl_array csd document _ "Lab" 12 (by omega) (by simp)
      (by simpa [PDFArray.getItem] using hname)]
    simp [PDFArray.getItem, hparameters, calibratedColorSpace?,
      PDFLabColorSpace.createLabColorSpace, readNumberArrayFromDictionary, readLabRange,
      hwhite, hblack, hrange, whitePointD65]
    rfl

theorem createColorSpace_calibrated_defaults_witness :
    (createColorSpace none emptyDocument (.array [.name "CalGray", .dictionary []])
        = .ok (.calGray ![9505 / 10000, 1, 1089 / 1000] ![0, 0, 0] 1)) ∧
      (createColorSpace none emptyDocument (.array [.name "CalRGB", .dictionary []])
        = .ok (.calRGB ![9505 / 10000, 1, 1089 / 1000] ![0, 0, 0] ![1, 1, 1]
            ![1, 0, 0, 0, 1, 0, 0, 0, 1])) ∧
      (createColorSpace none emptyDocument (.array [.name "Lab", .dictionary []])
        = .ok (.lab ![9505 / 10000, 1, 1089 / 1000] ![0, 0, 0] none none none none)) :=
  ⟨(createColorSpace_calibrated_defaults none emptyDocument (.name "CalGray")
      (.dictionary []) [] [] rfl ⟨rfl, rfl, rfl, rfl, rfl⟩).1 rfl,
    (createColorSpace_calibrated_defaults none emptyDocument (.name "CalRGB")
      (.dictionary []) [] [] rfl ⟨rfl, rfl, rfl, rfl, rfl⟩).2.1 rfl,
    (createColorSpace_calibrated_defaults none emptyDocument (.name "Lab")
      (.dictionary []) [] [] rfl ⟨rfl, rfl, rfl, rfl, rfl⟩).2.2.1 rfl⟩

/-! ### Separation resolution -/

/-- C24: for a 4-element array `[Separation, colorantName, alternateSpace, tintTransform]`,
`createColorSpace` succeeds if and only if element 1 dereferences to a name, element 2
resolves (inside the array, with the budget 11 that is left there) to a colour space and
the tint transform function can be constructed from element 3; the colour space returned
is the Separation one over these three, with component count 1; otherwise
`createColorSpace` fails. -/
theorem createColorSpace_separation_iff (csd : Option PDFDictionary) (document : PDFDocument)
    (item0 colorant alternate tint : PDFObject)
    (h0 : document.getObject item0 = .name "Separation") :
    ((∃ result, createColorSpace csd document (.array [item0, colorant, alternate, tint])
        = .ok result) ↔
      (∃ colorName, document.getObject colorant = .name colorName) ∧
      (∃ alternateColorSpace,
        createColorSpaceImpl csd document (document.getObject alternate) 11
          = .ok alternateColorSpace) ∧
      (∃ tintTransform, document.createFunction tint = .ok (some tintTransform))) ∧
    (∀ result, createColorSpace csd document (.array [item0, colorant, alternate, tint])
        = .ok result →
      result.getColorComponentCount = 1 ∧
      ∃ colorName alternateColorSpace tintTransform,
        result = .separation colorName alternateColorSpace tintTransform ∧
        document.getObject colorant = .name colorName ∧
        createColorSpaceImpl csd document (document.getObject alternate) 11
          = .ok alternateColorSpace ∧
        document.createFunction tint = .ok (some tintTransform)) ∧
    ((¬ ∃ result, createColorSpace csd document (.array [item0, colorant, alternate, tint])
        = .ok result) →
      ∃ exception, createColorSpace csd document (.array [item0, colorant, alternate, tint])
        = .error exception) := by
  have hcreate : createColorSpace csd document (.array [item0, colorant, alternate, tint])
      = createSeparationColorSpace csd document [item0, colorant, alternate, tint] 11 := by
    unfold createColorSpace COLOR_SPACE_MAX_LEVEL_OF_RECURSION
    rw [createColorSpaceImpl_separation csd document item0 colorant alternate tint 12
      (by omega) h0]
    rfl
  have hresult : ∀ result,
      createSeparationColorSpace csd document [item0, colorant, alternate, tint] 11
        = .ok result →
      ∃ colorName alternateColorSpace tintTransform,
        result = .separation colorName alternateColorSpace tintTransform ∧
        document.getObject colorant = .name colorName ∧
        createColorSpaceImpl csd document (document.getObject alternate) 11
          = .ok alternateColorSpace ∧
        document.createFunction tint = .ok (some tintTransform) := by
    intro result hok
    unfold createSeparationColorSpace at hok
    simp only [PDFArray.getItem, List.getD_cons_succ, List.getD_cons_zero] at hok
    cases hname : document.getObject colorant with
    | name colorName =>
      rw [hname] at hok
      simp only at hok
      cases himpl : createColorSpaceImpl csd document (document.getObject alternate) 11 with
      | error exception => rw [himpl] at hok; cases hok
      | ok alternateColorSpace =>
        rw [himpl] at hok
        simp only [PDFSeparationColorSpace.finish, PDFArray.getItem, List.getD_cons_succ,
          List.getD_cons_zero] at hok
        cases hfunction : document.createFunction tint with
        | error exception => rw [hfunction] at hok; cases hok
        | ok function =>
          rw [hfunction] at hok
          cases function with
          | none => cases hok
          | some tintTransform =>
            exact ⟨colorName, alternateColorSpace, tintTransform,
              (Except.ok.inj hok).symm, rfl, rfl, rfl⟩
    | _ => rw [hname] at hok; cases hok
  rw [hcreate]
  refine ⟨⟨?_, ?_⟩, ?_, ?_⟩
  · rintro ⟨result, hok⟩
    obtain ⟨colorName, alternateColorSpace, tintTransform, -, h1, h2, h3⟩ := hresult result hok
    exact ⟨⟨colorName, h1⟩, ⟨alternateColorSpace, h2⟩, ⟨tintTransform, h3⟩⟩
  · rintro ⟨⟨colorName, h1⟩, ⟨alternateColorSpace, h2⟩, ⟨tintTransform, h3⟩⟩
    refine ⟨.separation colorName alternateColorSpace tintTransform, ?_⟩
    unfold createSeparationColorSpace
    simp [PDFArray.getItem, h1, h2, h3, PDFSeparationColorSpace.finish]
    rfl
  · intro result hok
    obtain ⟨colorName, alternateColorSpace, tintTransform, rfl, h1, h2, h3⟩ := hresult result hok
    exact ⟨rfl, colorName, alternateColorSpace, tintTransform, rfl, h1, h2, h3⟩
  · intro hnot
    cases hcase : createSeparationColorSpace csd document [item0, colorant, alternate, tint]
        11 with
    | error exception => exact ⟨exception, rfl⟩
    | ok result => exact absurd ⟨result, hcase⟩ hnot

theorem createColorSpace_separation_iff_witness :
    ∃ result, createColorSpace none functionDocument
      (.array [.name "Separation", .name "Gold", .name "DeviceCMYK",
        .dictionary [("FunctionType", .int 2)]]) = .ok result :=
  (createColorSpace_separation_iff none functionDocument
    (.name "Separation") (.name "Gold") (.name "DeviceCMYK")
    (.dictionary [("FunctionType", .int 2)]) rfl).1.mpr
    ⟨⟨"Gold", rfl⟩,
      ⟨.deviceCMYK, createColorSpace_device_of_no_override none _ "DeviceCMYK" "DefaultCMYK"
        .deviceCMYK 4 11 (by decide) (Or.inr (Or.inr ⟨Or.inl rfl, rfl, rfl, rfl⟩)) rfl⟩,
      ⟨_, rfl⟩⟩

/-! ### DeviceN arrays -/

/-- C29, the code at a DeviceN array: `createColorSpaceImpl` has no branch for the name
`DeviceN`; a 4-element array `[DeviceN, colorantNames, alternateSpace, tintTransform]` is
resolved as the bare name `DeviceN` and, when the resource dictionary has no entry of
that name, `createColorSpace` fails with the invalid colour space error, whatever the
colorant names, the alternate colour space and the tint transform are. -/
theorem createColorSpace_deviceN_not_dispatched (csd : Option PDFDictionary)
    (document : PDFDocument) (item0 colorantNames alternate tint : PDFObject)
    (h0 : document.getObject item0 = .name "DeviceN")
    (hkey : hasKey? csd "DeviceN" = false) :
    createColorSpace csd document (.array [item0, colorantNames, alternate, tint])
      = .error .invalidColorSpace := by
  unfold createColorSpace COLOR_SPACE_MAX_LEVEL_OF_RECURSION
  rw [createColorSpaceImpl_array_shorthand csd document _ "DeviceN" 12 (by omega) (by simp)
    (by simpa [PDFArray.getItem] using h0)
    ⟨by simp, by simp, by simp⟩]
  rw [createColorSpaceImpl_name csd document "DeviceN" (12 - 1) (by omega)]
  rw [createDeviceColorSpaceByNameImpl_unknown csd document "DeviceN" (12 - 1 - 1) (by omega)
    (by simp [IsDeviceName])]
  simp [hkey]

theorem createColorSpace_deviceN_not_dispatched_witness :
    createColorSpace none functionDocument (.name "DeviceCMYK") = .ok .deviceCMYK ∧
      (∃ tintTransform,
        functionDocument.createFunction (.dictionary [("FunctionType", .int 4)])
          = .ok (some tintTransform)) ∧
      createColorSpace none functionDocument
          (.array [.name "DeviceN", .array [.name "Cyan", .name "Magenta"],
            .name "DeviceCMYK", .dictionary [("FunctionType", .int 4)]])
        = .error .invalidColorSpace :=
  ⟨createColorSpace_eq_of_fuel _ _ _ _ rfl, ⟨_, rfl⟩,
    createColorSpace_deviceN_not_dispatched none functionDocument (.name "DeviceN")
      (.array [.name "Cyan", .name "Magenta"]) (.name "DeviceCMYK")
      (.dictionary [("FunctionType", .int 4)]) rfl rfl⟩

/-! ### Effective alias depth -/

theorem createColorSpaceImpl_tooComplex (csd : Option PDFDictionary) (document : PDFDocument)
    (colorSpace : PDFObject) (recursion : Int) (hr : recursion ≤ 1) :
    createColorSpaceImpl csd document colorSpace recursion = .error .tooComplex :=
  run_tooComplex_of_exhausted csd document (.impl colorSpace) recursion rfl (by omega)

theorem createDeviceColorSpaceByNameImpl_tooComplex (csd : Option PDFDictionary)
    (document : PDFDocument) (name : String) (recursion : Int) (hr : recursion ≤ 1) :
    createDeviceColorSpaceByNameImpl csd document name recursion = .error .tooComplex :=
  run_tooComplex_of_exhausted csd document (.byName name) recursion rfl (by omega)

/-- One hop of a plain alias: a name that is not a device name and is a key of the resource
dictionary resolves, with two units of the budget less, as its entry. -/
theorem createColorSpaceImpl_alias_hop (dictionary : PDFDictionary) (document : PDFDocument)
    (name : String) (recursion : Int) (hname : ¬ IsDeviceName name)
    (hkey : dictionary.hasKey name = true) :
    createColorSpaceImpl (some dictionary) document (.name name) recursion
      = if recursion ≤ 2 then .error .tooComplex
        else createColorSpaceImpl (some dictionary) document
          (document.getObject (dictionary.get name)) (recursion - 2) := by
  by_cases h1 : recursion ≤ 1
  · rw [createColorSpaceImpl_tooComplex _ _ _ _ h1]
    have : recursion ≤ 2 := by omega
    simp [this]
  · rw [createColorSpaceImpl_name _ _ _ _ (by omega)]
    by_cases h2 : recursion ≤ 2
    · rw [createDeviceColorSpaceByNameImpl_tooComplex _ _ _ _ (by omega)]
      simp [h2]
    · rw [createDeviceColorSpaceByNameImpl_unknown _ _ _ _ (by omega) hname]
      have hsub : recursion - 1 - 1 = recursion - 2 := by ring
      simp [hasKey?, get?, hkey, h2, hsub]

theorem createColorSpaceImpl_deviceRGB (dictionary : PDFDictionary) (document : PDFDocument)
    (recursion : Int) (hdefault : dictionary.hasKey "DefaultRGB" = false) :
    createColorSpaceImpl (some dictionary) document (.name "DeviceRGB") recursion
      = if recursion ≤ 2 then .error .tooComplex else .ok .deviceRGB := by
  by_cases h1 : recursion ≤ 1
  · rw [createColorSpaceImpl_tooComplex _ _ _ _ h1]
    have : recursion ≤ 2 := by omega
    simp [this]
  · rw [createColorSpaceImpl_name _ _ _ _ (by omega)]
    by_cases h2 : recursion ≤ 2
    · rw [createDeviceColorSpaceByNameImpl_tooComplex _ _ _ _ (by omega)]
      simp [h2]
    · rw [createDeviceColorSpaceByNameImpl_eq _ _ _ _ (by omega)]
      simp [hasKey?, hdefault, h2]
      rfl

/-- The resolution of the first name of a plain alias chain of `k` names with the budget
`recursion`: DeviceRGB when `2 k + 3 ≤ recursion`, the too complex error otherwise. -/
theorem createColorSpaceImpl_alias_chain (dictionary : PDFDictionary) (document : PDFDocument)
    (hdefault : dictionary.hasKey "DefaultRGB" = false) (first : String) (rest : List String)
    (recursion : Int) (hchain : IsAliasChain dictionary document (first :: rest)) :
    createColorSpaceImpl (some dictionary) document (.name first) recursion
      = if 2 * ((first :: rest).length : Int) + 3 ≤ recursion then .ok .deviceRGB
        else .error .tooComplex := by
  induction rest generalizing first recursion with
  | nil =>
    obtain ⟨hname, hkey, hentry⟩ := hchain
    rw [createColorSpaceImpl_alias_hop dictionary document first recursion hname hkey, hentry,
      createColorSpaceImpl_deviceRGB dictionary document _ hdefault]
    simp only [List.length_singleton, Nat.cast_one]
    split_ifs <;> first | rfl | omega
  | cons next rest ih =>
    obtain ⟨hname, hkey, hentry, hrest⟩ := hchain
    rw [createColorSpaceImpl_alias_hop dictionary document first recursion hname hkey, hentry,
      ih next (recursion - 2) hrest]
    simp only [List.length_cons, Nat.cast_add, Nat.cast_one]
    split_ifs <;> first | rfl | omega

/-- C30: for a resource dictionary without `DefaultRGB` in which the names `A1, ..., Ak`,
none of them a device name, form a plain alias chain to `DeviceRGB`, `createColorSpace` on
the name `A1` returns DeviceRGB if and only if `k ≤ 4`, and fails with the too complex
error for every `k ≥ 5`; each hop takes two units of the budget. -/
theorem createColorSpace_alias_chain_depth (dictionary : PDFDictionary)
    (document : PDFDocument) (first : String) (rest : List String)
    (hdefault : dictionary.hasKey "DefaultRGB" = false)
    (hchain : IsAliasChain dictionary document (first :: rest)) :
    (createColorSpace (some dictionary) document (.name first) = .ok .deviceRGB ↔
        (first :: rest).length ≤ 4) ∧
      (5 ≤ (first :: rest).length →
        createColorSpace (some dictionary) document (.name first) = .error .tooComplex) ∧
      (∀ recursion : Int, 2 < recursion →
        createColorSpaceImpl (some dictionary) document (.name first) recursion
          = createColorSpaceImpl (some dictionary) document
              (document.getObject (dictionary.get first)) (recursion - 2)) := by
  have hcreate := createColorSpaceImpl_alias_chain dictionary document hdefault first rest
    COLOR_SPACE_MAX_LEVEL_OF_RECURSION hchain
  have hhop : ¬ IsDeviceName first ∧ dictionary.hasKey first = true := by
    cases rest with
    | nil => exact ⟨hchain.1, hchain.2.1⟩
    | cons next rest => exact ⟨hchain.1, hchain.2.1⟩
  unfold createColorSpace
  rw [hcreate]
  unfold COLOR_SPACE_MAX_LEVEL_OF_RECURSION
  refine ⟨?_, ?_, ?_⟩
  · constructor
    · intro h
      split_ifs at h with hle
      simp only [List.length_cons] at hle ⊢
      omega
    · intro hlength
      rw [if_pos (by simp only [List.length_cons] at hlength ⊢; omega)]
  · intro hlength
    rw [if_neg (by simp only [List.length_cons] at hlength ⊢; omega)]
  · intro recursion hr
    rw [createColorSpaceImpl_alias_hop dictionary document first recursion hhop.1 hhop.2]
    have : ¬ recursion ≤ 2 := by omega
    simp [this]

theorem createColorSpace_alias_chain_depth_witness :
    createColorSpace (some plainAliasChainDictionary) emptyDocument (.name "B2")
        = .ok .deviceRGB ∧
      createColorSpace (some plainAliasChainDictionary) emptyDocument (.name "B1")
        = .error .tooComplex :=
  ⟨(createColorSpace_alias_chain_depth plainAliasChainDictionary emptyDocument "B2"
      ["B3", "B4", "B5"] rfl
      ⟨by simp [IsDeviceName], rfl, rfl, by simp [IsDeviceName], rfl, rfl,
        by simp [IsDeviceName], rfl, rfl, by simp [IsDeviceName], rfl, rfl⟩).1.mpr (by decide),
    (createColorSpace_alias_chain_depth plainAliasChainDictionary emptyDocument "B1"
      ["B2", "B3", "B4", "B5"] rfl
      ⟨by simp [IsDeviceName], rfl, rfl, by simp [IsDeviceName], rfl, rfl,
        by simp [IsDeviceName], rfl, rfl, by simp [IsDeviceName], rfl, rfl,
        by simp [IsDeviceName], rfl, rfl⟩).2.1 (by decide)⟩

/-! ### Default override that re-enters itself -/

theorem createColorSpaceImpl_deviceRGB_reenters (dictionary : PDFDictionary)
    (document : PDFDocument) (array : List PDFObject) (entries : PDFDictionary)
    (hkey : dictionary.hasKey "DefaultRGB" = true)
    (hentry : document.getObject (dictionary.get "DefaultRGB") = .array array)
    (harray : IsICCBasedArray document array entries)
    (halternate : HasDeviceRGBAlternate document entries) (n : Nat) :
    ∀ recursion : Int, recursion.toNat ≤ n →
      createColorSpaceImpl (some dictionary) document (.name "DeviceRGB") recursion
        = .error .tooComplex := by
  induction n with
  | zero =>
    intro recursion hr
    exact createColorSpaceImpl_tooComplex _ _ _ _ (by omega)
  | succ n ih =>
    intro recursion hr
    by_cases h1 : recursion ≤ 1
    · exact createColorSpaceImpl_tooComplex _ _ _ _ h1
    rw [createColorSpaceImpl_name _ _ _ _ (by omega)]
    by_cases h2 : recursion - 1 ≤ 1
    · exact createDeviceColorSpaceByNameImpl_tooComplex _ _ _ _ h2
    rw [createDeviceColorSpaceByNameImpl_eq _ _ _ _ (by omega)]
    simp only [COLOR_SPACE_NAME_DEVICE_GRAY, COLOR_SPACE_NAME_ABBREVIATION_DEVICE_GRAY,
      COLOR_SPACE_NAME_DEVICE_RGB, COLOR_SPACE_NAME_ABBREVIATION_DEVICE_RGB,
      COLOR_SPACE_NAME_DEFAULT_RGB, hasKey?, get?, hkey, hentry, ↓reduceIte, true_or,
      String.reduceEq, or_self]
    by_cases h3 : recursion - 1 - 1 ≤ 1
    · exact createColorSpaceImpl_tooComplex _ _ _ _ h3
    rw [createColorSpaceImpl_iccBased _ _ _ entries _ (by omega) harray]
    have hnested : ∀ colorSpace, colorSpace = PDFObject.name "DeviceRGB" →
        createColorSpaceImpl (some dictionary) document colorSpace (recursion - 1 - 1 - 1)
          = .error .tooComplex := by
      intro colorSpace hcolorSpace
      rw [hcolorSpace]
      exact ih _ (by omega)
    obtain ⟨hN, hcases⟩ := halternate
    have hread : readIntegerFromDictionary document entries ICCBASED_N 0 = 3 := by
      simp [readIntegerFromDictionary, readInteger, hN.1, hN.2]
    unfold createICCBasedColorSpace
    rcases hcases with hnone | ⟨hsome, hname⟩
    · simp only [ICCBASED_ALTERNATE, hnone, hread, COLOR_SPACE_NAME_DEVICE_RGB]
      simp [hnested _ rfl]
      rfl
    · simp only [ICCBASED_ALTERNATE, hsome, ↓reduceIte, hnested _ hname]
      rfl

theorem createColorSpaceImpl_deviceGray_reenters (dictionary : PDFDictionary)
    (document : PDFDocument) (hkey : dictionary.hasKey "DefaultGray" = true)
    (hentry : document.getObject (dictionary.get "DefaultGray") = .name "DeviceGray")
    (n : Nat) :
    ∀ recursion : Int, recursion.toNat ≤ n →
      createColorSpaceImpl (some dictionary) document (.name "DeviceGray") recursion
        = .error .tooComplex := by
  induction n with
  | zero =>
    intro recursion hr
    exact createColorSpaceImpl_tooComplex _ _ _ _ (by omega)
  | succ n ih =>
    intro recursion hr
    by_cases h1 : recursion ≤ 1
    · exact createColorSpaceImpl_tooComplex _ _ _ _ h1
    rw [createColorSpaceImpl_name _ _ _ _ (by omega)]
    by_cases h2 : recursion - 1 ≤ 1
    · exact createDeviceColorSpaceByNameImpl_tooComplex _ _ _ _ h2
    rw [createDeviceColorSpaceByNameImpl_eq _ _ _ _ (by omega)]
    simp only [COLOR_SPACE_NAME_DEVICE_GRAY, COLOR_SPACE_NAME_DEFAULT_GRAY, hasKey?, get?,
      hkey, hentry, ↓reduceIte, true_or]
    exact ih _ (by omega)

/-- C31: when the resource dictionary maps `DefaultRGB` to an array `[ICCBased, stream]`
whose stream dictionary has `N` equal to 3 and either no `Alternate` entry or the
`Alternate` name `DeviceRGB`, `createColorSpace` on the bare name `DeviceRGB` fails with
the too complex error: the alternate of the ICCBased colour space is resolved through the
same override, with every budget. The same holds for the bare name `DeviceGray` when
`DefaultGray` maps to the name `DeviceGray`. -/
theorem createColorSpace_default_override_reenters (dictionary : PDFDictionary)
    (document : PDFDocument) :
    (∀ (array : List PDFObject) (entries : PDFDictionary),
        dictionary.hasKey "DefaultRGB" = true →
        document.getObject (dictionary.get "DefaultRGB") = .array array →
        IsICCBasedArray document array entries →
        HasDeviceRGBAlternate document entries →
        createColorSpace (some dictionary) document (.name "DeviceRGB")
            = .error .tooComplex ∧
          ∀ recursion : Int, 3 < recursion →
            createColorSpaceImpl (some dictionary) document (.name "DeviceRGB") recursion
              = createICCBasedColorSpace (some dictionary) document entries
                  (recursion - 3)) ∧
      (dictionary.hasKey "DefaultGray" = true →
        document.getObject (dictionary.get "DefaultGray") = .name "DeviceGray" →
        createColorSpace (some dictionary) document (.name "DeviceGray")
          = .error .tooComplex) := by
  refine ⟨?_, ?_⟩
  · intro array entries hkey hentry harray halternate
    refine ⟨createColorSpaceImpl_deviceRGB_reenters dictionary document array entries hkey
      hentry harray halternate _ _ (le_refl _), ?_⟩
    intro recursion hr
    rw [createColorSpaceImpl_name _ _ _ _ (by omega),
      createDeviceColorSpaceByNameImpl_eq _ _ _ _ (by omega)]
    simp only [COLOR_SPACE_NAME_DEVICE_GRAY, COLOR_SPACE_NAME_ABBREVIATION_DEVICE_GRAY,
      COLOR_SPACE_NAME_DEVICE_RGB, COLOR_SPACE_NAME_ABBREVIATION_DEVICE_RGB,
      COLOR_SPACE_NAME_DEFAULT_RGB, hasKey?, get?, hkey, hentry, ↓reduceIte, true_or,
      String.reduceEq, or_self]
    rw [createColorSpaceImpl_iccBased _ _ _ entries _ (by omega) harray]
    have hsub : recursion - 1 - 1 - 1 = recursion - 3 := by ring
    rw [hsub]
  · intro hkey hentry
    exact createColorSpaceImpl_deviceGray_reenters dictionary document hkey hentry _ _
      (le_refl _)

theorem createColorSpace_default_override_reenters_witness :
    createColorSpace
        (some [("DefaultRGB", .array [.name "ICCBased", .stream [("N", .int 3)] []]),
          ("DefaultGray", .name "DeviceGray")])
        emptyDocument (.name "DeviceRGB") = .error .tooComplex ∧
      createColorSpace
        (some [("DefaultRGB", .array [.name "ICCBased", .stream [("N", .int 3)] []]),
          ("DefaultGray", .name "DeviceGray")])
        emptyDocument (.name "DeviceGray") = .error .tooComplex :=
  ⟨((createColorSpace_default_override_reenters
      [("DefaultRGB", .array [.name "ICCBased", .stream [("N", .int 3)] []]),
        ("DefaultGray", .name "DeviceGray")] emptyDocument).1
      [.name "ICCBased", .stream [("N", .int 3)] []] [("N", .int 3)] rfl rfl
      ⟨.name "ICCBased", .stream [("N", .int 3)] [], [], [], rfl, rfl, rfl⟩
      ⟨⟨rfl, rfl⟩, Or.inl rfl⟩).1,
    (createColorSpace_default_override_reenters
      [("DefaultRGB", .array [.name "ICCBased", .stream [("N", .int 3)] []]),
        ("DefaultGray", .name "DeviceGray")] emptyDocument).2 rfl rfl⟩

/-! ### The budget decides between success and the too complex error -/

set_option maxHeartbeats 800000 in
theorem budgetDecides_all (m : Nat) : BudgetDecides m := by
  induction m with
  | zero =>
    refine ⟨?_, ?_, ?_, ?_, ?_⟩ <;> intro _ _ _ r _ _ h <;> omega
  | succ m ih =>
    obtain ⟨ihImpl, ihName, ihICC, ihIndexed, ihSeparation⟩ := ih
    refine ⟨?_, ?_, ?_, ?_, ?_⟩
    · intro csd document colorSpace recursion recursion' outcome hm hle hne hout
      unfold createColorSpaceImpl at hout ⊢
      by_cases hr : recursion - 1 ≤ 0
      · simp only [hr, ↓reduceDIte] at hout
        exact absurd hout.symm hne
      · have hr' : ¬ recursion' - 1 ≤ 0 := by omega
        have h1 : 2 * (recursion - 1).toNat + 2 ≤ m := by omega
        have h2 : 2 * (recursion - 1).toNat + 1 ≤ m := by omega
        have hle' : recursion - 1 ≤ recursion' - 1 := by omega
        simp only [hr, hr', ↓reduceDIte] at hout ⊢
        cases colorSpace <;> try (exact hout)
        · exact ihName _ _ _ _ _ _ h2 hle' hne hout
        · simp only at hout ⊢
          revert hout
          split
          · split
            · split
              · exact id
              · split
                · exact ihICC _ _ _ _ _ _ h1 hle' hne
                · split
                  · exact ihIndexed _ _ _ _ _ _ h1 hle' hne
                  · split
                    · exact ihSeparation _ _ _ _ _ _ h1 hle' hne
                    · exact ihImpl _ _ _ _ _ _ h2 hle' hne
            · exact id
          · exact id
    · intro csd document name recursion recursion' outcome hm hle hne hout
      unfold createDeviceColorSpaceByNameImpl at hout ⊢
      by_cases hr : recursion - 1 ≤ 0
      · simp only [hr, ↓reduceDIte] at hout
        exact absurd hout.symm hne
      · have hr' : ¬ recursion' - 1 ≤ 0 := by omega
        have h2 : 2 * (recursion - 1).toNat + 1 ≤ m := by omega
        have hle' : recursion - 1 ≤ recursion' - 1 := by omega
        simp only [hr, hr', ↓reduceDIte] at hout ⊢
        revert hout
        repeat' split
        all_goals first | exact id | exact ihImpl _ _ _ _ _ _ h2 hle' hne
    · intro csd document dictionary recursion recursion' outcome hm hle hne hout
      have h2 : 2 * recursion.toNat + 1 ≤ m := by omega
      unfold createICCBasedColorSpace at hout ⊢
      dsimp only at hout ⊢
      repeat' split at hout
      all_goals first
        | (rename_i hnested
           have hmono := ihImpl _ _ _ _ recursion' _ h2 hle
             (by first
               | (intro h; cases h; done)
               | (intro h; injection h with h; subst h; exact hne hout.symm)) hnested
           simp_all)
        | simp_all
    · intro csd document array recursion recursion' outcome hm hle hne hout
      have h2 : 2 * recursion.toNat + 1 ≤ m := by omega
      unfold createIndexedColorSpace at hout ⊢
      repeat' split at hout
      all_goals first
        | (rename_i hnested
           have hmono := ihImpl _ _ _ _ recursion' _ h2 hle
             (by first
               | (intro h; cases h; done)
               | (intro h; injection h with h; subst h; exact hne hout.symm)) hnested
           simp_all)
    · intro csd document array recursion recursion' outcome hm hle hne hout
      have h2 : 2 * recursion.toNat + 1 ≤ m := by omega
      unfold createSeparationColorSpace at hout ⊢
      repeat' split at hout
      all_goals first
        | (rename_i hnested
           have hmono := ihImpl _ _ _ _ recursion' _ h2 hle
             (by first
               | (intro h; cases h; done)
               | (intro h; injection h with h; subst h; exact hne hout.symm)) hnested
           simp_all)
        | simp_all

/-- C32: budget monotonicity. If `createColorSpaceImpl` returns the colour space `V` with
the budget `r`, it returns the same `V` with every larger budget; two budgets that both
succeed build the same colour space; and an outcome that changes from `r` to a larger
budget was the too complex error at `r`. -/
theorem createColorSpaceImpl_budget_monotone (csd : Option PDFDictionary)
    (document : PDFDocument) (colorSpace : PDFObject) (recursion recursion' : Int) :
    (∀ V, recursion ≤ recursion' →
        createColorSpaceImpl csd document colorSpace recursion = .ok V →
        createColorSpaceImpl csd document colorSpace recursion' = .ok V) ∧
      (∀ V V', createColorSpaceImpl csd document colorSpace recursion = .ok V →
        createColorSpaceImpl csd document colorSpace recursion' = .ok V' → V = V') ∧
      (recursion ≤ recursion' →
        createColorSpaceImpl csd document colorSpace recursion
            ≠ createColorSpaceImpl csd document colorSpace recursion' →
        createColorSpaceImpl csd document colorSpace recursion = .error .tooComplex) := by
  have hdecides : ∀ (r r' : Int) outcome, r ≤ r' → outcome ≠ .error .tooComplex →
      createColorSpaceImpl csd document colorSpace r = outcome →
      createColorSpaceImpl csd document colorSpace r' = outcome :=
    fun r r' outcome hle hne hout =>
      (budgetDecides_all (2 * r.toNat + 1)).1 csd document colorSpace r r' outcome
        (le_refl _) hle hne hout
  refine ⟨?_, ?_, ?_⟩
  · intro V hle hok
    exact hdecides _ _ _ hle (by simp) hok
  · intro V V' hok hok'
    rcases le_total recursion recursion' with hle | hle
    · have := hdecides _ _ _ hle (by simp) hok
      rw [this] at hok'
      exact Except.ok.inj hok'
    · have := hdecides _ _ _ hle (by simp) hok'
      rw [this] at hok
      exact (Except.ok.inj hok).symm
  · intro hle hchange
    by_contra hne
    exact hchange (hdecides _ _ _ hle hne rfl).symm

theorem createColorSpaceImpl_budget_monotone_witness :
    createColorSpaceImpl (some aliasChainDictionary) emptyDocument (.name "A2") 12
        = .ok .deviceRGB ∧
      createColorSpaceImpl (some aliasChainDictionary) emptyDocument (.name "A1") 11
        = .error .tooComplex :=
  ⟨(createColorSpaceImpl_budget_monotone (some aliasChainDictionary) emptyDocument
      (.name "A2") 9 12).1 .deviceRGB (by decide)
      (createColorSpaceImpl_eq_of_fuel _ _ _ _ _ (by decide) rfl),
    (createColorSpaceImpl_budget_monotone (some aliasChainDictionary) emptyDocument
      (.name "A1") 11 12).2.2 (by decide)
      (by rw [createColorSpaceImpl_eq_of_fuel (some aliasChainDictionary) emptyDocument
              (.name "A1") 11 (.error .tooComplex) (by decide) rfl,
            createColorSpaceImpl_eq_of_fuel (some aliasChainDictionary) emptyDocument
              (.name "A1") 12 (.ok .deviceRGB) (by decide) rfl]
          simp)⟩

/-! ### Indexed lookup stays in bounds -/

/-- C33: for every Indexed colour space returned by `createColorSpace` and every tuple `[t]`,
the byte offset that `getColor` computes is not negative and `offset + c - 1` is below the
table length, `c` being the component count of the base colour space: the bounds assertion
holds, every byte read lies inside the lookup table, and `getColor` is the `getColor` of
the base colour space on the `c` decoded bytes. -/
theorem indexed_getColor_lookup_in_bounds (csd : Option PDFDictionary)
    (document : PDFDocument) (descriptor : PDFObject) (baseColorSpace : PDFAbstractColorSpace)
    (colors : QByteArray) (maxValue : Int)
    (hok : createColorSpace csd document descriptor
      = .ok (.indexed baseColorSpace colors maxValue))
    (t : PDFColorComponent) :
    0 ≤ qBound MIN_VALUE (truncToInt t) maxValue * baseColorSpace.getColorComponentCount ∧
      qBound MIN_VALUE (truncToInt t) maxValue * baseColorSpace.getColorComponentCount
        + baseColorSpace.getColorComponentCount - 1 < colors.length ∧
      (∀ i : Nat, i < baseColorSpace.getColorComponentCount →
        (qBound MIN_VALUE (truncToInt t) maxValue
          * baseColorSpace.getColorComponentCount).toNat + i < colors.length) ∧
      ∀ powf : ℚ → ℚ → ℚ,
        (PDFAbstractColorSpace.indexed baseColorSpace colors maxValue).getColor powf [t]
          = baseColorSpace.getColor powf
              (decodeColor colors
                (qBound MIN_VALUE (truncToInt t) maxValue
                  * baseColorSpace.getColorComponentCount).toNat
                baseColorSpace.getColorComponentCount) := by
  obtain ⟨-, hmax, hcolors⟩ := createColorSpace_wellFormed csd document descriptor _ hok
  obtain ⟨hlow, hhigh⟩ := colorIndex_bounds maxValue t hmax
  have hpos := getColorComponentCount_pos baseColorSpace
  have hoffset : 0 ≤ qBound MIN_VALUE (truncToInt t) maxValue
      * (baseColorSpace.getColorComponentCount : Int) :=
    mul_nonneg hlow (by omega)
  have hassert : qBound MIN_VALUE (truncToInt t) maxValue
      * (baseColorSpace.getColorComponentCount : Int)
      + baseColorSpace.getColorComponentCount - 1 < colors.length := by
    rw [hcolors]
    nlinarith
  refine ⟨hoffset, hassert, ?_, ?_⟩
  · intro i hi
    omega
  · intro powf
    simp [PDFAbstractColorSpace.getColor, hassert]

theorem indexed_getColor_lookup_in_bounds_witness :
    0 ≤ qBound MIN_VALUE (truncToInt 7) 1
        * PDFAbstractColorSpace.deviceRGB.getColorComponentCount ∧
      qBound MIN_VALUE (truncToInt 7) 1 * PDFAbstractColorSpace.deviceRGB.getColorComponentCount
        + PDFAbstractColorSpace.deviceRGB.getColorComponentCount - 1
        < ([1, 2, 3, 4, 5, 255] : QByteArray).length ∧
      (∀ i : Nat, i < PDFAbstractColorSpace.deviceRGB.getColorComponentCount →
        (qBound MIN_VALUE (truncToInt 7) 1
          * PDFAbstractColorSpace.deviceRGB.getColorComponentCount).toNat + i
          < ([1, 2, 3, 4, 5, 255] : QByteArray).length) ∧
      ∀ powf : ℚ → ℚ → ℚ,
        (PDFAbstractColorSpace.indexed .deviceRGB [1, 2, 3, 4, 5, 255] 1).getColor powf [7]
          = PDFAbstractColorSpace.deviceRGB.getColor powf
              (decodeColor [1, 2, 3, 4, 5, 255]
                (qBound MIN_VALUE (truncToInt 7) 1
                  * PDFAbstractColorSpace.deviceRGB.getColorComponentCount).toNat
                PDFAbstractColorSpace.deviceRGB.getColorComponentCount) :=
  indexed_getColor_lookup_in_bounds none emptyDocument
    (.array [.name "Indexed", .name "DeviceRGB", .int 1, .string [1, 2, 3, 4, 5, 255]])
    .deviceRGB [1, 2, 3, 4, 5, 255] 1 (createColorSpace_eq_of_fuel _ _ _ _ rfl) 7

/-! ### Calibrated families: black point, gamut -/

/-- C35: the black point is ignored. Two CalGray, two CalRGB or two Lab colour spaces that
differ only in their black point return the same `getColor` result on every tuple and the
same default colour. -/
theorem getColor_black_point_ignored (powf : ℚ → ℚ → ℚ) (whitePoint : PDFColor3)
    (blackPoint blackPoint' : PDFColor3) :
    (∀ (gamma : PDFColorComponent) (color : PDFColor),
        (PDFAbstractColorSpace.calGray whitePoint blackPoint gamma).getColor powf color
          = (PDFAbstractColorSpace.calGray whitePoint blackPoint' gamma).getColor powf color ∧
        (PDFAbstractColorSpace.calGray whitePoint blackPoint gamma).getDefaultColor powf
          = (PDFAbstractColorSpace.calGray whitePoint blackPoint' gamma).getDefaultColor powf) ∧
      (∀ (gamma : PDFColor3) (matrix : PDFColorComponentMatrix_3x3) (color : PDFColor),
        (PDFAbstractColorSpace.calRGB whitePoint blackPoint gamma matrix).getColor powf color
          = (PDFAbstractColorSpace.calRGB whitePoint blackPoint' gamma matrix).getColor powf
              color ∧
        (PDFAbstractColorSpace.calRGB whitePoint blackPoint gamma matrix).getDefaultColor powf
          = (PDFAbstractColorSpace.calRGB whitePoint blackPoint' gamma matrix).getDefaultColor
              powf) ∧
      (∀ (aMin aMax bMin bMax : Option PDFColorComponent) (color : PDFColor),
        (PDFAbstractColorSpace.lab whitePoint blackPoint aMin aMax bMin bMax).getColor powf color
          = (PDFAbstractColorSpace.lab whitePoint blackPoint' aMin aMax bMin bMax).getColor powf
              color ∧
        (PDFAbstractColorSpace.lab whitePoint blackPoint aMin aMax bMin bMax).getDefaultColor
            powf
          = (PDFAbstractColorSpace.lab whitePoint blackPoint' aMin aMax bMin bMax).getDefaultColor
              powf) := by
  refine ⟨?_, ?_, ?_⟩
  · intro gamma color
    simp only [PDFAbstractColorSpace.getDefaultColor, PDFAbstractColorSpace.getColor,
      PDFAbstractColorSpace.getColorComponentCount, and_self]
  · intro gamma matrix color
    simp only [PDFAbstractColorSpace.getDefaultColor, PDFAbstractColorSpace.getColor,
      PDFAbstractColorSpace.getColorComponentCount, and_self]
  · intro aMin aMax bMin bMax color
    simp only [PDFAbstractColorSpace.getDefaultColor, PDFAbstractColorSpace.getColor,
      PDFAbstractColorSpace.getColorComponentCount, and_self]

theorem clip01_mem (x : PDFColorComponent) : 0 ≤ clip01 x ∧ clip01 x ≤ 1 := by
  rw [clip01, qBound_eq_max_min]
  exact ⟨le_max_left _ _, max_le (by norm_num) (min_le_right _ _)⟩

/-- C36: for DeviceGray, DeviceRGB, CalGray, CalRGB and Lab (the calibrated ones with a
white point that maps to non-zero RGB) and every tuple of the right arity, `getColor`
returns an RGB colour whose three channels lie in [0, 1] and whose alpha is 1. -/
theorem getColor_in_gamut (powf : ℚ → ℚ → ℚ) (colorSpace : PDFAbstractColorSpace)
    (color : PDFColor) (hfamily : IsRGBFamily colorSpace)
    (hlength : color.length = colorSpace.getColorComponentCount) :
    ∃ r g b : ℚ, colorSpace.getColor powf color = some (.rgb r g b 1) ∧
      (0 ≤ r ∧ r ≤ 1) ∧ (0 ≤ g ∧ g ≤ 1) ∧ (0 ≤ b ∧ b ≤ 1) := by
  have hfrom : ∀ rgb : PDFColor3, ∃ r g b : ℚ,
      some (fromRGB01 rgb) = some (QColor.rgb r g b 1) ∧
        (0 ≤ r ∧ r ≤ 1) ∧ (0 ≤ g ∧ g ≤ 1) ∧ (0 ≤ b ∧ b ≤ 1) :=
    fun rgb => ⟨_, _, _, rfl, clip01_mem _, clip01_mem _, clip01_mem _⟩
  cases colorSpace with
  | deviceGray =>
    simp only [PDFAbstractColorSpace.getColorComponentCount] at hlength
    simp only [PDFAbstractColorSpace.getColor, hlength, ↓reduceIte]
    exact ⟨_, _, _, rfl, clip01_mem _, clip01_mem _, clip01_mem _⟩
  | deviceRGB =>
    simp only [PDFAbstractColorSpace.getColorComponentCount] at hlength
    simp only [PDFAbstractColorSpace.getColor, hlength, ↓reduceIte]
    exact hfrom _
  | calGray whitePoint blackPoint gamma =>
    simp only [PDFAbstractColorSpace.getColorComponentCount] at hlength
    simp only [PDFAbstractColorSpace.getColor, hlength, ↓reduceIte]
    exact hfrom _
  | calRGB whitePoint blackPoint gamma matrix =>
    simp only [PDFAbstractColorSpace.getColorComponentCount] at hlength
    simp only [PDFAbstractColorSpace.getColor, hlength, ↓reduceIte]
    exact hfrom _
  | lab whitePoint blackPoint aMin aMax bMin bMax =>
    simp only [PDFAbstractColorSpace.getColorComponentCount] at hlength
    simp only [PDFAbstractColorSpace.getColor, hlength, ↓reduceIte]
    exact hfrom _
  | _ => exact absurd hfamily (by simp [IsRGBFamily])

theorem getColor_in_gamut_witness :
    ∃ r g b : ℚ,
      (PDFAbstractColorSpace.lab whitePointD65 ![0, 0, 0] none none none none).getColor
          (fun x _ => x) [150, 300, -300] = some (.rgb r g b 1) ∧
        (0 ≤ r ∧ r ≤ 1) ∧ (0 ≤ g ∧ g ≤ 1) ∧ (0 ≤ b ∧ b ≤ 1) :=
  getColor_in_gamut (fun x _ => x)
    (.lab whitePointD65 ![0, 0, 0] none none none none) [150, 300, -300]
    whitePointD65_invertible rfl

/-! ### Lab inverse companding, matrix application order -/

theorem labG_mono (x y : PDFColorComponent) (hxy : x ≤ y) : labG x ≤ labG y := by
  unfold labG
  split_ifs with hx hy hy
  · have hx0 : (0 : ℚ) ≤ x := le_trans (by norm_num) hx
    have h3 : x ^ 3 ≤ y ^ 3 := pow_le_pow_left₀ hx0 hxy 3
    calc x * x * x = x ^ 3 := by ring
      _ ≤ y ^ 3 := h3
      _ = y * y * y := by ring
  · exact absurd (le_trans hx hxy) hy
  · have hy0 : (0 : ℚ) ≤ 6 / 29 := by norm_num
    have h3 : (6 / 29 : ℚ) ^ 3 ≤ y ^ 3 := pow_le_pow_left₀ hy0 hy 3
    have hx' : x < 6 / 29 := not_le.mp hx
    calc (108 / 841 : ℚ) * (x - 4 / 29) ≤ (6 / 29) ^ 3 := by norm_num; linarith
      _ ≤ y ^ 3 := h3
      _ = y * y * y := by ring
  · linarith

/-- The function `g` of the Lab conversion is continuous at the point 6/29 where its two
branches meet. -/
theorem labG_continuous_at_break (ε : ℚ) (hε : 0 < ε) :
    ∃ δ : ℚ, 0 < δ ∧ ∀ x : PDFColorComponent, |x - 6 / 29| < δ →
      |labG x - labG (6 / 29)| < ε := by
  refine ⟨min 1 (ε / 5), lt_min one_pos (by positivity), ?_⟩
  intro x hx
  have h1 : |x - 6 / 29| < 1 := lt_of_lt_of_le hx (min_le_left _ _)
  have h5 : |x - 6 / 29| < ε / 5 := lt_of_lt_of_le hx (min_le_right _ _)
  have hbreak : labG (6 / 29) = 216 / 24389 := by
    unfold labG
    norm_num
  rw [abs_lt] at h1 h5
  rw [hbreak, abs_lt]
  unfold labG
  split_ifs with hcase
  · have hd : 0 ≤ x - 6 / 29 := by linarith
    have hq : x * x * x - 216 / 24389
        = (x - 6 / 29) * (x * x + x * (6 / 29) + (6 / 29) * (6 / 29)) := by ring
    have hfactor : x * x + x * (6 / 29) + (6 / 29) * (6 / 29) ≤ 5 := by nlinarith
    have hfactor0 : 0 ≤ x * x + x * (6 / 29) + (6 / 29) * (6 / 29) := by nlinarith
    constructor
    · nlinarith
    · nlinarith
  · have hcase' : x < 6 / 29 := not_le.mp hcase
    constructor
    · linarith
    · linarith

/-- C37: the function `g` of the Lab conversion takes the value 216/24389 at 6/29, which
is also the value of its linear branch there; it is non-decreasing; it maps (0 + 16)/116
to 0; it is continuous at 6/29; and a Lab colour space whose ranges contain 0 converts
(0, 0, 0) to black. -/
theorem labG_continuous_monotone :
    labG (6 / 29) = 216 / 24389 ∧
      (6 / 29 : ℚ) * (6 / 29) * (6 / 29) = (108 / 841) * (6 / 29 - 4 / 29) ∧
      (∀ x : PDFColorComponent, x < 6 / 29 → labG x = (108 / 841) * (x - 4 / 29)) ∧
      (∀ x : PDFColorComponent, 6 / 29 ≤ x → labG x = x * x * x) ∧
      (∀ x y : PDFColorComponent, x ≤ y → labG x ≤ labG y) ∧
      labG ((0 + 16) / 116) = 0 ∧
      (∀ ε : ℚ, 0 < ε → ∃ δ : ℚ, 0 < δ ∧ ∀ x : PDFColorComponent, |x - 6 / 29| < δ →
        |labG x - labG (6 / 29)| < ε) ∧
      (∀ (powf : ℚ → ℚ → ℚ) (whitePoint blackPoint : PDFColor3)
          (aMin aMax bMin bMax : Option PDFColorComponent),
        RangeContainsZero aMin aMax → RangeContainsZero bMin bMax →
        (PDFAbstractColorSpace.lab whitePoint blackPoint aMin aMax bMin bMax).getColor powf
            [0, 0, 0] = some QColor.black) := by
  refine ⟨?_, by norm_num, ?_, ?_, labG_mono, ?_, labG_continuous_at_break, ?_⟩
  · unfold labG
    norm_num
  · intro x hx
    unfold labG
    rw [if_neg (not_le.mpr hx)]
  · intro x hx
    unfold labG
    rw [if_pos hx]
  · unfold labG
    norm_num
  · intro powf whitePoint blackPoint aMin aMax bMin bMax ha hb
    have hL : qBound (0 : ℚ) 0 100 = 0 := by
      rw [qBound_eq_max_min]
      norm_num
    have hg : labG ((0 + 16) / 116) = 0 := by
      unfold labG
      norm_num
    have hxyz : colorMultiplyByFactors whitePoint ![0, 0, 0] = ![0, 0, 0] := by
      funext i
      fin_cases i <;> simp [colorMultiplyByFactors]
    have hrgb : convertXYZtoRGB ![0, 0, 0] = ![0, 0, 0] := by
      rw [convertXYZtoRGB_eq]
      simp
    have hcal : colorMultiplyByFactors ![0, 0, 0] (correctionCoefficients whitePoint)
        = ![0, 0, 0] := by
      funext i
      fin_cases i <;> simp [colorMultiplyByFactors]
    simp only [PDFAbstractColorSpace.getColor, List.length_cons, List.length_nil,
      Nat.reduceAdd, ↓reduceIte, List.getD_cons_zero, List.getD_cons_succ, hL,
      qBoundRange_zero aMin aMax ha, qBoundRange_zero bMin bMax hb, zero_div, add_zero,
      sub_zero, hg, hxyz, hrgb, hcal]
    simp [fromRGB01, clip01_zero, QColor.black]

theorem labG_continuous_monotone_witness :
    labG (1 / 10) ≤ labG (1 / 2) ∧
      (PDFAbstractColorSpace.lab whitePointD65 ![0, 0, 0] (some (-100)) (some 100) none
          none).getColor (fun x _ => x) [0, 0, 0] = some QColor.black :=
  ⟨labG_continuous_monotone.2.2.2.2.1 (1 / 10) (1 / 2) (by norm_num),
    labG_continuous_monotone.2.2.2.2.2.2.2 (fun x _ => x) whitePointD65 ![0, 0, 0]
      (some (-100)) (some 100) none none
      ⟨fun value h => (by cases h; norm_num), fun value h => (by cases h; norm_num)⟩
      ⟨fun value h => (by cases h), fun value h => (by cases h)⟩⟩

/-- C38: the product of a 3x3 matrix and a vector is
`result[r] = sum over c of values[3 r + c] * v[c]`; the default identity matrix returns
the vector unchanged; `getColor` of CalRGB computes `X = m0 A' + m1 B' + m2 C'`,
`Y = m3 A' + m4 B' + m5 C'`, `Z = m6 A' + m7 B' + m8 C'` from the clipped, gamma-powered
inputs; and the matrix of a resolved CalRGB colour space has the nine numbers of the
`Matrix` array in their order. -/
theorem matrix_application_order :
    (∀ (m_values : PDFColorComponentMatrix_3x3) (color : PDFColor3) (row : Fin 3),
        m_values.mul color row
          = ∑ column : Fin 3,
              m_values ⟨row.val * 3 + column.val,
                by have := row.isLt; have := column.isLt; omega⟩ * color column) ∧
      (∀ color : PDFColor3,
        PDFColorComponentMatrix_3x3.mul ![1, 0, 0, 0, 1, 0, 0, 0, 1] color = color) ∧
      (∀ (powf : ℚ → ℚ → ℚ) (whitePoint blackPoint gamma : PDFColor3)
          (m0 m1 m2 m3 m4 m5 m6 m7 m8 A B C : PDFColorComponent),
        (PDFAbstractColorSpace.calRGB whitePoint blackPoint gamma
            ![m0, m1, m2, m3, m4, m5, m6, m7, m8]).getColor powf [A, B, C]
          = some (fromRGB01 (colorMultiplyByFactors
              (convertXYZtoRGB
                ![m0 * powf (clip01 A) (gamma 0) + m1 * powf (clip01 B) (gamma 1)
                    + m2 * powf (clip01 C) (gamma 2),
                  m3 * powf (clip01 A) (gamma 0) + m4 * powf (clip01 B) (gamma 1)
                    + m5 * powf (clip01 C) (gamma 2),
                  m6 * powf (clip01 A) (gamma 0) + m7 * powf (clip01 B) (gamma 1)
                    + m8 * powf (clip01 C) (gamma 2)])
              (correctionCoefficients whitePoint)))) ∧
      (∀ (document : PDFDocument) (dictionary : PDFDictionary) (items : List PDFObject)
          (values : List ℚ),
        dictionary.hasKey "Matrix" = true →
        document.getObject (dictionary.get "Matrix") = .array items →
        readNumbers? document items = some values →
        values.length = 9 →
        ∃ whitePoint blackPoint gamma matrix,
          PDFCalRGBColorSpace.createCalRGBColorSpace document dictionary
            = .calRGB whitePoint blackPoint gamma matrix ∧
          ∀ i : Fin 9, values[i.val]? = some (matrix i)) := by
  refine ⟨?_, ?_, ?_, ?_⟩
  · intro m_values color row
    fin_cases row <;>
      simp [PDFColorComponentMatrix_3x3.mul, Fin.sum_univ_three]
  · intro color
    rw [matrix_mul_entries]
    funext i
    fin_cases i <;> simp
  · intro powf whitePoint blackPoint gamma m0 m1 m2 m3 m4 m5 m6 m7 m8 A B C
    simp only [PDFAbstractColorSpace.getColor, List.length_cons, List.length_nil,
      Nat.reduceAdd, ↓reduceIte, List.getD_cons_zero, List.getD_cons_succ,
      matrix_mul_entries, colorPowerByFactors, clip01Color3, zero_add]
    rfl
  · intro document dictionary items values hkey hentry hnumbers hlength
    refine ⟨_, _, _, _, rfl, ?_⟩
    intro i
    simp only [readNumberArrayFromDictionary, CAL_MATRIX, hkey, ↓reduceIte, hentry, hnumbers,
      hlength]
    have hi : i.val < values.length := by rw [hlength]; exact i.isLt
    rw [List.getElem?_eq_getElem hi, List.getD_eq_getElem _ _ hi]

theorem matrix_application_order_witness :
    ∃ whitePoint blackPoint gamma matrix,
      PDFCalRGBColorSpace.createCalRGBColorSpace emptyDocument
          [("Matrix", .array [.int 1, .int 2, .int 3, .int 4, .int 5, .int 6, .int 7,
            .int 8, .int 9])]
        = .calRGB whitePoint blackPoint gamma matrix ∧
      ∀ i : Fin 9, ([1, 2, 3, 4, 5, 6, 7, 8, 9] : List ℚ)[i.val]? = some (matrix i) :=
  matrix_application_order.2.2.2 emptyDocument
    [("Matrix", .array [.int 1, .int 2, .int 3, .int 4, .int 5, .int 6, .int 7, .int 8,
      .int 9])]
    [.int 1, .int 2, .int 3, .int 4, .int 5, .int 6, .int 7, .int 8, .int 9]
    [1, 2, 3, 4, 5, 6, 7, 8, 9] rfl rfl (by simp [readNumbers?, PDFObject.asNumber?,
      PDFDocument.getObject]) rfl

end pdf
